import Mathlib

/-!
# raw-photo: adjustment pipeline, base-image cache, session and session table

A shallow embedding of `android/app/src/main/cpp` (`common_types.h`,
`raw_processor.cpp`, `raw_processor_impl.cpp`, `native_bridge.cpp`).

Conventions of the embedding

* `f32`/`f64` values are rationals (`ℚ`) and their arithmetic is exact, except in
  `crop_rect`, where a float is cut to an `int` and the rounding of each operation decides
  the integer: there every operation is rounded to single precision by `f32`.  NaN and
  infinities are outside the model.
* A `cv::Mat` is a value: dimensions, channel count, element depth and the samples in
  row-major interleaved order.
* The image-primitives library (OpenCV) and `<cmath>` are a collaborator `Prim`; the
  decode library (LibRaw) and the file system are a collaborator `Env`.  Every definition
  and theorem is parametric in both.
* A C++ exception is an `Except Exn _` result.  A member function of `RawProcessor`
  that mutates the object returns the new object next to its result.
* Logging has no effect on any value and is left out.
-/

namespace RawEditor

/-! ## common_types.h -/

/-- `ImageData`: a byte buffer with its dimensions. -/
structure ImageData where
  data : List Nat
  width : Nat
  height : Nat
  channels : Nat
  bit_depth : Nat
  deriving DecidableEq, Repr

/-- `ImageData()`. -/
def ImageData.empty : ImageData := ⟨[], 0, 0, 0, 0⟩

/-- `ImageData(w, h, c, depth)`: the buffer is resized to `w * h * c * (depth / 8)`,
a product of `u32` values. -/
def ImageData.alloc (w h c depth : Nat) : ImageData :=
  ⟨List.replicate ((w * h * c * (depth / 8)) % 2 ^ 32) 0, w, h, c, depth⟩

/-- `ImageData::size`. -/
def ImageData.size (d : ImageData) : Nat := d.data.length

/-- `ImageData::is_valid`. -/
def ImageData.is_valid (d : ImageData) : Bool :=
  decide (d.width > 0) && decide (d.height > 0) && decide (d.channels > 0)
    && decide (d.bit_depth > 0)

instance : Inhabited ImageData := ⟨ImageData.empty⟩

/-- `RawMetadata`. -/
structure RawMetadata where
  camera_make : String := ""
  camera_model : String := ""
  lens_model : String := ""
  iso : Nat := 0
  aperture : ℚ := 0
  shutter_speed : String := ""
  focal_length : ℚ := 0
  flash_used : Bool := false
  orientation : Nat := 1
  white_balance : String := ""
  color_space : String := ""
  image_width : Nat := 0
  image_height : Nat := 0
  color_temperature : ℚ := 0
  deriving DecidableEq

instance : Inhabited RawMetadata := ⟨{}⟩

/-- `AdjustmentParams`, with the defaults of the header. -/
structure AdjustmentParams where
  exposure : ℚ := 0
  highlights : ℚ := 0
  shadows : ℚ := 0
  whites : ℚ := 0
  blacks : ℚ := 0
  contrast : ℚ := 0
  brightness : ℚ := 0
  clarity : ℚ := 0
  vibrance : ℚ := 0
  saturation : ℚ := 0
  temperature : ℚ := 0
  tint : ℚ := 0
  hue_red : ℚ := 0
  hue_orange : ℚ := 0
  hue_yellow : ℚ := 0
  hue_green : ℚ := 0
  hue_aqua : ℚ := 0
  hue_blue : ℚ := 0
  hue_purple : ℚ := 0
  hue_magenta : ℚ := 0
  saturation_red : ℚ := 0
  saturation_orange : ℚ := 0
  saturation_yellow : ℚ := 0
  saturation_green : ℚ := 0
  saturation_aqua : ℚ := 0
  saturation_blue : ℚ := 0
  saturation_purple : ℚ := 0
  saturation_magenta : ℚ := 0
  luminance_red : ℚ := 0
  luminance_orange : ℚ := 0
  luminance_yellow : ℚ := 0
  luminance_green : ℚ := 0
  luminance_aqua : ℚ := 0
  luminance_blue : ℚ := 0
  luminance_purple : ℚ := 0
  luminance_magenta : ℚ := 0
  curve_highlights : ℚ := 0
  curve_lights : ℚ := 0
  curve_darks : ℚ := 0
  curve_shadows : ℚ := 0
  sharpening : ℚ := 0
  noise_reduction : ℚ := 0
  color_noise_reduction : ℚ := 0
  lens_distortion : ℚ := 0
  chromatic_aberration : ℚ := 0
  vignetting : ℚ := 0
  rotation : ℚ := 0
  crop_left : ℚ := 0
  crop_top : ℚ := 0
  crop_right : ℚ := 1
  crop_bottom : ℚ := 1
  deriving DecidableEq

/-- `ProcessingOptions` as default-constructed. -/
structure ProcessingOptions where
  output_width : Nat := 0
  output_height : Nat := 0
  quality : Nat := 95
  preview_mode : Bool := false
  use_gpu : Bool := true
  thread_count : Nat := 0
  deriving DecidableEq, Repr

/-- `ProcessingOptions(bool preview)`. -/
def ProcessingOptions.ofPreview (preview : Bool) : ProcessingOptions :=
  if preview then { output_width := 1920, output_height := 1080, quality := 85, preview_mode := true }
  else { preview_mode := false }

/-- `enum class ResultCode`. -/
inductive ResultCode where
  | SUCCESS
  | ERROR_FILE_NOT_FOUND
  | ERROR_INVALID_FORMAT
  | ERROR_MEMORY_ALLOCATION
  | ERROR_PROCESSING_FAILED
  | ERROR_INVALID_PARAMETERS
  | ERROR_LIBRAW_ERROR
  | ERROR_OPENCV_ERROR
  | ERROR_UNKNOWN
  deriving DecidableEq, Repr

/-- The integer value of a `ResultCode` (`static_cast<int32_t>(code)`). -/
def ResultCode.toInt : ResultCode → Int
  | .SUCCESS => 0
  | .ERROR_FILE_NOT_FOUND => -1
  | .ERROR_INVALID_FORMAT => -2
  | .ERROR_MEMORY_ALLOCATION => -3
  | .ERROR_PROCESSING_FAILED => -4
  | .ERROR_INVALID_PARAMETERS => -5
  | .ERROR_LIBRAW_ERROR => -6
  | .ERROR_OPENCV_ERROR => -7
  | .ERROR_UNKNOWN => -999

/-- `ProcessingResult<T>`. -/
structure ProcessingResult (T : Type) where
  code : ResultCode
  data : T
  error_message : String
  deriving DecidableEq

/-- `ProcessingResult(ResultCode c, const T& d)`. -/
def ProcessingResult.ofData {T : Type} (c : ResultCode) (d : T) : ProcessingResult T :=
  ⟨c, d, ""⟩

/-- `ProcessingResult(ResultCode c, const std::string& msg)`: the payload is
default-constructed. -/
def ProcessingResult.ofError {T : Type} [Inhabited T] (c : ResultCode) (msg : String) :
    ProcessingResult T :=
  ⟨c, default, msg⟩

/-- `ProcessingResult::is_success`. -/
def ProcessingResult.is_success {T : Type} (r : ProcessingResult T) : Bool :=
  decide (r.code = ResultCode.SUCCESS)

/-- `ProcessingResult::is_error`. -/
def ProcessingResult.is_error {T : Type} (r : ProcessingResult T) : Bool :=
  decide (r.code ≠ ResultCode.SUCCESS)

abbrev ImageResult := ProcessingResult ImageData
abbrev MetadataResult := ProcessingResult RawMetadata
abbrev BoolResult := ProcessingResult Bool
abbrev StringResult := ProcessingResult String

/-! ## The image-primitives collaborator (OpenCV, `<cmath>`) -/

/-- Element depth of a `cv::Mat`. -/
inductive Depth where
  | CV_8U
  | CV_32F
  | CV_64F
  deriving DecidableEq, Repr

/-- A `cv::Mat` as a value: `data` holds `rows * cols * channels` samples, row-major and
channel-interleaved.  Samples of a `CV_8U` matrix are the integers `0..255`. -/
structure Mat where
  rows : Nat
  cols : Nat
  channels : Nat
  depth : Depth
  data : List ℚ
  deriving DecidableEq

/-- `cv::Mat()`. -/
def Mat.nil : Mat := ⟨0, 0, 1, Depth.CV_8U, []⟩

/-- `cv::Mat::empty`: no elements, or no buffer. -/
def Mat.empty (m : Mat) : Bool :=
  decide (m.rows = 0) || decide (m.cols = 0) || m.data.isEmpty

/-- `cv::Mat::clone`: a deep copy, the same value. -/
def Mat.clone (m : Mat) : Mat := m

/-- `cv::Mat::release`: the buffer is dropped and the sizes are set to zero. -/
def Mat.release (m : Mat) : Mat := { m with rows := 0, cols := 0, data := [] }

/-- A C++ exception: `cv::Exception`, or another `std::exception`; `what` is its text. -/
inductive Exn where
  | cv (what : String)
  | std (what : String)
  deriving DecidableEq, Repr

/-- `Exn.what`: the text of `e.what()`. -/
def Exn.text : Exn → String
  | .cv w => w
  | .std w => w

/-- Colour conversion codes used by the sources. -/
inductive ColorCode where
  | COLOR_BGR2RGB
  | COLOR_RGB2BGR
  | COLOR_BGR2GRAY
  | COLOR_BGR2HSV
  | COLOR_HSV2BGR
  | COLOR_BGR2Lab
  | COLOR_Lab2BGR
  deriving DecidableEq, Repr

/-- Comparison codes of the matrix expressions `a > s` and `a < s`. -/
inductive CmpOp where
  | CMP_GT
  | CMP_LT
  deriving DecidableEq, Repr

/-- The primitives the pipeline calls and does not define.  Each field is one library
call of the sources; a call that can raise returns `Except Exn`. -/
structure Prim where
  /-- `std::pow`. -/
  pow : ℚ → ℚ → ℚ
  /-- `std::sqrt`. -/
  sqrt : ℚ → ℚ
  /-- `cv::cvtColor(src, dst, code)`. -/
  cvtColor : Mat → ColorCode → Except Exn Mat
  /-- `cv::GaussianBlur(src, dst, Size(kw, kh), sigmaX)`. -/
  GaussianBlur : Mat → Nat × Nat → ℚ → Except Exn Mat
  /-- `cv::split`. -/
  split : Mat → Except Exn (List Mat)
  /-- `cv::merge`. -/
  merge : List Mat → Except Exn Mat
  /-- `cv::add(a, b)`, the matrix expression `a + b`. -/
  add : Mat → Mat → Except Exn Mat
  /-- `cv::subtract(a, b)`, the matrix expression `a - b`. -/
  subtract : Mat → Mat → Except Exn Mat
  /-- `cv::multiply(a, b)`, the matrix expression `a.mul(b)`. -/
  multiply : Mat → Mat → Except Exn Mat
  /-- The matrix expression `a * alpha + s` for a scalar `s` (`s - a` is `a * (-1) + s`). -/
  addEx : Mat → ℚ → ℚ → Except Exn Mat
  /-- The matrix expression `a * alpha + b * beta`. -/
  addWeighted : Mat → ℚ → Mat → ℚ → Except Exn Mat
  /-- `cv::add(a, Scalar(s))`, the statement `a += s`. -/
  addScalar : Mat → ℚ → Except Exn Mat
  /-- `cv::compare(a, s, op)`, the matrix expressions `a > s` and `a < s`. -/
  compare : Mat → ℚ → CmpOp → Except Exn Mat
  /-- `cv::inRange(src, Scalar(lo), Scalar(hi), dst)`. -/
  inRange : Mat → ℚ → ℚ → Except Exn Mat
  /-- `cv::bitwise_or(a, b)`, the matrix expression `a | b`. -/
  bitwise_or : Mat → Mat → Except Exn Mat
  /-- `cv::normalize(src, dst, alpha, beta, NORM_MINMAX)`. -/
  normalize : Mat → ℚ → ℚ → Except Exn Mat
  /-- `cv::fastNlMeansDenoisingColored(src, dst, h, hColor, 7, 21)`. -/
  fastNlMeansDenoisingColored : Mat → ℚ → ℚ → Except Exn Mat
  /-- `cv::fastNlMeansDenoising(src, dst, h, 7, 21)`. -/
  fastNlMeansDenoising : Mat → ℚ → Except Exn Mat
  /-- `cv::undistort(src, dst, cameraMatrix, distCoeffs)`. -/
  undistort : Mat → Mat → Mat → Except Exn Mat
  /-- `cv::getRotationMatrix2D(center, angle, scale)`. -/
  getRotationMatrix2D : ℚ × ℚ → ℚ → ℚ → Mat
  /-- `cv::warpAffine(src, dst, M, Size(width, height))`. -/
  warpAffine : Mat → Mat → Nat × Nat → Except Exn Mat
  /-- The samples `cv::resize(src, dst, Size(), fx, fy, INTER_AREA)` writes into a
  destination of the given width and height. -/
  resizeData : Mat → Nat → Nat → List ℚ
  /-- `cv::imdecode(buf, IMREAD_COLOR)`. -/
  imdecode : List Nat → Except Exn Mat
  /-- `cv::imwrite(path, img, params)`. -/
  imwrite : String → Mat → List Int → Except Exn Bool

/-- `cvRound`: the nearest integer, ties to the even one. -/
def cvRound (x : ℚ) : Int :=
  let f : Int := ⌊x⌋
  let r : ℚ := x - f
  if r < 1 / 2 then f
  else if 1 / 2 < r then f + 1
  else if f % 2 = 0 then f else f + 1

/-- `cv::saturate_cast<uchar>(int)`. -/
def saturate_u8 (v : Int) : ℚ :=
  if v < 0 then 0 else if 255 < v then 255 else (v : ℚ)

/-- The depth a `convertTo` with `rtype` writes: `-1` keeps the source depth. -/
def rtypeDepth (src : Depth) : Option Depth → Depth
  | none => src
  | some d => d

/-- The value `convertTo` stores for `v = x * alpha + beta` at a destination depth. -/
def storeAs (d : Depth) (v : ℚ) : ℚ :=
  match d with
  | Depth.CV_8U => saturate_u8 (cvRound v)
  | _ => v

/-- `src.convertTo(dst, rtype, alpha)`: every sample becomes `x * alpha`, stored at the
destination depth (rounded and saturated for `CV_8U`). -/
def Mat.convertTo (m : Mat) (rtype : Option Depth) (alpha : ℚ) : Mat :=
  { m with depth := rtypeDepth m.depth rtype,
           data := m.data.map (fun x => storeAs (rtypeDepth m.depth rtype) (x * alpha)) }

/-- The matrix expression `a * s` and the statement `a *= s`: `a.convertTo(a, -1, s)`. -/
def Mat.scale (m : Mat) (s : ℚ) : Mat := m.convertTo none s

/-- Threshold types of `cv::threshold` used by the sources. -/
inductive ThreshType where
  | THRESH_BINARY
  | THRESH_BINARY_INV
  | THRESH_TRUNC
  | THRESH_TOZERO
  deriving DecidableEq, Repr

/-- One sample of `cv::threshold(src, dst, thresh, maxval, type)`. -/
def threshold1 (thresh maxval : ℚ) (t : ThreshType) (x : ℚ) : ℚ :=
  match t with
  | .THRESH_BINARY => if x > thresh then maxval else 0
  | .THRESH_BINARY_INV => if x > thresh then 0 else maxval
  | .THRESH_TRUNC => if x > thresh then thresh else x
  | .THRESH_TOZERO => if x > thresh then x else 0

/-- `cv::threshold(src, dst, thresh, maxval, type)`. -/
def threshold (m : Mat) (thresh maxval : ℚ) (t : ThreshType) : Mat :=
  { m with data := m.data.map (threshold1 thresh maxval t) }

/-- `cv::LUT(src, lut, dst)` for an 8-bit source and a 256-entry table. -/
def LUT (m : Mat) (lut : List ℚ) : Except Exn Mat :=
  if m.depth ≠ Depth.CV_8U ∨ lut.length ≠ 256 then
    throw (Exn.cv "LUT: assertion failed")
  else
    pure { m with data := m.data.map (fun x => lut.getD (Int.toNat ⌊x⌋) 0) }

/-- The samples of the sub-rectangle `(x, y, width, height)` of `m`. -/
def roiData (m : Mat) (x y width height : Nat) : List ℚ :=
  (List.range height).flatMap (fun r =>
    (m.data.drop (((y + r) * m.cols + x) * m.channels)).take (width * m.channels))

/-- `m(cv::Rect(x, y, width, height)).clone()`: raises unless the rectangle lies inside
the matrix. -/
def Mat.roi (m : Mat) (x y width height : Int) : Except Exn Mat :=
  if 0 ≤ x ∧ 0 ≤ width ∧ x + width ≤ m.cols ∧ 0 ≤ y ∧ 0 ≤ height ∧ y + height ≤ m.rows then
    pure { m with rows := height.toNat, cols := width.toNat,
                  data := roiData m x.toNat y.toNat width.toNat height.toNat }
  else
    throw (Exn.cv "Mat: roi assertion failed")

/-- `cv::resize(src, dst, Size(), fx, fy, INTER_AREA)`: the destination size is
`(cvRound(cols * fx), cvRound(rows * fy))`, which must not be empty. -/
def resize (prim : Prim) (src : Mat) (fx fy : ℚ) : Except Exn Mat :=
  let w := cvRound (src.cols * fx)
  let h := cvRound (src.rows * fy)
  if fx ≤ 0 ∨ fy ≤ 0 ∨ w ≤ 0 ∨ h ≤ 0 then
    throw (Exn.cv "resize: assertion failed")
  else
    pure { src with rows := h.toNat, cols := w.toNat,
                    data := prim.resizeData src w.toNat h.toNat }

/-! ## raw_processor_impl.cpp: the seven stage functions -/

/-- The blend `x.mul(1.0f - mask) + adjusted.mul(mask)` that the stages write out for every
masked adjustment. -/
def blend (prim : Prim) (x adjusted mask : Mat) : Except Exn Mat := do
  let inv ← prim.addEx mask (-1) 1
  let keep ← prim.multiply x inv
  let take ← prim.multiply adjusted mask
  prim.add keep take

/-- The final clamp of a stage: `threshold(.., 0.0, 0.0, THRESH_TOZERO)` then
`threshold(.., 1.0, 1.0, THRESH_TRUNC)`. -/
def clamp01 (m : Mat) : Mat :=
  threshold (threshold m 0 0 ThreshType.THRESH_TOZERO) 1 1 ThreshType.THRESH_TRUNC

/-- `RawProcessor::apply_basic_adjustments`. -/
def apply_basic_adjustments (prim : Prim) (image : Mat) (params : AdjustmentParams) :
    Except Exn Mat :=
  if image.empty then pure image else do
    let result := image.clone
    let result := result.convertTo (some Depth.CV_32F) (1 / 255)
    -- exposure
    let result :=
      if params.exposure ≠ 0 then result.scale (prim.pow 2 params.exposure) else result
    -- highlights and shadows
    let result ←
      if params.highlights ≠ 0 ∨ params.shadows ≠ 0 then do
        let luminance ← prim.cvtColor result ColorCode.COLOR_BGR2GRAY
        let highlight_mask := threshold luminance (7 / 10) 1 ThreshType.THRESH_BINARY
        let highlight_mask ← prim.GaussianBlur highlight_mask (21, 21) 0
        let shadow_mask := threshold luminance (3 / 10) 1 ThreshType.THRESH_BINARY_INV
        let shadow_mask ← prim.GaussianBlur shadow_mask (21, 21) 0
        let result ←
          if params.highlights ≠ 0 then do
            let highlight_factor : ℚ := 1 + params.highlights / 100
            let channels ← prim.split result
            let channels ← channels.mapM
              (fun channel => blend prim channel (channel.scale highlight_factor) highlight_mask)
            prim.merge channels
          else pure result
        if params.shadows ≠ 0 then do
          let shadow_factor : ℚ := 1 + params.shadows / 100
          let channels ← prim.split result
          let channels ← channels.mapM
            (fun channel => blend prim channel (channel.scale shadow_factor) shadow_mask)
          prim.merge channels
        else pure result
      else pure result
    -- whites and blacks
    let result ←
      if params.whites ≠ 0 then do
        let white_factor : ℚ := 1 + params.whites / 100
        let white_mask ← prim.compare result (8 / 10) CmpOp.CMP_GT
        blend prim result (result.scale white_factor) white_mask
      else pure result
    let result ←
      if params.blacks ≠ 0 then do
        let black_factor : ℚ := 1 + params.blacks / 100
        let black_mask ← prim.compare result (2 / 10) CmpOp.CMP_LT
        blend prim result (result.scale black_factor) black_mask
      else pure result
    -- contrast: (result - 0.5f) * contrast_factor + 0.5f
    let result ←
      if params.contrast ≠ 0 then
        let contrast_factor : ℚ := 1 + params.contrast / 100
        prim.addEx result contrast_factor (-(1 / 2) * contrast_factor + 1 / 2)
      else pure result
    -- brightness
    let result ←
      if params.brightness ≠ 0 then prim.addScalar result (params.brightness / 100)
      else pure result
    -- saturation and vibrance
    let result ←
      if params.saturation ≠ 0 ∨ params.vibrance ≠ 0 then do
        let hsv ← prim.cvtColor result ColorCode.COLOR_BGR2HSV
        let hsv_channels ← prim.split hsv
        let hsv_channels :=
          if params.saturation ≠ 0 then
            hsv_channels.set 1 ((hsv_channels.getD 1 Mat.nil).scale (1 + params.saturation / 100))
          else hsv_channels
        let hsv_channels ←
          if params.vibrance ≠ 0 then do
            let s := hsv_channels.getD 1 Mat.nil
            let saturation_mask ← prim.compare s (1 / 2) CmpOp.CMP_LT
            let vibrance_factor : ℚ := 1 + params.vibrance / 100
            let adjusted := s.scale vibrance_factor
            let s ← blend prim s adjusted saturation_mask
            pure (hsv_channels.set 1 s)
          else pure hsv_channels
        let hsv ← prim.merge hsv_channels
        prim.cvtColor hsv ColorCode.COLOR_HSV2BGR
      else pure result
    -- clarity
    let result ←
      if params.clarity ≠ 0 then do
        let blurred ← prim.GaussianBlur result (0, 0) 10
        let unsharp_mask ← prim.subtract result blurred
        let clarity_factor : ℚ := params.clarity / 100
        prim.add result (unsharp_mask.scale clarity_factor)
      else pure result
    let result := clamp01 result
    pure (result.convertTo (some Depth.CV_8U) 255)

/-- `RawProcessor::calculate_white_balance_matrix`: the 3×3 `CV_32F` matrix whose
diagonal is `(b_factor, g_factor, r_factor)`. -/
def calculate_white_balance_matrix (temperature tint : ℚ) : Mat :=
  let temp_factor : ℚ := temperature / 1000
  let tint_factor : ℚ := tint / 100
  let r_factor : ℚ :=
    if temp_factor > 0 then 1 + temp_factor * (3 / 10) else 1 + temp_factor * (2 / 10)
  let g_factor : ℚ := 1
  let b_factor : ℚ :=
    if temp_factor > 0 then 1 - temp_factor * (2 / 10) else 1 - temp_factor * (3 / 10)
  let r_factor := if tint_factor > 0 then r_factor + tint_factor * (1 / 10) else r_factor
  let b_factor := if tint_factor > 0 then b_factor + tint_factor * (1 / 10) else b_factor
  let g_factor :=
    if tint_factor > 0 then g_factor - tint_factor * (5 / 100)
    else g_factor - tint_factor * (1 / 10)
  { rows := 3, cols := 3, channels := 1, depth := Depth.CV_32F,
    data := [b_factor, 0, 0, 0, g_factor, 0, 0, 0, r_factor] }

/-- `m.at<f32>(i, j)` for a single-channel matrix. -/
def Mat.at (m : Mat) (i j : Nat) : ℚ := m.data.getD (i * m.cols + j) 0

/-- `RawProcessor::apply_white_balance`. -/
def apply_white_balance (prim : Prim) (image : Mat) (params : AdjustmentParams) :
    Except Exn Mat :=
  if image.empty ∨ (params.temperature = 0 ∧ params.tint = 0) then pure image else do
    let result := image.clone
    let result := result.convertTo (some Depth.CV_32F) (1 / 255)
    let wb_matrix := calculate_white_balance_matrix params.temperature params.tint
    let channels ← prim.split result
    let result ←
      if channels.length ≥ 3 then do
        let adjusted_r := (channels.getD 2 Mat.nil).scale (wb_matrix.at 0 0)
        let adjusted_g := (channels.getD 1 Mat.nil).scale (wb_matrix.at 1 1)
        let adjusted_b := (channels.getD 0 Mat.nil).scale (wb_matrix.at 2 2)
        let channels := ((channels.set 0 adjusted_b).set 1 adjusted_g).set 2 adjusted_r
        prim.merge channels
      else pure result
    let result := clamp01 result
    pure (result.convertTo (some Depth.CV_8U) 255)

/-- The local `struct ColorRange` of `apply_hsl_adjustments`. -/
structure ColorRange where
  min_hue : ℚ
  max_hue : ℚ
  hue_adj : ℚ
  sat_adj : ℚ
  lum_adj : ℚ
  deriving DecidableEq

/-- The table `color_ranges` of `apply_hsl_adjustments`. -/
def color_ranges (params : AdjustmentParams) : List ColorRange :=
  [ ⟨0, 15, params.hue_red, params.saturation_red, params.luminance_red⟩,
    ⟨15, 45, params.hue_orange, params.saturation_orange, params.luminance_orange⟩,
    ⟨45, 75, params.hue_yellow, params.saturation_yellow, params.luminance_yellow⟩,
    ⟨75, 105, params.hue_green, params.saturation_green, params.luminance_green⟩,
    ⟨105, 135, params.hue_aqua, params.saturation_aqua, params.luminance_aqua⟩,
    ⟨135, 165, params.hue_blue, params.saturation_blue, params.luminance_blue⟩,
    ⟨165, 195, params.hue_purple, params.saturation_purple, params.luminance_purple⟩,
    ⟨195, 225, params.hue_magenta, params.saturation_magenta, params.luminance_magenta⟩,
    ⟨345, 360, params.hue_red, params.saturation_red, params.luminance_red⟩ ]

/-- The flag `has_hsl_adjustments` of `apply_hsl_adjustments`. -/
def has_hsl_adjustments (params : AdjustmentParams) : Bool :=
  decide (params.hue_red ≠ 0) || decide (params.hue_orange ≠ 0)
    || decide (params.hue_yellow ≠ 0) || decide (params.hue_green ≠ 0)
    || decide (params.hue_aqua ≠ 0) || decide (params.hue_blue ≠ 0)
    || decide (params.hue_purple ≠ 0) || decide (params.hue_magenta ≠ 0)
    || decide (params.saturation_red ≠ 0) || decide (params.saturation_orange ≠ 0)
    || decide (params.saturation_yellow ≠ 0) || decide (params.saturation_green ≠ 0)
    || decide (params.saturation_aqua ≠ 0) || decide (params.saturation_blue ≠ 0)
    || decide (params.saturation_purple ≠ 0) || decide (params.saturation_magenta ≠ 0)
    || decide (params.luminance_red ≠ 0) || decide (params.luminance_orange ≠ 0)
    || decide (params.luminance_yellow ≠ 0) || decide (params.luminance_green ≠ 0)
    || decide (params.luminance_aqua ≠ 0) || decide (params.luminance_blue ≠ 0)
    || decide (params.luminance_purple ≠ 0) || decide (params.luminance_magenta ≠ 0)

/-- The hue mask of one range, before it is converted to float and feathered. -/
def hue_mask (prim : Prim) (hue : Mat) (range : ColorRange) : Except Exn Mat :=
  if range.max_hue > 180 then do
    let mask1 ← prim.inRange hue (range.min_hue / 2) 180
    let mask2 ← prim.inRange hue 0 ((range.max_hue - 360) / 2)
    prim.bitwise_or mask1 mask2
  else
    prim.inRange hue (range.min_hue / 2) (range.max_hue / 2)

/-- One iteration of the loop over `color_ranges`, on the triple (hue, saturation, value). -/
def hsl_step (prim : Prim) (hsv : Mat × Mat × Mat) (range : ColorRange) :
    Except Exn (Mat × Mat × Mat) :=
  if range.hue_adj = 0 ∧ range.sat_adj = 0 ∧ range.lum_adj = 0 then pure hsv else do
    let (hue, saturation, value) := hsv
    let mask ← hue_mask prim hue range
    let mask := mask.convertTo (some Depth.CV_32F) (1 / 255)
    let mask ← prim.GaussianBlur mask (5, 5) 2
    let hue ←
      if range.hue_adj ≠ 0 then do
        let adjusted_hue ← prim.addEx hue 1 (range.hue_adj / 2)
        blend prim hue adjusted_hue mask
      else pure hue
    let saturation ←
      if range.sat_adj ≠ 0 then
        let sat_factor : ℚ := 1 + range.sat_adj / 100
        blend prim saturation (saturation.scale sat_factor) mask
      else pure saturation
    let value ←
      if range.lum_adj ≠ 0 then
        let lum_factor : ℚ := 1 + range.lum_adj / 100
        blend prim value (value.scale lum_factor) mask
      else pure value
    pure (hue, saturation, value)

/-- `RawProcessor::apply_hsl_adjustments`. -/
def apply_hsl_adjustments (prim : Prim) (image : Mat) (params : AdjustmentParams) :
    Except Exn Mat :=
  if image.empty then pure image
  else if !has_hsl_adjustments params then pure image
  else do
    let result := image.clone
    let result := result.convertTo (some Depth.CV_32F) (1 / 255)
    let hsv ← prim.cvtColor result ColorCode.COLOR_BGR2HSV
    let hsv_channels ← prim.split hsv
    let hue := hsv_channels.getD 0 Mat.nil
    let saturation := hsv_channels.getD 1 Mat.nil
    let value := hsv_channels.getD 2 Mat.nil
    let (hue, saturation, value) ←
      (color_ranges params).foldlM (hsl_step prim) (hue, saturation, value)
    let hue ← prim.normalize hue 0 180
    let saturation := clamp01 saturation
    let value := clamp01 value
    let hsv_channels := ((hsv_channels.set 0 hue).set 1 saturation).set 2 value
    let hsv ← prim.merge hsv_channels
    let result ← prim.cvtColor hsv ColorCode.COLOR_HSV2BGR
    pure (result.convertTo (some Depth.CV_8U) 255)

/-- The body of the loop that fills the tone-curve table: the entry for index `i`. -/
def tone_curve_entry (params : AdjustmentParams) (i : Nat) : ℚ :=
  let input : ℚ := (i : ℚ) / 255
  let output : ℚ :=
    if input < 1 / 4 then
      let t := input / (1 / 4)
      let shadow_adjust := params.curve_shadows / 100
      input + shadow_adjust * t * (1 - t)
    else if input < 1 / 2 then
      let t := (input - 1 / 4) / (1 / 4)
      let dark_adjust := params.curve_darks / 100
      input + dark_adjust * t * (1 - t)
    else if input < 3 / 4 then
      let t := (input - 1 / 2) / (1 / 4)
      let light_adjust := params.curve_lights / 100
      input + light_adjust * t * (1 - t)
    else
      let t := (input - 3 / 4) / (1 / 4)
      let highlight_adjust := params.curve_highlights / 100
      input + highlight_adjust * t * (1 - t)
  let output := max 0 (min 1 output)
  ((⌊output * 255⌋ : Int) : ℚ)

/-- `RawProcessor::apply_tone_curve`. -/
def apply_tone_curve (image : Mat) (params : AdjustmentParams) : Except Exn Mat :=
  if image.empty then pure image
  else if ¬ (params.curve_highlights ≠ 0 ∨ params.curve_lights ≠ 0
      ∨ params.curve_darks ≠ 0 ∨ params.curve_shadows ≠ 0) then pure image
  else
    let result := image.clone
    let lut := (List.range 256).map (tone_curve_entry params)
    LUT result lut

/-- `RawProcessor::apply_detail_adjustments`. -/
def apply_detail_adjustments (prim : Prim) (image : Mat) (params : AdjustmentParams) :
    Except Exn Mat :=
  if image.empty then pure image else do
    let result := image.clone
    -- sharpened = result + (result - blurred) * (sharpening / 100)
    let result ←
      if params.sharpening ≠ 0 then do
        let blurred ← prim.GaussianBlur result (0, 0) 1
        let amount : ℚ := params.sharpening / 100
        let detail ← prim.addWeighted result amount blurred (-amount)
        prim.add detail result
      else pure result
    let result ←
      if params.noise_reduction ≠ 0 then
        let h : ℚ := params.noise_reduction * (3 / 10)
        prim.fastNlMeansDenoisingColored result h h
      else pure result
    if params.color_noise_reduction ≠ 0 then do
      let lab ← prim.cvtColor result ColorCode.COLOR_BGR2Lab
      let lab_channels ← prim.split lab
      let h_color : ℚ := params.color_noise_reduction * (2 / 10)
      let a ← prim.fastNlMeansDenoising (lab_channels.getD 1 Mat.nil) h_color
      let lab_channels := lab_channels.set 1 a
      let b ← prim.fastNlMeansDenoising (lab_channels.getD 2 Mat.nil) h_color
      let lab_channels := lab_channels.set 2 b
      let lab ← prim.merge lab_channels
      prim.cvtColor lab ColorCode.COLOR_Lab2BGR
    else pure result

/-- The value `vignette_factor` that the vignette loop stores at pixel `(x, y)`. -/
def vignette_factor (prim : Prim) (cols rows : Nat) (vignetting : ℚ) (x y : Nat) : ℚ :=
  let cx : ℚ := (cols : ℚ) / 2
  let cy : ℚ := (rows : ℚ) / 2
  let max_dist : ℚ := prim.sqrt (cx * cx + cy * cy)
  let dist : ℚ := prim.sqrt ((x - cx) * (x - cx) + (y - cy) * (y - cy))
  let normalized_dist : ℚ := dist / max_dist
  1 + vignetting / 100 * (1 - normalized_dist)

/-- The matrix `vignette_mask` after the two nested loops. -/
def vignette_mask (prim : Prim) (image : Mat) (vignetting : ℚ) : Mat :=
  { rows := image.rows, cols := image.cols, channels := 1, depth := Depth.CV_32F,
    data := (List.range image.rows).flatMap (fun y =>
      (List.range image.cols).map (fun x =>
        vignette_factor prim image.cols image.rows vignetting x y)) }

/-- `RawProcessor::apply_lens_corrections`. -/
def apply_lens_corrections (prim : Prim) (image : Mat) (params : AdjustmentParams) :
    Except Exn Mat :=
  if image.empty then pure image else do
    let result := image.clone
    let result ←
      if params.vignetting ≠ 0 then do
        let mask := vignette_mask prim image params.vignetting
        let result := result.convertTo (some Depth.CV_32F) 1
        let channels ← prim.split result
        let channels ← channels.mapM (fun channel => prim.multiply channel mask)
        let result ← prim.merge channels
        pure (result.convertTo (some Depth.CV_8U) 1)
      else pure result
    if params.lens_distortion ≠ 0 then
      let camera_matrix : Mat :=
        { rows := 3, cols := 3, channels := 1, depth := Depth.CV_64F,
          data := [(image.cols : ℚ), 0, (image.cols : ℚ) / 2,
                   0, (image.rows : ℚ), (image.rows : ℚ) / 2,
                   0, 0, 1] }
      let dist_coeffs : Mat :=
        { rows := 4, cols := 1, channels := 1, depth := Depth.CV_64F,
          data := [params.lens_distortion / 1000, 0, 0, 0] }
      prim.undistort result camera_matrix dist_coeffs
    else pure result

/-- `static_cast<int>(float)`: truncation toward zero. -/
def truncToInt (x : ℚ) : Int := if 0 ≤ x then ⌊x⌋ else ⌈x⌉

/-- Rounding of a real result to `f32` (IEEE 754 binary32, round to nearest, ties to even):
24 significant bits, with the fixed spacing `2 ^ -149` below `2 ^ -126`.  Overflow to
infinity is outside the model. -/
def f32 (x : ℚ) : ℚ :=
  let e : Int := max (Int.log 2 |x|) (-126)
  let ulp : ℚ := (2 : ℚ) ^ (e - 23)
  (cvRound (x / ulp) : ℚ) * ulp

/-- The rectangle `(x, y, width, height)` that `apply_transform` slices,
after its bounds check.  The four products are `float` expressions: the `int` dimension is
converted to `float`, and the subtraction and the multiplication each round to `float`
before `static_cast<int>` truncates. -/
def crop_rect (cols rows : Nat) (params : AdjustmentParams) : Int × Int × Int × Int :=
  let x : Int := truncToInt (f32 (params.crop_left * f32 cols))
  let y : Int := truncToInt (f32 (params.crop_top * f32 rows))
  let width : Int :=
    truncToInt (f32 (f32 (params.crop_right - params.crop_left) * f32 cols))
  let height : Int :=
    truncToInt (f32 (f32 (params.crop_bottom - params.crop_top) * f32 rows))
  let x := max 0 (min x ((cols : Int) - 1))
  let y := max 0 (min y ((rows : Int) - 1))
  let width := max 1 (min width ((cols : Int) - x))
  let height := max 1 (min height ((rows : Int) - y))
  (x, y, width, height)

/-- `RawProcessor::apply_transform`. -/
def apply_transform (prim : Prim) (image : Mat) (params : AdjustmentParams) :
    Except Exn Mat :=
  if image.empty then pure image else do
    let result := image.clone
    let result ←
      if params.rotation ≠ 0 then
        let center : ℚ × ℚ := ((image.cols : ℚ) / 2, (image.rows : ℚ) / 2)
        let rotation_matrix := prim.getRotationMatrix2D center params.rotation 1
        prim.warpAffine result rotation_matrix (image.cols, image.rows)
      else pure result
    if params.crop_left ≠ 0 ∨ params.crop_top ≠ 0
        ∨ params.crop_right ≠ 1 ∨ params.crop_bottom ≠ 1 then
      let (x, y, width, height) := crop_rect image.cols image.rows params
      result.roi x y width height
    else pure result

/-- The byte stored for a sample of an 8-bit matrix. -/
def sampleByte (x : ℚ) : Nat := (Int.toNat ⌊x⌋) % 256

/-- `memcpy(dst, src, n)` on buffers that hold at least `n` bytes. -/
def memcpy (dst src : List Nat) (n : Nat) : List Nat := src.take n ++ dst.drop n

/-- `cv::Mat::elemSize` divided by the channel count: bytes per sample. -/
def Depth.bytes : Depth → Nat
  | .CV_8U => 1
  | .CV_32F => 4
  | .CV_64F => 8

/-- `RawProcessor::mat_to_image_data`.  The matrices the pipeline hands over are
continuous; their `rows * cols * elemSize` bytes are copied into the new buffer. -/
def mat_to_image_data (mat : Mat) : ImageData :=
  if mat.empty then ImageData.empty
  else
    let image_data := ImageData.alloc mat.cols mat.rows mat.channels 8
    { image_data with
      data := memcpy image_data.data (mat.data.map sampleByte)
        (mat.rows * mat.cols * (mat.channels * mat.depth.bytes)) }

/-- `RawProcessor::resize_if_needed`. -/
def resize_if_needed (prim : Prim) (image : Mat) (max_width max_height : Nat) :
    Except Exn Mat :=
  if image.empty ∨ (max_width = 0 ∧ max_height = 0) then pure image
  else
    let scale_x : ℚ := if max_width > 0 then (max_width : ℚ) / image.cols else 1
    let scale_y : ℚ := if max_height > 0 then (max_height : ℚ) / image.rows else 1
    let scale : ℚ := min scale_x scale_y
    if scale ≥ 1 then pure image
    else resize prim image scale scale

/-! ## The decode collaborator (LibRaw) and the file system -/

/-- The kind of a `libraw_processed_image_t`. -/
inductive ImageFormats where
  | LIBRAW_IMAGE_JPEG
  | LIBRAW_IMAGE_BITMAP
  deriving DecidableEq, Repr

/-- The record `libraw_processed_image_t` returned by `dcraw_make_mem_image`. -/
structure ProcessedImage where
  type : ImageFormats
  height : Nat
  width : Nat
  colors : Nat
  data : List Nat
  deriving DecidableEq, Repr

/-- The thumbnail format tag `imgdata.thumbnail.tformat`. -/
inductive ThumbnailFormats where
  | LIBRAW_THUMBNAIL_JPEG
  | LIBRAW_THUMBNAIL_BITMAP
  | LIBRAW_THUMBNAIL_UNKNOWN
  deriving DecidableEq, Repr

/-- The fields of `libraw_->imgdata` that the sources read. -/
structure ImgData where
  make : String
  model : String
  lens : String
  iso_speed : ℚ
  aperture : ℚ
  focal_len : ℚ
  flash_used : ℚ
  flip : Nat
  shutter : ℚ
  width : Nat
  height : Nat
  wb_coeff0 : ℚ
  wb_coeff2 : ℚ
  thumb : Option (List Nat)
  tformat : ThumbnailFormats
  tlength : Nat
  theight : Nat
  twidth : Nat

/-- The decode library and the file system, over the state `L` of a `LibRaw` object.
Each call returns its status code and the object after the call. -/
structure Env (L : Type) where
  /-- The object `std::make_unique<LibRaw>()` yields, with the parameter block the
  constructor of `RawProcessor` writes (`use_camera_wb`, `output_color`, `output_bps`, ...). -/
  make_libraw : L
  /-- `std::ifstream(path).good()`. -/
  file_good : String → Bool
  /-- `LibRaw::open_file`. -/
  open_file : L → String → Int × L
  /-- `LibRaw::unpack`. -/
  unpack : L → Int × L
  /-- `LibRaw::unpack_thumb`. -/
  unpack_thumb : L → Int × L
  /-- `LibRaw::recycle`. -/
  recycle : L → L
  /-- `LibRaw::dcraw_process`. -/
  dcraw_process : L → Int × L
  /-- `LibRaw::dcraw_make_mem_image(&ret)`: the status, the image (or a null pointer). -/
  dcraw_make_mem_image : L → Int × Option ProcessedImage × L
  /-- The public data block `imgdata`. -/
  imgdata : L → ImgData

/-- `LIBRAW_SUCCESS` and the error codes named by `get_libraw_error_message`
(`libraw_const.h`). -/
def LIBRAW_SUCCESS : Int := 0
def LIBRAW_UNSPECIFIED_ERROR : Int := -1
def LIBRAW_FILE_UNSUPPORTED : Int := -2
def LIBRAW_REQUEST_FOR_NONEXISTENT_IMAGE : Int := -3
def LIBRAW_OUT_OF_ORDER_CALL : Int := -4
def LIBRAW_NO_THUMBNAIL : Int := -5
def LIBRAW_UNSUPPORTED_THUMBNAIL : Int := -6
def LIBRAW_CANCELLED_BY_CALLBACK : Int := -100010
def LIBRAW_BAD_CROP : Int := -100011
def LIBRAW_TOO_BIG : Int := -100012
def LIBRAW_MEMPOOL_OVERFLOW : Int := -100013

/-- `RawProcessor::get_libraw_error_message`. -/
def get_libraw_error_message (error_code : Int) : String :=
  if error_code = LIBRAW_SUCCESS then "Success"
  else if error_code = LIBRAW_UNSPECIFIED_ERROR then "Unspecified error"
  else if error_code = LIBRAW_FILE_UNSUPPORTED then "Unsupported file format"
  else if error_code = LIBRAW_REQUEST_FOR_NONEXISTENT_IMAGE then "Request for nonexistent image"
  else if error_code = LIBRAW_OUT_OF_ORDER_CALL then "Out of order call"
  else if error_code = LIBRAW_NO_THUMBNAIL then "No thumbnail found"
  else if error_code = LIBRAW_UNSUPPORTED_THUMBNAIL then "Unsupported thumbnail format"
  else if error_code = LIBRAW_CANCELLED_BY_CALLBACK then "Cancelled by callback"
  else if error_code = LIBRAW_BAD_CROP then "Bad crop"
  else if error_code = LIBRAW_TOO_BIG then "Image too big"
  else if error_code = LIBRAW_MEMPOOL_OVERFLOW then "Memory pool overflow"
  else "Unknown error (" ++ toString error_code ++ ")"

/-! ## raw_processor.h / raw_processor.cpp: the session -/

/-- The data members of `RawProcessor`.  `decode_calls` is a ghost counter: it counts the
entries into `process_with_libraw` and is read by no operation. -/
structure RawProcessor (L : Type) where
  libraw_ : L
  current_file_path_ : String
  is_loaded_ : Bool
  cached_image_ : Mat
  cache_valid_ : Bool
  decode_calls : Nat

/-- `RawProcessor::invalidate_cache`. -/
def invalidate_cache {L : Type} (self : RawProcessor L) : RawProcessor L :=
  { self with cached_image_ := self.cached_image_.release, cache_valid_ := false }

/-- `RawProcessor::clear`. -/
def clear {L : Type} (env : Env L) (self : RawProcessor L) : RawProcessor L :=
  let self := if self.is_loaded_ then { self with libraw_ := env.recycle self.libraw_ } else self
  let self := { self with current_file_path_ := "" }
  let self := { self with is_loaded_ := false }
  invalidate_cache self

/-- `RawProcessor::is_loaded`. -/
def is_loaded {L : Type} (self : RawProcessor L) : Bool := self.is_loaded_

/-- `RawProcessor::get_current_file_path`. -/
def get_current_file_path {L : Type} (self : RawProcessor L) : String :=
  self.current_file_path_

/-- `RawProcessor::load_raw_file`. -/
def load_raw_file {L : Type} (env : Env L) (self : RawProcessor L) (file_path : String) :
    BoolResult × RawProcessor L :=
  let self := clear env self
  if !env.file_good file_path then
    (ProcessingResult.ofError ResultCode.ERROR_FILE_NOT_FOUND ("File not found: " ++ file_path),
      self)
  else
    let (ret, l) := env.open_file self.libraw_ file_path
    let self := { self with libraw_ := l }
    if ret ≠ LIBRAW_SUCCESS then
      (ProcessingResult.ofError ResultCode.ERROR_LIBRAW_ERROR
        ("Failed to open RAW file: " ++ get_libraw_error_message ret), self)
    else
      let (ret, l) := env.unpack self.libraw_
      let self := { self with libraw_ := l }
      if ret ≠ LIBRAW_SUCCESS then
        (ProcessingResult.ofError ResultCode.ERROR_LIBRAW_ERROR
          ("Failed to unpack RAW file: " ++ get_libraw_error_message ret),
          { self with libraw_ := env.recycle self.libraw_ })
      else
        let self := { self with current_file_path_ := file_path }
        let self := { self with is_loaded_ := true }
        let self := invalidate_cache self
        (ProcessingResult.ofData ResultCode.SUCCESS true, self)

/-- The shutter-speed string of `extract_metadata`. -/
def shutter_speed_string (shutter : ℚ) : String :=
  if shutter > 0 then
    if shutter ≥ 1 then toString (truncToInt shutter) ++ "s"
    else "1/" ++ toString (truncToInt (1 / shutter))
  else ""

/-- `RawProcessor::extract_metadata`. -/
def extract_metadata {L : Type} (env : Env L) (self : RawProcessor L) : MetadataResult :=
  if !self.is_loaded_ then
    ProcessingResult.ofError ResultCode.ERROR_INVALID_PARAMETERS "No RAW file loaded"
  else
    let d := env.imgdata self.libraw_
    let metadata : RawMetadata := {}
    let metadata := if d.make ≠ "" then { metadata with camera_make := d.make } else metadata
    let metadata := if d.model ≠ "" then { metadata with camera_model := d.model } else metadata
    let metadata := if d.lens ≠ "" then { metadata with lens_model := d.lens } else metadata
    let metadata := { metadata with
      iso := (truncToInt d.iso_speed).toNat % 2 ^ 32,
      aperture := d.aperture,
      focal_length := d.focal_len,
      flash_used := decide (d.flash_used ≠ 0),
      orientation := d.flip }
    let metadata :=
      if d.shutter > 0 then { metadata with shutter_speed := shutter_speed_string d.shutter }
      else metadata
    let metadata := { metadata with
      image_width := d.width,
      image_height := d.height,
      color_temperature := if d.wb_coeff0 > 0 then 6500 / d.wb_coeff0 * d.wb_coeff2 else 0,
      color_space := "sRGB" }
    ProcessingResult.ofData ResultCode.SUCCESS metadata

/-- The matrix header `cv::Mat(height, width, CV_8UC<colors>, data)`, cloned. -/
def mat_of_bytes (height width colors : Nat) (data : List Nat) : Mat :=
  { rows := height, cols := width, channels := colors, depth := Depth.CV_8U,
    data := (data.take (height * width * colors)).map (fun b => (b : ℚ)) }

/-- `RawProcessor::process_with_libraw`.  An empty matrix is the failure value. -/
def process_with_libraw {L : Type} (env : Env L) (prim : Prim) (self : RawProcessor L)
    (options : ProcessingOptions) : Except Exn Mat × RawProcessor L :=
  let self := { self with decode_calls := self.decode_calls + 1 }
  let (ret, l) := env.dcraw_process self.libraw_
  let self := { self with libraw_ := l }
  if ret ≠ LIBRAW_SUCCESS then (pure Mat.nil, self)
  else
    let (ret, processed, l) := env.dcraw_make_mem_image self.libraw_
    let self := { self with libraw_ := l }
    match processed with
    | none => (pure Mat.nil, self)
    | some processed =>
      if ret ≠ LIBRAW_SUCCESS then (pure Mat.nil, self)
      else
        let result : Mat :=
          if processed.type = ImageFormats.LIBRAW_IMAGE_BITMAP then
            if processed.colors = 3 then
              (mat_of_bytes processed.height processed.width 3 processed.data).clone
            else if processed.colors = 1 then
              (mat_of_bytes processed.height processed.width 1 processed.data).clone
            else Mat.nil
          else Mat.nil
        if result.empty then (pure Mat.nil, self)
        else if options.preview_mode ∧ (options.output_width > 0 ∨ options.output_height > 0) then
          (resize_if_needed prim result options.output_width options.output_height, self)
        else (pure result, self)

/-- The tail shared by both branches of `generate_thumbnail`: resize, reorder the
channels, convert. -/
def thumbnail_result (prim : Prim) (m : Mat) (max_size : Nat) : Except Exn ImageResult := do
  let resized ← resize_if_needed prim m max_size max_size
  let resized ← prim.cvtColor resized ColorCode.COLOR_BGR2RGB
  let result := mat_to_image_data resized
  pure (ProcessingResult.ofData ResultCode.SUCCESS result)

/-- The second half of `generate_thumbnail`: the thumbnail is made from the decoded RAW. -/
def thumbnail_from_raw {L : Type} (env : Env L) (prim : Prim) (self : RawProcessor L)
    (max_size : Nat) : Except Exn ImageResult × RawProcessor L :=
  let options := ProcessingOptions.ofPreview true
  let options := { options with output_width := max_size }
  let options := { options with output_height := max_size }
  match process_with_libraw env prim self options with
  | (Except.error e, self) => (Except.error e, self)
  | (Except.ok image, self) =>
    if image.empty then
      (pure (ProcessingResult.ofError ResultCode.ERROR_PROCESSING_FAILED
        "Failed to process RAW for thumbnail"), self)
    else (thumbnail_result prim image max_size, self)

/-- `RawProcessor::generate_thumbnail`.  No exception is caught in it: a raised one
leaves the function (`Except.error`). -/
def generate_thumbnail {L : Type} (env : Env L) (prim : Prim) (self : RawProcessor L)
    (max_size : Nat) : Except Exn ImageResult × RawProcessor L :=
  if !self.is_loaded_ then
    (pure (ProcessingResult.ofError ResultCode.ERROR_INVALID_PARAMETERS "No RAW file loaded"),
      self)
  else
    let (ret, l) := env.unpack_thumb self.libraw_
    let self := { self with libraw_ := l }
    let d := env.imgdata self.libraw_
    match (if ret = LIBRAW_SUCCESS then d.thumb else none) with
    | some thumb =>
      let thumb_mat : Except Exn Mat :=
        if d.tformat = ThumbnailFormats.LIBRAW_THUMBNAIL_JPEG then
          prim.imdecode (thumb.take d.tlength)
        else
          pure (mat_of_bytes d.theight d.twidth 3 thumb).clone
      match thumb_mat with
      | Except.error e => (Except.error e, self)
      | Except.ok thumb_mat =>
        if !thumb_mat.empty then (thumbnail_result prim thumb_mat max_size, self)
        else thumbnail_from_raw env prim self max_size
    | none => thumbnail_from_raw env prim self max_size

/-- The seven calls at the head of the `try` block of `generate_preview`. -/
def preview_stages (prim : Prim) (result : Mat) (params : AdjustmentParams) :
    Except Exn Mat := do
  let result ← apply_white_balance prim result params
  let result ← apply_basic_adjustments prim result params
  let result ← apply_hsl_adjustments prim result params
  let result ← apply_tone_curve result params
  let result ← apply_detail_adjustments prim result params
  let result ← apply_lens_corrections prim result params
  let result ← apply_transform prim result params
  pure result

/-- The two `catch` clauses of `generate_preview`, applied to the outcome of its `try`
block. -/
def preview_catch (r : Except Exn ImageData) : ImageResult :=
  match r with
  | Except.ok image_data => ProcessingResult.ofData ResultCode.SUCCESS image_data
  | Except.error (Exn.cv what) =>
    ProcessingResult.ofError ResultCode.ERROR_OPENCV_ERROR
      ("OpenCV error during processing: " ++ what)
  | Except.error (Exn.std what) =>
    ProcessingResult.ofError ResultCode.ERROR_PROCESSING_FAILED
      ("Error during processing: " ++ what)

/-- The `try` block of `generate_preview` on the base image. -/
def preview_try (prim : Prim) (base_image : Mat) (params : AdjustmentParams) :
    Except Exn ImageData := do
  let result := base_image.clone
  let result ← preview_stages prim result params
  let result ← prim.cvtColor result ColorCode.COLOR_BGR2RGB
  let image_data := mat_to_image_data result
  pure image_data

/-- `RawProcessor::generate_preview`.  The decode call stands outside the `try` block:
an exception raised in it leaves the function (`Except.error`). -/
def generate_preview {L : Type} (env : Env L) (prim : Prim) (self : RawProcessor L)
    (params : AdjustmentParams) (options : ProcessingOptions) :
    Except Exn ImageResult × RawProcessor L :=
  if !self.is_loaded_ then
    (pure (ProcessingResult.ofError ResultCode.ERROR_INVALID_PARAMETERS "No RAW file loaded"),
      self)
  else if self.cache_valid_ ∧ !self.cached_image_.empty then
    let base_image := self.cached_image_.clone
    (pure (preview_catch (preview_try prim base_image params)), self)
  else
    match process_with_libraw env prim self options with
    | (Except.error e, self) => (Except.error e, self)
    | (Except.ok base_image, self) =>
      if base_image.empty then
        (pure (ProcessingResult.ofError ResultCode.ERROR_PROCESSING_FAILED
          "Failed to process RAW"), self)
      else
        let self := { self with cached_image_ := base_image.clone }
        let self := { self with cache_valid_ := true }
        (pure (preview_catch (preview_try prim base_image params)), self)

/-- The `try` block of `process_full_image` on the base image. -/
def full_try (prim : Prim) (base_image : Mat) (params : AdjustmentParams)
    (full_options : ProcessingOptions) : Except Exn ImageData := do
  let result := base_image.clone
  let result ← apply_white_balance prim result params
  let result ← apply_basic_adjustments prim result params
  let result ← apply_hsl_adjustments prim result params
  let result ← apply_tone_curve result params
  let result ← apply_detail_adjustments prim result params
  let result ← apply_lens_corrections prim result params
  let result ← apply_transform prim result params
  let result ←
    if full_options.output_width > 0 ∧ full_options.output_height > 0 then
      resize_if_needed prim result full_options.output_width full_options.output_height
    else pure result
  let result ← prim.cvtColor result ColorCode.COLOR_BGR2RGB
  let image_data := mat_to_image_data result
  pure image_data

/-- The two `catch` clauses of `process_full_image`. -/
def full_catch (r : Except Exn ImageData) : ImageResult :=
  match r with
  | Except.ok image_data => ProcessingResult.ofData ResultCode.SUCCESS image_data
  | Except.error (Exn.cv what) =>
    ProcessingResult.ofError ResultCode.ERROR_OPENCV_ERROR
      ("OpenCV error during full processing: " ++ what)
  | Except.error (Exn.std what) =>
    ProcessingResult.ofError ResultCode.ERROR_PROCESSING_FAILED
      ("Error during full processing: " ++ what)

/-- `RawProcessor::process_full_image`. -/
def process_full_image {L : Type} (env : Env L) (prim : Prim) (self : RawProcessor L)
    (params : AdjustmentParams) (options : ProcessingOptions) :
    Except Exn ImageResult × RawProcessor L :=
  if !self.is_loaded_ then
    (pure (ProcessingResult.ofError ResultCode.ERROR_INVALID_PARAMETERS "No RAW file loaded"),
      self)
  else
    let full_options := { options with preview_mode := false }
    match process_with_libraw env prim self full_options with
    | (Except.error e, self) => (Except.error e, self)
    | (Except.ok base_image, self) =>
      if base_image.empty then
        (pure (ProcessingResult.ofError ResultCode.ERROR_PROCESSING_FAILED
          "Failed to process RAW at full resolution"), self)
      else
        (pure (full_catch (full_try prim base_image params full_options)), self)

/-- Encoder parameter keys of `cv::imwrite` (`imgcodecs.hpp`). -/
def IMWRITE_JPEG_QUALITY : Int := 1
def IMWRITE_PNG_COMPRESSION : Int := 16
def IMWRITE_TIFF_COMPRESSION : Int := 259

/-- The vector `encode_params` that `save_image` builds for a format name. -/
def encode_params (format : String) (quality : Nat) : List Int :=
  if format = "JPEG" ∨ format = "JPG" then [IMWRITE_JPEG_QUALITY, (quality : Int)]
  else if format = "PNG" then [IMWRITE_PNG_COMPRESSION, 9]
  else if format = "TIFF" then [IMWRITE_TIFF_COMPRESSION, 1]
  else []

/-- The `try` block of `save_image`. -/
def save_try (prim : Prim) (image_data : ImageData) (output_path format : String)
    (quality : Nat) : Except Exn BoolResult := do
  let image : Mat :=
    mat_of_bytes image_data.height image_data.width
      (if image_data.channels = 3 then 3 else 1) image_data.data
  let image ←
    if image_data.channels = 3 then prim.cvtColor image ColorCode.COLOR_RGB2BGR
    else pure image
  let success ← prim.imwrite output_path image (encode_params format quality)
  if !success then
    pure (ProcessingResult.ofError ResultCode.ERROR_PROCESSING_FAILED
      ("Failed to save image: " ++ output_path))
  else pure (ProcessingResult.ofData ResultCode.SUCCESS true)

/-- `RawProcessor::save_image`. -/
def save_image (prim : Prim) (image_data : ImageData) (output_path format : String)
    (quality : Nat) : BoolResult :=
  if !image_data.is_valid then
    ProcessingResult.ofError ResultCode.ERROR_INVALID_PARAMETERS "Invalid image data"
  else
    match save_try prim image_data output_path format quality with
    | Except.ok r => r
    | Except.error (Exn.cv what) =>
      ProcessingResult.ofError ResultCode.ERROR_OPENCV_ERROR
        ("OpenCV error during save: " ++ what)
    | Except.error (Exn.std what) =>
      ProcessingResult.ofError ResultCode.ERROR_PROCESSING_FAILED
        ("Error during save: " ++ what)

/-! ## native_bridge.h / native_bridge.cpp: the session table and the C boundary -/

/-- `FFIResult`: a status code and a text payload (`data_length` counts the terminator). -/
structure FFIResult where
  code : Int
  data : String
  data_length : Int
  deriving DecidableEq, Repr

/-- `FFIImageData`: `data` is `none` for a null pointer. -/
structure FFIImageData where
  data : Option (List Nat)
  width : Nat
  height : Nat
  channels : Nat
  data_length : Nat
  deriving DecidableEq, Repr

/-- `FFIAdjustmentParams`. -/
structure FFIAdjustmentParams where
  exposure : ℚ
  highlights : ℚ
  shadows : ℚ
  whites : ℚ
  blacks : ℚ
  contrast : ℚ
  brightness : ℚ
  clarity : ℚ
  vibrance : ℚ
  saturation : ℚ
  temperature : ℚ
  tint : ℚ
  hue_red : ℚ
  hue_orange : ℚ
  hue_yellow : ℚ
  hue_green : ℚ
  hue_aqua : ℚ
  hue_blue : ℚ
  hue_purple : ℚ
  hue_magenta : ℚ
  saturation_red : ℚ
  saturation_orange : ℚ
  saturation_yellow : ℚ
  saturation_green : ℚ
  saturation_aqua : ℚ
  saturation_blue : ℚ
  saturation_purple : ℚ
  saturation_magenta : ℚ
  luminance_red : ℚ
  luminance_orange : ℚ
  luminance_yellow : ℚ
  luminance_green : ℚ
  luminance_aqua : ℚ
  luminance_blue : ℚ
  luminance_purple : ℚ
  luminance_magenta : ℚ
  curve_highlights : ℚ
  curve_lights : ℚ
  curve_darks : ℚ
  curve_shadows : ℚ
  sharpening : ℚ
  noise_reduction : ℚ
  color_noise_reduction : ℚ
  lens_distortion : ℚ
  chromatic_aberration : ℚ
  vignetting : ℚ
  rotation : ℚ
  crop_left : ℚ
  crop_top : ℚ
  crop_right : ℚ
  crop_bottom : ℚ
  deriving DecidableEq

/-- `FFIProcessingOptions`. -/
structure FFIProcessingOptions where
  output_width : Nat
  output_height : Nat
  quality : Nat
  preview_mode : Bool
  use_gpu : Bool
  thread_count : Nat
  deriving DecidableEq, Repr

/-- The globals `g_processors` and `g_next_handle`.  The mutex only serialises access and
has no counterpart in this sequential model. -/
structure Bridge (L : Type) where
  g_processors : Int → Option (RawProcessor L)
  g_next_handle : Int

/-- `bridge_internal::get_processor_from_handle`: `none` is the null pointer. -/
def get_processor_from_handle {L : Type} (b : Bridge L) (handle : Int) :
    Option (RawProcessor L) :=
  b.g_processors handle

/-- The effect of a member call through the pointer a lookup returned: the table entry of
`handle` now holds the object after the call. -/
def Bridge.store {L : Type} (b : Bridge L) (handle : Int) (p : RawProcessor L) : Bridge L :=
  { b with g_processors := fun h => if h = handle then some p else b.g_processors h }

/-- `bridge_internal::create_json_string`. -/
def create_json_string (key value : String) : String :=
  "\x7b\"" ++ key ++ "\":\"" ++ value ++ "\"\x7d"

/-- `bridge_internal::create_error_json`. -/
def create_error_json (message : String) : String :=
  "\x7b\"error\":\"" ++ message ++ "\"\x7d"

/-- An `FFIResult` whose payload is a copy of `text`. -/
def ffi_text (code : ResultCode) (text : String) : FFIResult :=
  ⟨code.toInt, text, (text.utf8ByteSize : Int) + 1⟩

/-- `bridge_internal::convert_result<bool>`. -/
def convert_result_bool (result : BoolResult) : FFIResult :=
  if result.is_success then
    ffi_text result.code (create_json_string "success" (if result.data then "true" else "false"))
  else ffi_text result.code (create_error_json result.error_message)

/-- `bridge_internal::convert_result<std::string>`. -/
def convert_result_string (result : StringResult) : FFIResult :=
  if result.is_success then ffi_text result.code result.data
  else ffi_text result.code (create_error_json result.error_message)

/-- `bridge_internal::convert_result<RawMetadata>`; `fixed q n` is the text the stream
writes for `q` under `std::fixed << std::setprecision(n)`. -/
def convert_result_metadata (fixed : ℚ → Nat → String) (result : MetadataResult) : FFIResult :=
  if result.is_success then
    let d := result.data
    ffi_text result.code
      ("\x7b"
        ++ "\"camera_make\":\"" ++ d.camera_make ++ "\","
        ++ "\"camera_model\":\"" ++ d.camera_model ++ "\","
        ++ "\"lens_model\":\"" ++ d.lens_model ++ "\","
        ++ "\"iso\":" ++ toString d.iso ++ ","
        ++ "\"aperture\":" ++ fixed d.aperture 1 ++ ","
        ++ "\"shutter_speed\":\"" ++ d.shutter_speed ++ "\","
        ++ "\"focal_length\":" ++ fixed d.focal_length 1 ++ ","
        ++ "\"flash_used\":" ++ (if d.flash_used then "true" else "false") ++ ","
        ++ "\"orientation\":" ++ toString d.orientation ++ ","
        ++ "\"white_balance\":\"" ++ d.white_balance ++ "\","
        ++ "\"color_space\":\"" ++ d.color_space ++ "\","
        ++ "\"image_width\":" ++ toString d.image_width ++ ","
        ++ "\"image_height\":" ++ toString d.image_height ++ ","
        ++ "\"color_temperature\":" ++ fixed d.color_temperature 0
        ++ "\x7d")
  else ffi_text result.code (create_error_json result.error_message)

/-- The record `empty_data` that the image operations return on failure. -/
def empty_data : FFIImageData := ⟨none, 0, 0, 0, 0⟩

/-- `bridge_internal::convert_image_data`. -/
def convert_image_data (image_data : ImageData) : FFIImageData :=
  if !image_data.is_valid then empty_data
  else
    let data_length := image_data.data.length % 2 ^ 32
    { data := some (memcpy (List.replicate data_length 0) image_data.data data_length),
      width := image_data.width, height := image_data.height,
      channels := image_data.channels, data_length := data_length }

/-- `bridge_internal::convert_adjustment_params`. -/
def convert_adjustment_params (ffi_params : FFIAdjustmentParams) : AdjustmentParams :=
  {
    exposure := ffi_params.exposure,
    highlights := ffi_params.highlights,
    shadows := ffi_params.shadows,
    whites := ffi_params.whites,
    blacks := ffi_params.blacks,
    contrast := ffi_params.contrast,
    brightness := ffi_params.brightness,
    clarity := ffi_params.clarity,
    vibrance := ffi_params.vibrance,
    saturation := ffi_params.saturation,
    temperature := ffi_params.temperature,
    tint := ffi_params.tint,
    hue_red := ffi_params.hue_red,
    hue_orange := ffi_params.hue_orange,
    hue_yellow := ffi_params.hue_yellow,
    hue_green := ffi_params.hue_green,
    hue_aqua := ffi_params.hue_aqua,
    hue_blue := ffi_params.hue_blue,
    hue_purple := ffi_params.hue_purple,
    hue_magenta := ffi_params.hue_magenta,
    saturation_red := ffi_params.saturation_red,
    saturation_orange := ffi_params.saturation_orange,
    saturation_yellow := ffi_params.saturation_yellow,
    saturation_green := ffi_params.saturation_green,
    saturation_aqua := ffi_params.saturation_aqua,
    saturation_blue := ffi_params.saturation_blue,
    saturation_purple := ffi_params.saturation_purple,
    saturation_magenta := ffi_params.saturation_magenta,
    luminance_red := ffi_params.luminance_red,
    luminance_orange := ffi_params.luminance_orange,
    luminance_yellow := ffi_params.luminance_yellow,
    luminance_green := ffi_params.luminance_green,
    luminance_aqua := ffi_params.luminance_aqua,
    luminance_blue := ffi_params.luminance_blue,
    luminance_purple := ffi_params.luminance_purple,
    luminance_magenta := ffi_params.luminance_magenta,
    curve_highlights := ffi_params.curve_highlights,
    curve_lights := ffi_params.curve_lights,
    curve_darks := ffi_params.curve_darks,
    curve_shadows := ffi_params.curve_shadows,
    sharpening := ffi_params.sharpening,
    noise_reduction := ffi_params.noise_reduction,
    color_noise_reduction := ffi_params.color_noise_reduction,
    lens_distortion := ffi_params.lens_distortion,
    chromatic_aberration := ffi_params.chromatic_aberration,
    vignetting := ffi_params.vignetting,
    rotation := ffi_params.rotation,
    crop_left := ffi_params.crop_left,
    crop_top := ffi_params.crop_top,
    crop_right := ffi_params.crop_right,
    crop_bottom := ffi_params.crop_bottom }

/-- `bridge_internal::convert_processing_options`. -/
def convert_processing_options (ffi_options : FFIProcessingOptions) : ProcessingOptions :=
  { output_width := ffi_options.output_width,
    output_height := ffi_options.output_height,
    quality := ffi_options.quality,
    preview_mode := ffi_options.preview_mode,
    use_gpu := ffi_options.use_gpu,
    thread_count := ffi_options.thread_count }

/-- `bridge_internal::convert_from_ffi_image_data`. -/
def convert_from_ffi_image_data (ffi_data : FFIImageData) : ImageData :=
  match ffi_data.data with
  | none => ImageData.empty
  | some bytes =>
    if ffi_data.data_length = 0 then ImageData.empty
    else
      let image_data := ImageData.alloc ffi_data.width ffi_data.height ffi_data.channels 8
      let copy_size := min ffi_data.data_length image_data.data.length
      { image_data with data := memcpy image_data.data bytes copy_size }

/-- `raw_processor_destroy`. -/
def raw_processor_destroy {L : Type} (b : Bridge L) (handle : Int) : Bridge L :=
  match b.g_processors handle with
  | some _ => { b with g_processors := fun h => if h = handle then none else b.g_processors h }
  | none => b

/-- `RawProcessor::RawProcessor`. -/
def RawProcessor.construct {L : Type} (env : Env L) : RawProcessor L :=
  { libraw_ := env.make_libraw, current_file_path_ := "", is_loaded_ := false,
    cached_image_ := Mat.nil, cache_valid_ := false, decode_calls := 0 }

/-- `raw_processor_create`: the handle issued and the table after the call.  The counter
`g_next_handle` is an `int64_t`; it is kept in `ℤ` here, and the increment is the C++ one
as long as the counter is below `2 ^ 63 - 1`. -/
def raw_processor_create {L : Type} (env : Env L) (b : Bridge L) : Int × Bridge L :=
  let handle := b.g_next_handle
  (handle,
    { g_processors := fun h =>
        if h = handle then some (RawProcessor.construct env) else b.g_processors h,
      g_next_handle := b.g_next_handle + 1 })

/-- `raw_processor_finalize`. -/
def raw_processor_finalize {L : Type} (b : Bridge L) : Bridge L :=
  { b with g_processors := fun _ => none }

/-- `raw_processor_load_file`; `file_path = none` is the null pointer. -/
def raw_processor_load_file {L : Type} (env : Env L) (b : Bridge L) (handle : Int)
    (file_path : Option String) : FFIResult × Bridge L :=
  match get_processor_from_handle b handle with
  | none =>
    (ffi_text ResultCode.ERROR_INVALID_PARAMETERS (create_error_json "Invalid processor handle"),
      b)
  | some processor =>
    match file_path with
    | none =>
      (ffi_text ResultCode.ERROR_INVALID_PARAMETERS (create_error_json "Null file path"), b)
    | some file_path =>
      let (load_result, processor) := load_raw_file env processor file_path
      (convert_result_bool load_result, b.store handle processor)

/-- `raw_processor_extract_metadata`. -/
def raw_processor_extract_metadata {L : Type} (env : Env L) (fixed : ℚ → Nat → String)
    (b : Bridge L) (handle : Int) : FFIResult :=
  match get_processor_from_handle b handle with
  | none =>
    ffi_text ResultCode.ERROR_INVALID_PARAMETERS (create_error_json "Invalid processor handle")
  | some processor => convert_result_metadata fixed (extract_metadata env processor)

/-- The tail of the three image operations: the payload on success, `empty_data`
otherwise. -/
def image_or_empty (r : ImageResult) : FFIImageData :=
  if r.is_success then convert_image_data r.data else empty_data

/-- `raw_processor_generate_thumbnail`. -/
def raw_processor_generate_thumbnail {L : Type} (env : Env L) (prim : Prim) (b : Bridge L)
    (handle : Int) (max_size : Nat) : Except Exn FFIImageData × Bridge L :=
  match get_processor_from_handle b handle with
  | none => (pure empty_data, b)
  | some processor =>
    let (thumbnail_result, processor) := generate_thumbnail env prim processor max_size
    (thumbnail_result.map image_or_empty, b.store handle processor)

/-- `raw_processor_generate_preview`; `none` arguments are null pointers. -/
def raw_processor_generate_preview {L : Type} (env : Env L) (prim : Prim) (b : Bridge L)
    (handle : Int) (params : Option FFIAdjustmentParams)
    (options : Option FFIProcessingOptions) : Except Exn FFIImageData × Bridge L :=
  match get_processor_from_handle b handle, params, options with
  | some processor, some params, some options =>
    let cpp_params := convert_adjustment_params params
    let cpp_options := convert_processing_options options
    let (preview_result, processor) := generate_preview env prim processor cpp_params cpp_options
    (preview_result.map image_or_empty, b.store handle processor)
  | _, _, _ => (pure empty_data, b)

/-- `raw_processor_process_full_image`. -/
def raw_processor_process_full_image {L : Type} (env : Env L) (prim : Prim) (b : Bridge L)
    (handle : Int) (params : Option FFIAdjustmentParams)
    (options : Option FFIProcessingOptions) : Except Exn FFIImageData × Bridge L :=
  match get_processor_from_handle b handle, params, options with
  | some processor, some params, some options =>
    let cpp_params := convert_adjustment_params params
    let cpp_options := convert_processing_options options
    let (full_result, processor) := process_full_image env prim processor cpp_params cpp_options
    (full_result.map image_or_empty, b.store handle processor)
  | _, _, _ => (pure empty_data, b)

/-- `raw_processor_save_image`. -/
def raw_processor_save_image {L : Type} (prim : Prim) (b : Bridge L) (handle : Int)
    (image_data : Option FFIImageData) (output_path format : Option String) (quality : Nat) :
    FFIResult :=
  match get_processor_from_handle b handle, image_data, output_path, format with
  | some _, some image_data, some output_path, some format =>
    let cpp_image_data := convert_from_ffi_image_data image_data
    convert_result_bool (save_image prim cpp_image_data output_path format quality)
  | _, _, _, _ =>
    ffi_text ResultCode.ERROR_INVALID_PARAMETERS (create_error_json "Invalid parameters")

/-- `raw_processor_get_current_file_path`. -/
def raw_processor_get_current_file_path {L : Type} (b : Bridge L) (handle : Int) : FFIResult :=
  match get_processor_from_handle b handle with
  | none =>
    ffi_text ResultCode.ERROR_INVALID_PARAMETERS (create_error_json "Invalid processor handle")
  | some processor =>
    convert_result_string
      (ProcessingResult.ofData ResultCode.SUCCESS (get_current_file_path processor))

/-- `raw_processor_is_loaded`. -/
def raw_processor_is_loaded {L : Type} (b : Bridge L) (handle : Int) : Bool :=
  match get_processor_from_handle b handle with
  | some processor => is_loaded processor
  | none => false

/-- `raw_processor_clear`. -/
def raw_processor_clear {L : Type} (env : Env L) (b : Bridge L) (handle : Int) : Bridge L :=
  match get_processor_from_handle b handle with
  | some processor => b.store handle (clear env processor)
  | none => b

/-! ## Predicates and example collaborators used by the statements -/

/-- An 8-bit raster: depth `CV_8U`, every sample one of the integers `0..255`. -/
def Mat.is8Bit (m : Mat) : Prop :=
  m.depth = Depth.CV_8U ∧ ∀ x ∈ m.data, ∃ n : ℕ, n ≤ 255 ∧ x = (n : ℚ)

/-- The part of `apply_basic_adjustments` that runs for every parameter set: to float,
clamp, back to 8 bits. -/
def basic_roundtrip (image : Mat) : Mat :=
  (clamp01 (image.convertTo (some Depth.CV_32F) (1 / 255))).convertTo (some Depth.CV_8U) 255

/-- The session has a usable cache entry: the test `cache_valid_ && !cached_image_.empty()`
of `generate_preview`. -/
def cache_hit {L : Type} (self : RawProcessor L) : Bool :=
  self.cache_valid_ && !self.cached_image_.empty

/-- An example primitives library: every call succeeds and hands back its first matrix
argument. -/
def Prim.passThrough : Prim where
  pow := fun _ _ => 1
  sqrt := fun x => x
  cvtColor := fun m _ => pure m
  GaussianBlur := fun m _ _ => pure m
  split := fun m => pure [m]
  merge := fun ms => pure (ms.headD Mat.nil)
  add := fun a _ => pure a
  subtract := fun a _ => pure a
  multiply := fun a _ => pure a
  addEx := fun a _ _ => pure a
  addWeighted := fun a _ _ _ => pure a
  addScalar := fun a _ => pure a
  compare := fun a _ _ => pure a
  inRange := fun a _ _ => pure a
  bitwise_or := fun a _ => pure a
  normalize := fun a _ _ => pure a
  fastNlMeansDenoisingColored := fun a _ _ => pure a
  fastNlMeansDenoising := fun a _ => pure a
  undistort := fun a _ _ => pure a
  getRotationMatrix2D := fun _ _ _ => Mat.nil
  warpAffine := fun a _ _ => pure a
  resizeData := fun a w h => List.replicate (w * h * a.channels) 0
  imdecode := fun _ => pure Mat.nil
  imwrite := fun _ _ _ => pure true

/-- An example primitives library in which every colour conversion raises. -/
def Prim.noColor : Prim :=
  { Prim.passThrough with cvtColor := fun _ _ => throw (Exn.cv "cvtColor") }

/-- The decoded image of the example decode library: one pixel, three colours. -/
def onePixel : ProcessedImage :=
  ⟨ImageFormats.LIBRAW_IMAGE_BITMAP, 1, 1, 3, [10, 20, 30]⟩

/-- An example decode library over a call counter: every file except the empty path
exists, every call succeeds, and each decode yields `onePixel`. -/
def Env.counting : Env Nat where
  make_libraw := 0
  file_good := fun path => path ≠ ""
  open_file := fun l _ => (LIBRAW_SUCCESS, l + 1)
  unpack := fun l => (LIBRAW_SUCCESS, l + 1)
  unpack_thumb := fun l => (LIBRAW_NO_THUMBNAIL, l + 1)
  recycle := fun _ => 0
  dcraw_process := fun l => (LIBRAW_SUCCESS, l + 1)
  dcraw_make_mem_image := fun l => (LIBRAW_SUCCESS, some onePixel, l + 1)
  imgdata := fun _ =>
    { make := "", model := "", lens := "", iso_speed := 100, aperture := 2, focal_len := 50,
      flash_used := 0, flip := 0, shutter := 1 / 250, width := 1, height := 1,
      wb_coeff0 := 1, wb_coeff2 := 1, thumb := none,
      tformat := ThumbnailFormats.LIBRAW_THUMBNAIL_UNKNOWN, tlength := 0, theight := 0,
      twidth := 0 }

/-- An example decode library whose `dcraw_process` always fails. -/
def Env.undecodable : Env Nat :=
  { Env.counting with dcraw_process := fun l => (LIBRAW_UNSPECIFIED_ERROR, l + 1) }

/-- A session as the constructor leaves it, over the example decode state. -/
def RawProcessor.fresh : RawProcessor Nat :=
  { libraw_ := 0, current_file_path_ := "", is_loaded_ := false, cached_image_ := Mat.nil,
    cache_valid_ := false, decode_calls := 0 }

/-- The example session after `load_raw_file "a.raw"`. -/
def RawProcessor.loaded : RawProcessor Nat :=
  (load_raw_file Env.counting RawProcessor.fresh "a.raw").2

/-- The one-pixel matrix that the example decode library yields. -/
def onePixelMat : Mat := ⟨1, 1, 3, Depth.CV_8U, [10, 20, 30]⟩

/-- The result of rendering the example session with the example libraries. -/
def onePixelResult : ImageResult :=
  ProcessingResult.ofData ResultCode.SUCCESS ⟨[10, 20, 30], 1, 1, 3, 8⟩

/-- The sessions the program can produce: a constructed one, and what the public
operations leave behind. -/
inductive Reachable {L : Type} (env : Env L) (prim : Prim) : RawProcessor L → Prop where
  | constructed (l : L) :
      Reachable env prim
        { libraw_ := l, current_file_path_ := "", is_loaded_ := false,
          cached_image_ := Mat.nil, cache_valid_ := false, decode_calls := 0 }
  | load {s : RawProcessor L} (path : String) :
      Reachable env prim s → Reachable env prim (load_raw_file env s path).2
  | clear {s : RawProcessor L} :
      Reachable env prim s → Reachable env prim (clear env s)
  | thumbnail {s : RawProcessor L} (max_size : Nat) :
      Reachable env prim s → Reachable env prim (generate_thumbnail env prim s max_size).2
  | preview {s : RawProcessor L} (params : AdjustmentParams) (options : ProcessingOptions) :
      Reachable env prim s → Reachable env prim (generate_preview env prim s params options).2
  | full {s : RawProcessor L} (params : AdjustmentParams) (options : ProcessingOptions) :
      Reachable env prim s → Reachable env prim (process_full_image env prim s params options).2

/-- The example session after one successful `generate_preview`: its cache is valid and
holds the decoded pixel. -/
def RawProcessor.rendered : RawProcessor Nat :=
  (generate_preview Env.counting Prim.passThrough RawProcessor.loaded {} {}).2

/-- What a boundary operation hands back to the host: an `FFIResult` or an
`FFIImageData`. -/
inductive BoundaryReturn where
  | result (r : FFIResult)
  | image (d : FFIImageData)
  deriving DecidableEq

/-- The status code the host can read off a returned record: the field `code` of an
`FFIResult`; the struct `FFIImageData` has no status field. -/
def BoundaryReturn.status : BoundaryReturn → Option Int
  | .result r => some r.code
  | .image _ => none

/-- The session table at program start. -/
def Bridge.initial : Bridge Nat := ⟨fun _ => none, 1⟩

/-- A session table with the example loaded session under handle 1. -/
def Bridge.single : Bridge Nat :=
  ⟨fun h => if h = 1 then some RawProcessor.loaded else none, 2⟩

/-- An `FFIAdjustmentParams` with every slider neutral. -/
def FFIAdjustmentParams.neutral : FFIAdjustmentParams :=
  ⟨0, 0, 0, 0, 0, 0, 0, 0, 0, 0, 0, 0, 0, 0, 0, 0, 0, 0, 0, 0, 0, 0, 0, 0, 0, 0, 0, 0, 0, 0,
    0, 0, 0, 0, 0, 0, 0, 0, 0, 0, 0, 0, 0, 0, 0, 0, 0, 0, 0, 1, 1⟩

/-- An `FFIProcessingOptions` with the defaults of `ProcessingOptions`. -/
def FFIProcessingOptions.plain : FFIProcessingOptions := ⟨0, 0, 95, false, true, 0⟩

/-- The table operations a host can issue. -/
inductive BridgeOp where
  | create
  | destroy (handle : Int)
  | finalize
  deriving DecidableEq, Repr

/-- The session table at program start, over any decode state: no entry,
`g_next_handle = 1`. -/
def Bridge.atStart {L : Type} : Bridge L := ⟨fun _ => none, 1⟩

/-- One table operation, on the table and the log of the handles `raw_processor_create`
has returned so far (oldest first). -/
def BridgeOp.step {L : Type} (env : Env L) (st : Bridge L × List Int) :
    BridgeOp → Bridge L × List Int
  | .create => ((raw_processor_create env st.1).2, st.2 ++ [(raw_processor_create env st.1).1])
  | .destroy handle => (raw_processor_destroy st.1 handle, st.2)
  | .finalize => (raw_processor_finalize st.1, st.2)

/-- The table and the log of issued handles after a sequence of table operations from
program start. -/
def run_ops {L : Type} (env : Env L) (ops : List BridgeOp) : Bridge L × List Int :=
  ops.foldl (BridgeOp.step env) (Bridge.atStart, [])

/-- The invariant of the session table: keys and issued handles lie in `[1, g_next_handle)`,
the issued handles increase strictly, and the counter is one more than their number. -/
def handles_ok {L : Type} (st : Bridge L × List Int) : Prop :=
  (∀ k : Int, (st.1.g_processors k).isSome = true → 1 ≤ k ∧ k < st.1.g_next_handle)
    ∧ (∀ h ∈ st.2, 1 ≤ h ∧ h < st.1.g_next_handle)
    ∧ st.2.Pairwise (· < ·)
    ∧ st.1.g_next_handle = 1 + (st.2.length : Int)

/-- Crop values far outside `[0, 1]`, with both axes inverted. -/
def wildCrop : AdjustmentParams :=
  { crop_left := -3, crop_top := 5, crop_right := 100, crop_bottom := -2 }

/-- A one-row example image: four columns, one channel. -/
def fourColumns : Mat := ⟨1, 4, 1, Depth.CV_8U, [1, 2, 3, 4]⟩

/-- The example crop: the right edge at 0.7, the rest of the frame kept. -/
def cropRight70 : AdjustmentParams := { crop_right := 7 / 10 }

/-- A one-column example image: four rows, one channel. -/
def fourRows : Mat := ⟨4, 1, 1, Depth.CV_8U, [1, 2, 3, 4]⟩

/-- The value `scale` of `resize_if_needed`: the smaller of the two axis scales, an axis
with bound 0 counting as scale 1. -/
def fit_scale (image : Mat) (max_width max_height : Nat) : ℚ :=
  min (if max_width > 0 then (max_width : ℚ) / image.cols else 1)
    (if max_height > 0 then (max_height : ℚ) / image.rows else 1)

/-- Sample-wise combination of two matrices of one shape. -/
def Mat.zipWith (f : ℚ → ℚ → ℚ) (a b : Mat) : Mat :=
  { a with data := List.zipWith f a.data b.data }

/-- The planes of an interleaved matrix, in the order `cv::split` returns them. -/
def Mat.planes (m : Mat) : List Mat :=
  (List.range m.channels).map (fun c =>
    { m with channels := 1,
             data := (List.range (m.rows * m.cols)).map
               (fun i => m.data.getD (i * m.channels + c) 0) })

/-- The interleaved matrix of a list of planes, as `cv::merge` builds it. -/
def Mat.interleave (ms : List Mat) : Mat :=
  let h := ms.headD Mat.nil
  { h with channels := ms.length,
           data := (List.range (h.rows * h.cols)).flatMap
             (fun i => ms.map (fun m => m.data.getD i 0)) }

/-- An example primitives library with the sample-wise operations worked out: `pow` is exact
at integer exponents, `split` and `merge` take the planes apart and put them together,
the arithmetic is sample by sample, `inRange` writes the 8-bit mask `255`/`0`, and
`bitwise_or` joins two such masks.  The blur is the identity, which is what a normalised
kernel does to a uniform image. -/
def Prim.pointwise : Prim :=
  { Prim.passThrough with
    pow := fun b e => b ^ (⌊e⌋ : Int)
    split := fun m => pure m.planes
    merge := fun ms => pure (Mat.interleave ms)
    add := fun a b => pure (Mat.zipWith (fun x y => x + y) a b)
    subtract := fun a b => pure (Mat.zipWith (fun x y => x - y) a b)
    multiply := fun a b => pure (Mat.zipWith (fun x y => x * y) a b)
    addEx := fun a alpha s => pure { a with data := a.data.map (fun x => x * alpha + s) }
    addScalar := fun a s => pure { a with data := a.data.map (fun x => x + s) }
    inRange := fun a lo hi =>
      pure { a with depth := Depth.CV_8U,
                    data := a.data.map (fun x => if lo ≤ x ∧ x ≤ hi then 255 else 0) }
    bitwise_or := fun a b => pure (Mat.zipWith max a b) }

/-- The parameter set of the exposure law: exposure +1, everything else at its default. -/
def exposurePlusOne : AdjustmentParams := { exposure := 1 }

/-- A uniform mid-gray example image: one pixel, all samples 100. -/
def grayPixelMat : Mat := ⟨1, 1, 3, Depth.CV_8U, [100, 100, 100]⟩

/-- All 24 HSL fields of a parameter set are zero. -/
def hsl_fields_zero (params : AdjustmentParams) : Prop :=
  params.hue_red = 0 ∧ params.hue_orange = 0 ∧ params.hue_yellow = 0 ∧ params.hue_green = 0
    ∧ params.hue_aqua = 0 ∧ params.hue_blue = 0 ∧ params.hue_purple = 0
    ∧ params.hue_magenta = 0
    ∧ params.saturation_red = 0 ∧ params.saturation_orange = 0
    ∧ params.saturation_yellow = 0 ∧ params.saturation_green = 0
    ∧ params.saturation_aqua = 0 ∧ params.saturation_blue = 0
    ∧ params.saturation_purple = 0 ∧ params.saturation_magenta = 0
    ∧ params.luminance_red = 0 ∧ params.luminance_orange = 0
    ∧ params.luminance_yellow = 0 ∧ params.luminance_green = 0
    ∧ params.luminance_aqua = 0 ∧ params.luminance_blue = 0
    ∧ params.luminance_purple = 0 ∧ params.luminance_magenta = 0

/-- A parameter set that is far from neutral outside white balance, HSL and tone curve. -/
def busyElsewhere : AdjustmentParams :=
  { exposure := 1, contrast := 20, saturation := -30, sharpening := 40, vignetting := 10,
    rotation := 90, crop_right := 1 / 2 }

/-- A warm setting: temperature +1000, everything else at its default. -/
def warm1000 : AdjustmentParams := { temperature := 1000 }

/-- One plane of the normalised mid-gray pixel. -/
def grayPlane : Mat := ⟨1, 1, 1, Depth.CV_32F, [100 / 255]⟩

/-- Red deltas only: saturation +50 and luminance +20 for red, everything else at its
default. -/
def redBoost : AdjustmentParams := { saturation_red := 50, luminance_red := 20 }

/-- A one-pixel float plane holding the sample `v`. -/
def plane (v : ℚ) : Mat := ⟨1, 1, 1, Depth.CV_32F, [v]⟩

/-- A one-pixel 8-bit mask holding the sample `v`. -/
def maskPixel (v : ℚ) : Mat := ⟨1, 1, 1, Depth.CV_8U, [v]⟩

/-- The value `output` of the body of the tone-curve loop before the clamp, as a function
of the normalised `input`. -/
def tone_curve_output (params : AdjustmentParams) (input : ℚ) : ℚ :=
  if input < 1 / 4 then
    let t := input / (1 / 4)
    let shadow_adjust := params.curve_shadows / 100
    input + shadow_adjust * t * (1 - t)
  else if input < 1 / 2 then
    let t := (input - 1 / 4) / (1 / 4)
    let dark_adjust := params.curve_darks / 100
    input + dark_adjust * t * (1 - t)
  else if input < 3 / 4 then
    let t := (input - 1 / 2) / (1 / 4)
    let light_adjust := params.curve_lights / 100
    input + light_adjust * t * (1 - t)
  else
    let t := (input - 3 / 4) / (1 / 4)
    let highlight_adjust := params.curve_highlights / 100
    input + highlight_adjust * t * (1 - t)

/-- An image record with positive dimensions and an empty pixel buffer. -/
def dimsOnly : ImageData := ⟨[], 1, 1, 1, 8⟩

/-- Options that ask for preview mode and no output size. -/
def previewFlagOnly : ProcessingOptions := { preview_mode := true }

/-- The samples `cv::normalize(src, dst, alpha, beta, NORM_MINMAX)` writes: the linear map
that takes the smallest sample to `min(alpha, beta)` and the largest to `max(alpha, beta)`
(every sample to the lower bound when they are all equal). -/
def minmax_normalize (xs : List ℚ) (alpha beta : ℚ) : List ℚ :=
  let smin := xs.foldl min (xs.headD 0)
  let smax := xs.foldl max (xs.headD 0)
  let dmin := min alpha beta
  let dmax := max alpha beta
  let scale := (dmax - dmin) * (if smax - smin > 0 then 1 / (smax - smin) else 0)
  let shift := dmin - smin * scale
  xs.map (fun x => x * scale + shift)

/-- The sample-wise example library with the min-max normalisation worked out. -/
def Prim.minmax : Prim :=
  { Prim.pointwise with
    normalize := fun a alpha beta => pure { a with data := minmax_normalize a.data alpha beta } }

/-- Orange deltas only: saturation +50 and luminance +20 for orange. -/
def orangeBoost : AdjustmentParams := { saturation_orange := 50, luminance_orange := 20 }

/-- A two-pixel float plane. -/
def plane2 (a b : ℚ) : Mat := ⟨1, 2, 1, Depth.CV_32F, [a, b]⟩

/-- A two-pixel 8-bit mask. -/
def maskPixel2 (a b : ℚ) : Mat := ⟨1, 2, 1, Depth.CV_8U, [a, b]⟩

/-- A tone curve that lifts the shadows band only. -/
def shadowsOnly : AdjustmentParams := { curve_shadows := 50 }

/-- What the vignette bounds need of `std::sqrt`: it is monotone on the non-negative
numbers, non-negative there, and positive on the positive ones. -/
def sqrt_is_monotone (prim : Prim) : Prop :=
  (∀ a b : ℚ, 0 ≤ a → a ≤ b → prim.sqrt a ≤ prim.sqrt b)
    ∧ (∀ a : ℚ, 0 ≤ a → 0 ≤ prim.sqrt a)
    ∧ (∀ a : ℚ, 0 < a → 0 < prim.sqrt a)

/-- A buffer of `n` zero bytes. -/
def zeros (n : Nat) : List Nat := List.replicate n 0

/-- A valid single-channel image of 65536 × 65536 bytes: its buffer holds `2 ^ 32` bytes. -/
def hugeImage : ImageData := ⟨zeros (2 ^ 32), 65536, 65536, 1, 8⟩

/-- A small valid image: two pixels of three bytes. -/
def twoPixelImage : ImageData := ⟨[1, 2, 3, 4, 5, 6], 2, 1, 3, 8⟩

/-- A one-row example image of 1920 columns. -/
def wideRow : Mat := ⟨1, 1920, 1, Depth.CV_8U, List.replicate 1920 0⟩

/-- The example crop with the right edge at `0.35f`, the `float` nearest 0.35. -/
def cropRight35 : AdjustmentParams := { crop_right := 11744051 / 33554432 }

/-! ## Lemmas on the primitives and the stages -/

theorem cvRound_intCast (z : Int) : cvRound (z : ℚ) = z := by
  simp [cvRound]

theorem byte_roundtrip (n : ℕ) (h : n ≤ 255) :
    storeAs Depth.CV_8U
      (threshold1 1 1 ThreshType.THRESH_TRUNC
        (threshold1 0 0 ThreshType.THRESH_TOZERO
          (storeAs Depth.CV_32F ((n : ℚ) * (1 / 255)))) * 255) = (n : ℚ) := by
  have h0 : (0 : ℚ) ≤ (n : ℚ) := Nat.cast_nonneg n
  have h1 : (n : ℚ) ≤ 255 := by exact_mod_cast h
  have e1 : threshold1 0 0 ThreshType.THRESH_TOZERO ((n : ℚ) * (1 / 255))
      = (n : ℚ) * (1 / 255) := by
    simp only [threshold1]
    split_ifs with hp
    · rfl
    · have : (n : ℚ) * (1 / 255) = 0 := le_antisymm (not_lt.mp hp) (by positivity)
      exact this.symm
  have e2 : threshold1 1 1 ThreshType.THRESH_TRUNC ((n : ℚ) * (1 / 255))
      = (n : ℚ) * (1 / 255) := by
    simp only [threshold1]
    split_ifs with hp
    · exfalso
      have : (n : ℚ) * (1 / 255) ≤ 1 := by linarith
      linarith
    · rfl
  have e3 : (n : ℚ) * (1 / 255) * 255 = ((n : Int) : ℚ) := by
    push_cast; ring
  simp only [storeAs, e1, e2, e3, cvRound_intCast, saturate_u8]
  have : ¬ ((n : Int) < 0) := by omega
  have : ¬ ((255 : Int) < (n : Int)) := by omega
  simp [*]

theorem basic_roundtrip_8bit (image : Mat) (h8 : image.is8Bit) :
    basic_roundtrip image = image := by
  obtain ⟨hd, hb⟩ := h8
  cases image with
  | mk rows cols channels depth data =>
    simp only [basic_roundtrip, Mat.convertTo, clamp01, threshold, rtypeDepth,
      List.map_map] at hd hb ⊢
    subst hd
    congr 1
    conv_rhs => rw [← List.map_id data]
    apply List.map_congr_left
    intro x hx
    obtain ⟨n, hn, rfl⟩ := hb x hx
    simpa [Function.comp] using byte_roundtrip n hn

theorem basic_neutral (prim : Prim) (image : Mat) (params : AdjustmentParams)
    (he : image.empty = false)
    (h1 : params.exposure = 0) (h2 : params.highlights = 0) (h3 : params.shadows = 0)
    (h4 : params.whites = 0) (h5 : params.blacks = 0) (h6 : params.contrast = 0)
    (h7 : params.brightness = 0) (h8 : params.saturation = 0) (h9 : params.vibrance = 0)
    (h10 : params.clarity = 0) :
    apply_basic_adjustments prim image params = Except.ok (basic_roundtrip image) := by
  unfold apply_basic_adjustments
  simp [he, h1, h2, h3, h4, h5, h6, h7, h8, h9, h10, Mat.clone, basic_roundtrip]
  rfl

theorem white_balance_neutral (prim : Prim) (image : Mat) (params : AdjustmentParams)
    (h1 : params.temperature = 0) (h2 : params.tint = 0) :
    apply_white_balance prim image params = Except.ok image := by
  simp [apply_white_balance, h1, h2]
  rfl

theorem hsl_neutral (prim : Prim) (image : Mat) (params : AdjustmentParams)
    (h : has_hsl_adjustments params = false) :
    apply_hsl_adjustments prim image params = Except.ok image := by
  unfold apply_hsl_adjustments
  split_ifs <;> first | rfl | simp_all

theorem tone_curve_neutral (image : Mat) (params : AdjustmentParams)
    (h1 : params.curve_highlights = 0) (h2 : params.curve_lights = 0)
    (h3 : params.curve_darks = 0) (h4 : params.curve_shadows = 0) :
    apply_tone_curve image params = Except.ok image := by
  simp [apply_tone_curve, h1, h2, h3, h4]
  rfl

theorem detail_neutral (prim : Prim) (image : Mat) (params : AdjustmentParams)
    (h1 : params.sharpening = 0) (h2 : params.noise_reduction = 0)
    (h3 : params.color_noise_reduction = 0) :
    apply_detail_adjustments prim image params = Except.ok image := by
  simp [apply_detail_adjustments, h1, h2, h3, Mat.clone]
  rfl

theorem lens_neutral (prim : Prim) (image : Mat) (params : AdjustmentParams)
    (h1 : params.vignetting = 0) (h2 : params.lens_distortion = 0) :
    apply_lens_corrections prim image params = Except.ok image := by
  simp [apply_lens_corrections, h1, h2, Mat.clone]
  rfl

theorem transform_neutral (prim : Prim) (image : Mat) (params : AdjustmentParams)
    (h1 : params.rotation = 0) (h2 : params.crop_left = 0) (h3 : params.crop_top = 0)
    (h4 : params.crop_right = 1) (h5 : params.crop_bottom = 1) :
    apply_transform prim image params = Except.ok image := by
  simp [apply_transform, h1, h2, h3, h4, h5, Mat.clone]
  rfl

theorem preview_stages_default (prim : Prim) (base : Mat) (he : base.empty = false) :
    preview_stages prim base {} = Except.ok (basic_roundtrip base) := by
  have hb := basic_neutral prim base {} he rfl rfl rfl rfl rfl rfl rfl rfl rfl rfl
  unfold preview_stages
  rw [white_balance_neutral prim base {} rfl rfl]
  simp only [bind, Except.bind, hb]
  rw [hsl_neutral prim _ {} rfl]
  simp only []
  rw [tone_curve_neutral _ {} rfl rfl rfl rfl]
  simp only []
  rw [detail_neutral prim _ {} rfl rfl rfl]
  simp only []
  rw [lens_neutral prim _ {} rfl rfl]
  simp only []
  rw [transform_neutral prim _ {} rfl rfl rfl rfl rfl]
  rfl

theorem onePixelMat_is8Bit : onePixelMat.is8Bit := by
  refine ⟨rfl, ?_⟩
  intro x hx
  simp only [onePixelMat, List.mem_cons, List.mem_singleton, List.not_mem_nil, or_false] at hx
  rcases hx with rfl | rfl | rfl
  · exact ⟨10, by norm_num, by norm_num⟩
  · exact ⟨20, by norm_num, by norm_num⟩
  · exact ⟨30, by norm_num, by norm_num⟩

/-- C1 (identity).  For every non-empty 8-bit base raster, the seven stages run with an
all-default `AdjustmentParams` succeed and yield a raster `out` of the same dimensions and
channel count in which every sample differs from the corresponding base sample by at most 1.
Hence the `try` block of `generate_preview` is the channel reorder and conversion of `out`,
and a `generate_preview` served from a cache that holds the base returns just that. -/
theorem identity_default_params (prim : Prim) (base : Mat)
    (hne : base.empty = false) (h8 : base.is8Bit) :
    ∃ out : Mat, preview_stages prim base {} = Except.ok out
      ∧ out.rows = base.rows ∧ out.cols = base.cols ∧ out.channels = base.channels
      ∧ List.Forall₂ (fun a b : ℚ => |a - b| ≤ 1) out.data base.data
      ∧ preview_try prim base {}
          = (prim.cvtColor out ColorCode.COLOR_BGR2RGB).map mat_to_image_data
      ∧ ∀ (L : Type) (env : Env L) (self : RawProcessor L) (options : ProcessingOptions),
          self.is_loaded_ = true → self.cache_valid_ = true → self.cached_image_ = base →
          (generate_preview env prim self {} options).1
            = Except.ok (preview_catch
                ((prim.cvtColor out ColorCode.COLOR_BGR2RGB).map mat_to_image_data)) := by
  have hs := preview_stages_default prim base hne
  rw [basic_roundtrip_8bit base h8] at hs
  have ht : preview_try prim base {}
      = (prim.cvtColor base ColorCode.COLOR_BGR2RGB).map mat_to_image_data := by
    unfold preview_try
    simp only [Mat.clone, hs, bind, Except.bind, pure, Except.pure]
    cases prim.cvtColor base ColorCode.COLOR_BGR2RGB <;> rfl
  refine ⟨base, hs, rfl, rfl, rfl, ?_, ht, ?_⟩
  · exact List.forall₂_same.mpr (fun x _ => by simp)
  · intro L env self options hl hv hc
    simp [generate_preview, hl, hv, hc, hne, Mat.clone, ht]
    rfl

theorem identity_default_params_witness :
    ∃ out : Mat, preview_stages Prim.passThrough onePixelMat {} = Except.ok out
      ∧ out.rows = 1 ∧ out.cols = 1 ∧ out.channels = 3
      ∧ List.Forall₂ (fun a b : ℚ => |a - b| ≤ 1) out.data [10, 20, 30] := by
  obtain ⟨out, h1, h2, h3, h4, h5, _⟩ :=
    identity_default_params Prim.passThrough onePixelMat (by decide) onePixelMat_is8Bit
  exact ⟨out, h1, h2, h3, h4, h5⟩

/-- The decode path touches only the decode-library state and the ghost counter, which it
increments by one. -/
theorem process_with_libraw_frame {L : Type} (env : Env L) (prim : Prim)
    (self : RawProcessor L) (options : ProcessingOptions) :
    ∃ l : L, (process_with_libraw env prim self options).2
      = { self with libraw_ := l, decode_calls := self.decode_calls + 1 } := by
  unfold process_with_libraw
  simp only []
  by_cases h1 : (env.dcraw_process self.libraw_).1 ≠ LIBRAW_SUCCESS
  · rw [if_pos h1]
    exact ⟨_, rfl⟩
  · rw [if_neg h1]
    cases (env.dcraw_make_mem_image (env.dcraw_process self.libraw_).2).2.1 with
    | none => exact ⟨_, rfl⟩
    | some p =>
      simp only []
      split_ifs <;> exact ⟨_, rfl⟩

theorem generate_preview_hit {L : Type} (env : Env L) (prim : Prim) (self : RawProcessor L)
    (params : AdjustmentParams) (options : ProcessingOptions)
    (hl : self.is_loaded_ = true) (hc : cache_hit self = true) :
    generate_preview env prim self params options
      = (Except.ok (preview_catch (preview_try prim self.cached_image_ params)), self) := by
  simp only [cache_hit, Bool.and_eq_true, Bool.not_eq_true', Bool.not_eq_eq_eq_not,
    Bool.not_true] at hc
  simp [generate_preview, hl, hc.1, hc.2, Mat.clone]
  rfl

theorem generate_preview_not_loaded {L : Type} (env : Env L) (prim : Prim)
    (self : RawProcessor L) (params : AdjustmentParams) (options : ProcessingOptions)
    (hl : self.is_loaded_ = false) :
    generate_preview env prim self params options
      = (Except.ok (ProcessingResult.ofError ResultCode.ERROR_INVALID_PARAMETERS
          "No RAW file loaded"), self) := by
  simp [generate_preview, hl]
  rfl

theorem generate_preview_miss {L : Type} (env : Env L) (prim : Prim) (self : RawProcessor L)
    (params : AdjustmentParams) (options : ProcessingOptions)
    (hl : self.is_loaded_ = true) (hc : cache_hit self = false) :
    generate_preview env prim self params options
      = match process_with_libraw env prim self options with
        | (Except.error e, self) => (Except.error e, self)
        | (Except.ok base_image, self) =>
          if base_image.empty then
            (Except.ok (ProcessingResult.ofError ResultCode.ERROR_PROCESSING_FAILED
              "Failed to process RAW"), self)
          else
            (Except.ok (preview_catch (preview_try prim base_image params)),
              { self with cached_image_ := base_image, cache_valid_ := true }) := by
  have hc' : ¬ (self.cache_valid_ = true ∧ (!self.cached_image_.empty) = true) := by
    intro h
    simp [cache_hit, h.1, h.2] at hc
  unfold generate_preview
  simp only [hl, Bool.not_true, Bool.false_eq_true, if_false, hc', Mat.clone]
  rfl

/-- C2 (cache idempotence).  If a `generate_preview` call returns success, the next
`generate_preview` call on the session it leaves, with the same params (and any options),
returns the identical result, leaves the session as it is, so that its decode-call counter does
not move, and the counter has grown by at most one over the two calls. -/
theorem preview_cache_idempotent {L : Type} (env : Env L) (prim : Prim) (s : RawProcessor L)
    (params : AdjustmentParams) (o1 o2 : ProcessingOptions) (r1 : ImageResult)
    (h1 : (generate_preview env prim s params o1).1 = Except.ok r1)
    (hs : r1.code = ResultCode.SUCCESS) :
    generate_preview env prim (generate_preview env prim s params o1).2 params o2
        = (Except.ok r1, (generate_preview env prim s params o1).2)
      ∧ (generate_preview env prim (generate_preview env prim s params o1).2 params o2).2.decode_calls
          = (generate_preview env prim s params o1).2.decode_calls
      ∧ (generate_preview env prim (generate_preview env prim s params o1).2 params o2).2.decode_calls
          ≤ s.decode_calls + 1 := by
  have key : generate_preview env prim (generate_preview env prim s params o1).2 params o2
        = (Except.ok r1, (generate_preview env prim s params o1).2)
      ∧ (generate_preview env prim s params o1).2.decode_calls ≤ s.decode_calls + 1 := by
    cases hl : s.is_loaded_ with
    | false =>
      rw [generate_preview_not_loaded env prim s params o1 hl] at h1
      simp only [Except.ok.injEq] at h1
      subst h1
      simp [ProcessingResult.ofError] at hs
    | true =>
      cases hc : cache_hit s with
      | true =>
        rw [generate_preview_hit env prim s params o1 hl hc] at h1 ⊢
        simp only [Except.ok.injEq] at h1
        rw [generate_preview_hit env prim s params o2 hl hc, h1]
        exact ⟨rfl, Nat.le_succ _⟩
      | false =>
        obtain ⟨l, hf⟩ := process_with_libraw_frame env prim s o1
        rw [generate_preview_miss env prim s params o1 hl hc] at h1 ⊢
        rcases hp : process_with_libraw env prim s o1 with ⟨r, s'⟩
        rw [hp] at h1 hf
        simp only at hf
        cases r with
        | error e => simp at h1
        | ok base =>
          simp only at h1 ⊢
          cases hb : base.empty with
          | true =>
            simp only [hb, if_true, Except.ok.injEq] at h1
            subst h1
            simp [ProcessingResult.ofError] at hs
          | false =>
            simp only [hb, Bool.false_eq_true, if_false, Except.ok.injEq] at h1 ⊢
            have hl' : ({ s' with cached_image_ := base, cache_valid_ := true } :
                RawProcessor L).is_loaded_ = true := by
              simp only [hf, hl]
            have hc' : cache_hit ({ s' with cached_image_ := base, cache_valid_ := true } :
                RawProcessor L) = true := by
              simp [cache_hit, hb]
            rw [generate_preview_hit env prim _ params o2 hl' hc']
            simp only [h1, hf]
            exact ⟨trivial, le_refl _⟩
  refine ⟨key.1, ?_, ?_⟩
  · rw [key.1]
  · rw [key.1]
    exact key.2

theorem loaded_eq : RawProcessor.loaded
    = { libraw_ := 2, current_file_path_ := "a.raw", is_loaded_ := true,
        cached_image_ := Mat.nil, cache_valid_ := false, decode_calls := 0 } := by
  rfl

theorem preview_loaded_default (options : ProcessingOptions) (hp : options.preview_mode = false) :
    generate_preview Env.counting Prim.passThrough RawProcessor.loaded {} options
      = (Except.ok onePixelResult,
          { libraw_ := 4, current_file_path_ := "a.raw", is_loaded_ := true,
            cached_image_ := onePixelMat, cache_valid_ := true, decode_calls := 1 }) := by
  have hm : process_with_libraw Env.counting Prim.passThrough RawProcessor.loaded options
      = (Except.ok onePixelMat,
          { libraw_ := 4, current_file_path_ := "a.raw", is_loaded_ := true,
            cached_image_ := Mat.nil, cache_valid_ := false, decode_calls := 1 }) := by
    simp [process_with_libraw, hp, loaded_eq, Env.counting, onePixel, mat_of_bytes, Mat.clone,
      Mat.empty, LIBRAW_SUCCESS, onePixelMat]
    rfl
  have ht : preview_try Prim.passThrough onePixelMat {} = Except.ok ⟨[10, 20, 30], 1, 1, 3, 8⟩ := by
    have h := preview_stages_default Prim.passThrough onePixelMat (by decide)
    rw [basic_roundtrip_8bit onePixelMat onePixelMat_is8Bit] at h
    simp only [preview_try, Mat.clone, h, bind, Except.bind]
    simp [Prim.passThrough, mat_to_image_data, onePixelMat, Mat.empty, ImageData.alloc, memcpy,
      sampleByte, Depth.bytes, pure, Except.pure]
  rw [generate_preview_miss _ _ _ _ _ (by rfl) (by rfl), hm]
  simp only [ht, preview_catch, onePixelResult]
  rfl

theorem preview_cache_idempotent_witness :
    (generate_preview Env.counting Prim.passThrough
        (generate_preview Env.counting Prim.passThrough RawProcessor.loaded {} {}).2 {} {}).1
      = Except.ok onePixelResult
    ∧ (generate_preview Env.counting Prim.passThrough
        (generate_preview Env.counting Prim.passThrough RawProcessor.loaded {} {}).2 {} {}).2.decode_calls
      ≤ 0 + 1 := by
  have h := preview_cache_idempotent Env.counting Prim.passThrough RawProcessor.loaded {} {} {}
    onePixelResult (by rw [preview_loaded_default {} rfl]) rfl
  exact ⟨by rw [h.1], h.2.2⟩

theorem release_empty (m : Mat) : m.release.empty = true := by
  simp [Mat.release, Mat.empty]

theorem clear_eq {L : Type} (env : Env L) (s : RawProcessor L) :
    clear env s
      = { libraw_ := if s.is_loaded_ then env.recycle s.libraw_ else s.libraw_,
          current_file_path_ := "", is_loaded_ := false,
          cached_image_ := s.cached_image_.release, cache_valid_ := false,
          decode_calls := s.decode_calls } := by
  unfold clear invalidate_cache
  cases s.is_loaded_ <;> rfl

/-- What `load_raw_file` leaves: the cache is dropped, and the session is loaded, with
the new path, exactly when the call returned success. -/
theorem load_raw_file_post {L : Type} (env : Env L) (s : RawProcessor L) (path : String) :
    (load_raw_file env s path).2
      = { libraw_ := (load_raw_file env s path).2.libraw_,
          current_file_path_ :=
            if (load_raw_file env s path).1.code = ResultCode.SUCCESS then path else "",
          is_loaded_ := decide ((load_raw_file env s path).1.code = ResultCode.SUCCESS),
          cached_image_ := s.cached_image_.release, cache_valid_ := false,
          decode_calls := s.decode_calls } := by
  unfold load_raw_file
  simp only [clear_eq]
  by_cases hg : env.file_good path = true
  · simp only [hg, Bool.not_true, Bool.false_eq_true, if_false]
    by_cases ho : (env.open_file (if s.is_loaded_ = true then env.recycle s.libraw_
        else s.libraw_) path).1 ≠ LIBRAW_SUCCESS
    · rw [if_pos ho]
      simp [ProcessingResult.ofError]
    · rw [if_neg ho]
      by_cases hu : (env.unpack (env.open_file (if s.is_loaded_ = true then env.recycle s.libraw_
          else s.libraw_) path).2).1 ≠ LIBRAW_SUCCESS
      · rw [if_pos hu]
        simp [ProcessingResult.ofError]
      · rw [if_neg hu]
        simp [ProcessingResult.ofData, invalidate_cache, Mat.release]
  · simp only [hg, Bool.not_false, if_true]
    simp [ProcessingResult.ofError]

theorem generate_thumbnail_frame {L : Type} (env : Env L) (prim : Prim)
    (s : RawProcessor L) (max_size : Nat) :
    (generate_thumbnail env prim s max_size).2.cached_image_ = s.cached_image_
      ∧ (generate_thumbnail env prim s max_size).2.cache_valid_ = s.cache_valid_
      ∧ (generate_thumbnail env prim s max_size).2.is_loaded_ = s.is_loaded_
      ∧ (generate_thumbnail env prim s max_size).2.current_file_path_ = s.current_file_path_ := by
  have raw : ∀ s' : RawProcessor L,
      (thumbnail_from_raw env prim s' max_size).2.cached_image_ = s'.cached_image_
      ∧ (thumbnail_from_raw env prim s' max_size).2.cache_valid_ = s'.cache_valid_
      ∧ (thumbnail_from_raw env prim s' max_size).2.is_loaded_ = s'.is_loaded_
      ∧ (thumbnail_from_raw env prim s' max_size).2.current_file_path_
          = s'.current_file_path_ := by
    intro s'
    unfold thumbnail_from_raw
    simp only []
    obtain ⟨l, hf⟩ := process_with_libraw_frame env prim s'
      { output_width := max_size, output_height := max_size,
        quality := (ProcessingOptions.ofPreview true).quality,
        preview_mode := (ProcessingOptions.ofPreview true).preview_mode,
        use_gpu := (ProcessingOptions.ofPreview true).use_gpu,
        thread_count := (ProcessingOptions.ofPreview true).thread_count }
    revert hf
    rcases process_with_libraw env prim s' _ with ⟨r, s''⟩
    intro hf
    simp only at hf
    subst hf
    cases r with
    | error e => exact ⟨rfl, rfl, rfl, rfl⟩
    | ok image =>
      simp only []
      split_ifs <;> exact ⟨rfl, rfl, rfl, rfl⟩
  unfold generate_thumbnail
  cases hl : s.is_loaded_ with
  | false => exact ⟨rfl, rfl, hl.symm ▸ rfl, rfl⟩
  | true =>
    simp only [Bool.not_true, Bool.false_eq_true, if_false]
    split
    · split
      · exact ⟨rfl, rfl, hl.symm ▸ rfl, rfl⟩
      · split_ifs
        · exact ⟨rfl, rfl, hl.symm ▸ rfl, rfl⟩
        · have := raw { s with libraw_ := (env.unpack_thumb s.libraw_).2 }
          simpa [hl] using this
    · have := raw { s with libraw_ := (env.unpack_thumb s.libraw_).2 }
      simpa [hl] using this

theorem process_full_image_frame {L : Type} (env : Env L) (prim : Prim)
    (s : RawProcessor L) (params : AdjustmentParams) (options : ProcessingOptions) :
    (process_full_image env prim s params options).2.cached_image_ = s.cached_image_
      ∧ (process_full_image env prim s params options).2.cache_valid_ = s.cache_valid_
      ∧ (process_full_image env prim s params options).2.is_loaded_ = s.is_loaded_
      ∧ (process_full_image env prim s params options).2.current_file_path_
          = s.current_file_path_ := by
  unfold process_full_image
  cases hl : s.is_loaded_ with
  | false => exact ⟨rfl, rfl, hl.symm ▸ rfl, rfl⟩
  | true =>
    simp only [Bool.not_true, Bool.false_eq_true, if_false]
    obtain ⟨l, hf⟩ := process_with_libraw_frame env prim s { options with preview_mode := false }
    revert hf
    rcases process_with_libraw env prim s _ with ⟨r, s''⟩
    intro hf
    simp only at hf
    subst hf
    cases r with
    | error e => exact ⟨rfl, rfl, hl.symm ▸ rfl, rfl⟩
    | ok image =>
      simp only []
      split_ifs <;> exact ⟨rfl, rfl, hl.symm ▸ rfl, rfl⟩

theorem generate_preview_frame {L : Type} (env : Env L) (prim : Prim)
    (s : RawProcessor L) (params : AdjustmentParams) (options : ProcessingOptions) :
    (generate_preview env prim s params options).2.is_loaded_ = s.is_loaded_
      ∧ (generate_preview env prim s params options).2.current_file_path_
          = s.current_file_path_
      ∧ (((generate_preview env prim s params options).2.cached_image_ = s.cached_image_
            ∧ (generate_preview env prim s params options).2.cache_valid_ = s.cache_valid_)
          ∨ cache_hit (generate_preview env prim s params options).2 = true) := by
  cases hl : s.is_loaded_ with
  | false =>
    rw [generate_preview_not_loaded env prim s params options hl]
    exact ⟨hl, rfl, Or.inl ⟨rfl, rfl⟩⟩
  | true =>
    cases hc : cache_hit s with
    | true =>
      rw [generate_preview_hit env prim s params options hl hc]
      exact ⟨hl, rfl, Or.inl ⟨rfl, rfl⟩⟩
    | false =>
      rw [generate_preview_miss env prim s params options hl hc]
      obtain ⟨l, hf⟩ := process_with_libraw_frame env prim s options
      revert hf
      rcases process_with_libraw env prim s options with ⟨r, s'⟩
      intro hf
      simp only at hf
      subst hf
      cases r with
      | error e => exact ⟨hl, rfl, Or.inl ⟨rfl, rfl⟩⟩
      | ok base =>
        simp only []
        cases hb : base.empty with
        | true => exact ⟨hl, rfl, Or.inl ⟨rfl, rfl⟩⟩
        | false =>
          simp only [Bool.false_eq_true, if_false]
          exact ⟨hl, trivial, Or.inr (by simp [cache_hit, hb])⟩

/-- On every session the program can produce, a valid cache holds a non-empty base image:
`cache_valid_` alone decides the cache test of `generate_preview`. -/
theorem reachable_cache_hit {L : Type} (env : Env L) (prim : Prim) (s : RawProcessor L)
    (hr : Reachable env prim s) : cache_hit s = s.cache_valid_ := by
  induction hr with
  | constructed l => rfl
  | @load s path _ _ =>
    rw [load_raw_file_post]
    simp [cache_hit]
  | @clear s _ _ =>
    rw [clear_eq]
    simp [cache_hit]
  | @thumbnail s max_size _ ih =>
    obtain ⟨h1, h2, _, _⟩ := generate_thumbnail_frame env prim s max_size
    simp only [cache_hit] at ih ⊢
    rw [h1, h2]
    exact ih
  | @preview s params options _ ih =>
    obtain ⟨_, _, h | h⟩ := generate_preview_frame env prim s params options
    · simp only [cache_hit] at ih ⊢
      rw [h.1, h.2]
      exact ih
    · rw [h]
      simp only [cache_hit, Bool.and_eq_true] at h
      exact h.1.symm
  | @full s params options _ ih =>
    obtain ⟨h1, h2, _, _⟩ := process_full_image_frame env prim s params options
    simp only [cache_hit] at ih ⊢
    rw [h1, h2]
    exact ih

/-- On every session the program can produce, an invalid cache holds no image. -/
theorem reachable_invalid_cache_empty {L : Type} (env : Env L) (prim : Prim)
    (s : RawProcessor L) (hr : Reachable env prim s) (hv : s.cache_valid_ = false) :
    s.cached_image_.empty = true := by
  induction hr with
  | constructed l => rfl
  | @load s path _ _ =>
    rw [load_raw_file_post]
    exact release_empty _
  | @clear s _ _ =>
    rw [clear_eq]
    exact release_empty _
  | @thumbnail s max_size _ ih =>
    obtain ⟨h1, h2, _, _⟩ := generate_thumbnail_frame env prim s max_size
    rw [h1]
    exact ih (h2.symm.trans hv)
  | @preview s params options _ ih =>
    obtain ⟨_, _, h | h⟩ := generate_preview_frame env prim s params options
    · rw [h.1]
      exact ih (h.2.symm.trans hv)
    · simp [cache_hit, hv] at h
  | @full s params options _ ih =>
    obtain ⟨h1, h2, _, _⟩ := process_full_image_frame env prim s params options
    rw [h1]
    exact ih (h2.symm.trans hv)

theorem rendered_eq : RawProcessor.rendered
    = { libraw_ := 4, current_file_path_ := "a.raw", is_loaded_ := true,
        cached_image_ := onePixelMat, cache_valid_ := true, decode_calls := 1 } := by
  unfold RawProcessor.rendered
  rw [preview_loaded_default {} rfl]

theorem generate_preview_miss_decodes {L : Type} (env : Env L) (prim : Prim)
    (s : RawProcessor L) (params : AdjustmentParams) (options : ProcessingOptions)
    (hl : s.is_loaded_ = true) (hc : cache_hit s = false) :
    (generate_preview env prim s params options).2.decode_calls = s.decode_calls + 1 := by
  rw [generate_preview_miss env prim s params options hl hc]
  obtain ⟨l, hf⟩ := process_with_libraw_frame env prim s options
  revert hf
  rcases process_with_libraw env prim s options with ⟨r, s'⟩
  intro hf
  simp only at hf
  subst hf
  cases r with
  | error e => rfl
  | ok base =>
    simp only []
    split_ifs <;> rfl

/-- C3, the claim as stated fails: the example session with a valid cache is cleared, and
the next `generate_preview` (same params) is rejected with `ERROR_INVALID_PARAMETERS`;
the decode-call counter stays where it was, so decode is not invoked again. -/
theorem render_after_clear_does_not_decode :
    RawProcessor.rendered.cache_valid_ = true
      ∧ (generate_preview Env.counting Prim.passThrough
          (clear Env.counting RawProcessor.rendered) {} {}).1
        = Except.ok (ProcessingResult.ofError ResultCode.ERROR_INVALID_PARAMETERS
            "No RAW file loaded")
      ∧ (generate_preview Env.counting Prim.passThrough
          (clear Env.counting RawProcessor.rendered) {} {}).2.decode_calls
        = (clear Env.counting RawProcessor.rendered).decode_calls := by
  have hl : (clear Env.counting RawProcessor.rendered).is_loaded_ = false := by
    rw [clear_eq]
  rw [generate_preview_not_loaded _ _ _ _ _ hl]
  exact ⟨by rw [rendered_eq], rfl, rfl⟩

/-- C3 (cache invalidation), amended.  After `load_raw_file` (any path, any prior state) and
after `clear`, the cache is invalid and empty, so no later `generate_preview` is served from
it.  If the load returned success, the next `generate_preview` invokes decode again (the
decode-call counter grows by one), whatever the params.  After a failed load, and after
`clear`, the session is not loaded and the next `generate_preview` is rejected with
`ERROR_INVALID_PARAMETERS`, the session unchanged. -/
theorem cache_invalidated_by_load_and_clear {L : Type} (env : Env L) (prim : Prim)
    (s : RawProcessor L) (path : String) (params : AdjustmentParams)
    (options : ProcessingOptions) :
    ((load_raw_file env s path).2.cache_valid_ = false
        ∧ (load_raw_file env s path).2.cached_image_.empty = true
        ∧ cache_hit (load_raw_file env s path).2 = false)
      ∧ ((clear env s).cache_valid_ = false
        ∧ (clear env s).cached_image_.empty = true
        ∧ cache_hit (clear env s) = false)
      ∧ ((load_raw_file env s path).1.code = ResultCode.SUCCESS →
          (generate_preview env prim (load_raw_file env s path).2 params options).2.decode_calls
            = (load_raw_file env s path).2.decode_calls + 1)
      ∧ ((load_raw_file env s path).1.code ≠ ResultCode.SUCCESS →
          generate_preview env prim (load_raw_file env s path).2 params options
            = (Except.ok (ProcessingResult.ofError ResultCode.ERROR_INVALID_PARAMETERS
                "No RAW file loaded"), (load_raw_file env s path).2))
      ∧ generate_preview env prim (clear env s) params options
          = (Except.ok (ProcessingResult.ofError ResultCode.ERROR_INVALID_PARAMETERS
              "No RAW file loaded"), clear env s) := by
  have hload := load_raw_file_post env s path
  have hlv : (load_raw_file env s path).2.cache_valid_ = false := by rw [hload]
  have hle : (load_raw_file env s path).2.cached_image_.empty = true := by
    rw [hload]; exact release_empty _
  have hlh : cache_hit (load_raw_file env s path).2 = false := by
    simp [cache_hit, hlv]
  have hll : (load_raw_file env s path).2.is_loaded_
      = decide ((load_raw_file env s path).1.code = ResultCode.SUCCESS) := by
    rw [hload]
  have hcl : (clear env s).is_loaded_ = false := by rw [clear_eq]
  refine ⟨⟨hlv, hle, hlh⟩, ⟨?_, ?_, ?_⟩, ?_, ?_, ?_⟩
  · rw [clear_eq]
  · rw [clear_eq]; exact release_empty _
  · rw [clear_eq]; simp [cache_hit]
  · intro hs
    exact generate_preview_miss_decodes env prim _ params options (by simp [hll, hs]) hlh
  · intro hs
    exact generate_preview_not_loaded env prim _ params options (by simp [hll, hs])
  · exact generate_preview_not_loaded env prim _ params options hcl

theorem cache_invalidated_by_load_and_clear_witness :
    (load_raw_file Env.counting RawProcessor.rendered "b.raw").1.code = ResultCode.SUCCESS
      ∧ (generate_preview Env.counting Prim.passThrough
          (load_raw_file Env.counting RawProcessor.rendered "b.raw").2 {} {}).2.decode_calls
        = (load_raw_file Env.counting RawProcessor.rendered "b.raw").2.decode_calls + 1 := by
  have hs : (load_raw_file Env.counting RawProcessor.rendered "b.raw").1.code
      = ResultCode.SUCCESS := by
    rw [rendered_eq]; rfl
  exact ⟨hs, (cache_invalidated_by_load_and_clear Env.counting Prim.passThrough
    RawProcessor.rendered "b.raw" {} {}).2.2.1 hs⟩

theorem rendered_reachable :
    Reachable Env.counting Prim.passThrough RawProcessor.rendered :=
  Reachable.preview {} {} (Reachable.load "a.raw" (Reachable.constructed 0))

/-- C4 (the cache is not keyed by options).  On a session the program can produce whose
cache is valid, `generate_preview` returns the same result and leaves the same session for
every two `ProcessingOptions`, and neither call invokes decode: the session, with its
decode-call counter, is left as it was. -/
theorem preview_ignores_options {L : Type} (env : Env L) (prim : Prim) (s : RawProcessor L)
    (hr : Reachable env prim s) (hv : s.cache_valid_ = true)
    (params : AdjustmentParams) (o1 o2 : ProcessingOptions) :
    generate_preview env prim s params o1 = generate_preview env prim s params o2
      ∧ (generate_preview env prim s params o1).2 = s
      ∧ (generate_preview env prim s params o2).2 = s
      ∧ (generate_preview env prim s params o1).2.decode_calls = s.decode_calls
      ∧ (generate_preview env prim s params o2).2.decode_calls = s.decode_calls := by
  have hc : cache_hit s = true := by rw [reachable_cache_hit env prim s hr, hv]
  cases hl : s.is_loaded_ with
  | false =>
    rw [generate_preview_not_loaded env prim s params o1 hl,
      generate_preview_not_loaded env prim s params o2 hl]
    exact ⟨rfl, rfl, rfl, rfl, rfl⟩
  | true =>
    rw [generate_preview_hit env prim s params o1 hl hc,
      generate_preview_hit env prim s params o2 hl hc]
    exact ⟨rfl, rfl, rfl, rfl, rfl⟩

theorem preview_ignores_options_witness :
    generate_preview Env.counting Prim.passThrough RawProcessor.rendered {}
        { output_width := 1, output_height := 1, preview_mode := true }
      = generate_preview Env.counting Prim.passThrough RawProcessor.rendered {} {}
    ∧ (generate_preview Env.counting Prim.passThrough RawProcessor.rendered {}
        { output_width := 1, output_height := 1, preview_mode := true }).2.decode_calls
      = RawProcessor.rendered.decode_calls := by
  have h := preview_ignores_options Env.counting Prim.passThrough RawProcessor.rendered
    rendered_reachable (by rw [rendered_eq]) {}
    { output_width := 1, output_height := 1, preview_mode := true } {}
  exact ⟨h.1, h.2.2.2.1⟩

/-- C5 (the pipeline never mutates the cache).  For a session the program can produce:
if its cache is valid, any `generate_preview` call, whatever its outcome (success or a failed
stage), leaves the whole session, and so the cached base raster, as it was; the session a
call leaves does not depend on the params; and on a loaded session whose cache is not valid
(a cache miss), the cache afterwards is valid and holds exactly the raster decode returned
when that raster is not empty, and is left empty and invalid when decode returned the empty
raster or raised. -/
theorem preview_preserves_cache {L : Type} (env : Env L) (prim : Prim) (s : RawProcessor L)
    (hr : Reachable env prim s) (params : AdjustmentParams) (options : ProcessingOptions) :
    (s.cache_valid_ = true →
        (generate_preview env prim s params options).2 = s
          ∧ (generate_preview env prim s params options).2.cached_image_ = s.cached_image_)
      ∧ (∀ params2 : AdjustmentParams,
          (generate_preview env prim s params2 options).2
            = (generate_preview env prim s params options).2)
      ∧ (s.is_loaded_ = true → s.cache_valid_ = false →
          (∀ base : Mat,
            (process_with_libraw env prim s options).1 = Except.ok base →
            base.empty = false →
            (generate_preview env prim s params options).2.cached_image_ = base
              ∧ (generate_preview env prim s params options).2.cache_valid_ = true)
          ∧ (∀ base : Mat,
            (process_with_libraw env prim s options).1 = Except.ok base →
            base.empty = true →
            (generate_preview env prim s params options).2.cached_image_.empty = true
              ∧ (generate_preview env prim s params options).2.cache_valid_ = false)
          ∧ (∀ e : Exn,
            (process_with_libraw env prim s options).1 = Except.error e →
            (generate_preview env prim s params options).2.cached_image_.empty = true
              ∧ (generate_preview env prim s params options).2.cache_valid_ = false)) := by
  have hch := reachable_cache_hit env prim s hr
  have frame : ∀ p : AdjustmentParams, s.cache_valid_ = true →
      (generate_preview env prim s p options).2 = s := by
    intro p hv
    have hc : cache_hit s = true := by rw [hch, hv]
    cases hl : s.is_loaded_ with
    | false => rw [generate_preview_not_loaded env prim s p options hl]
    | true => rw [generate_preview_hit env prim s p options hl hc]
  refine ⟨fun hv => ⟨frame params hv, by rw [frame params hv]⟩, ?_, ?_⟩
  · intro params2
    cases hl : s.is_loaded_ with
    | false =>
      rw [generate_preview_not_loaded env prim s params2 options hl,
        generate_preview_not_loaded env prim s params options hl]
    | true =>
      cases hc : cache_hit s with
      | true =>
        rw [generate_preview_hit env prim s params2 options hl hc,
          generate_preview_hit env prim s params options hl hc]
      | false =>
        rw [generate_preview_miss env prim s params2 options hl hc,
          generate_preview_miss env prim s params options hl hc]
        rcases process_with_libraw env prim s options with ⟨r, s'⟩
        cases r with
        | error e => rfl
        | ok base =>
          simp only []
          split_ifs <;> rfl
  · intro hl hv
    have hc : cache_hit s = false := by rw [hch, hv]
    have he := reachable_invalid_cache_empty env prim s hr hv
    rw [generate_preview_miss env prim s params options hl hc]
    obtain ⟨l, hf⟩ := process_with_libraw_frame env prim s options
    revert hf
    rcases process_with_libraw env prim s options with ⟨r, s'⟩
    intro hf
    simp only at hf
    subst hf
    refine ⟨?_, ?_, ?_⟩
    · intro base hd hb
      simp only at hd
      subst hd
      simp only [hb, Bool.false_eq_true, if_false]
      exact ⟨trivial, trivial⟩
    · intro base hd hb
      simp only at hd
      subst hd
      simp only [hb, if_true]
      exact ⟨he, hv⟩
    · intro e hd
      simp only at hd
      subst hd
      exact ⟨he, hv⟩

theorem preview_preserves_cache_witness :
    (generate_preview Env.counting Prim.noColor
        (generate_preview Env.counting Prim.noColor RawProcessor.loaded {} {}).2
        { exposure := 1 } {}).1
      = Except.ok (ProcessingResult.ofError ResultCode.ERROR_OPENCV_ERROR
          "OpenCV error during processing: cvtColor")
    ∧ (generate_preview Env.counting Prim.noColor
        (generate_preview Env.counting Prim.noColor RawProcessor.loaded {} {}).2
        { exposure := 1 } {}).2.cached_image_
      = (generate_preview Env.counting Prim.noColor RawProcessor.loaded {} {}).2.cached_image_
    ∧ (generate_preview Env.counting Prim.noColor RawProcessor.loaded {} {}).2.cached_image_
      = onePixelMat := by
  have h := (preview_preserves_cache Env.counting Prim.noColor
    (generate_preview Env.counting Prim.noColor RawProcessor.loaded {} {}).2
    (Reachable.preview {} {} (Reachable.load "a.raw" (Reachable.constructed 0)))
    { exposure := 1 } {}).1 (by rfl)
  refine ⟨?_, h.2, ?_⟩
  · rfl
  · rfl

/-- C6 (operations on a session that is not loaded).  For every session with
`is_loaded_ = false`, each of `extract_metadata`, `generate_thumbnail`, `generate_preview`
and `process_full_image` returns the failure `ERROR_INVALID_PARAMETERS` (code -5), and the
three that take the session by reference leave it exactly as it was, its decode-call
counter included: decode is not invoked. -/
theorem not_loaded_is_invalid_parameters {L : Type} (env : Env L) (prim : Prim)
    (s : RawProcessor L) (hl : s.is_loaded_ = false) (max_size : Nat)
    (params : AdjustmentParams) (options : ProcessingOptions) :
    (extract_metadata env s).code = ResultCode.ERROR_INVALID_PARAMETERS
      ∧ (extract_metadata env s).is_error = true
      ∧ generate_thumbnail env prim s max_size
          = (Except.ok (ProcessingResult.ofError ResultCode.ERROR_INVALID_PARAMETERS
              "No RAW file loaded"), s)
      ∧ generate_preview env prim s params options
          = (Except.ok (ProcessingResult.ofError ResultCode.ERROR_INVALID_PARAMETERS
              "No RAW file loaded"), s)
      ∧ process_full_image env prim s params options
          = (Except.ok (ProcessingResult.ofError ResultCode.ERROR_INVALID_PARAMETERS
              "No RAW file loaded"), s)
      ∧ (generate_thumbnail env prim s max_size).2.decode_calls = s.decode_calls
      ∧ (generate_preview env prim s params options).2.decode_calls = s.decode_calls
      ∧ (process_full_image env prim s params options).2.decode_calls = s.decode_calls
      ∧ ResultCode.ERROR_INVALID_PARAMETERS.toInt = -5 := by
  have hm : extract_metadata env s
      = ProcessingResult.ofError ResultCode.ERROR_INVALID_PARAMETERS "No RAW file loaded" := by
    simp [extract_metadata, hl]
  have ht : generate_thumbnail env prim s max_size
      = (Except.ok (ProcessingResult.ofError ResultCode.ERROR_INVALID_PARAMETERS
          "No RAW file loaded"), s) := by
    simp [generate_thumbnail, hl]
    rfl
  have hf : process_full_image env prim s params options
      = (Except.ok (ProcessingResult.ofError ResultCode.ERROR_INVALID_PARAMETERS
          "No RAW file loaded"), s) := by
    simp [process_full_image, hl]
    rfl
  have hp := generate_preview_not_loaded env prim s params options hl
  refine ⟨by rw [hm]; rfl, by rw [hm]; rfl, ht, hp, hf, by rw [ht], by rw [hp], by rw [hf], rfl⟩

theorem not_loaded_is_invalid_parameters_witness :
    (extract_metadata Env.counting RawProcessor.fresh).code
        = ResultCode.ERROR_INVALID_PARAMETERS
      ∧ (generate_preview Env.counting Prim.passThrough RawProcessor.fresh {} {}).2.decode_calls
        = 0 := by
  have h := not_loaded_is_invalid_parameters Env.counting Prim.passThrough
    RawProcessor.fresh rfl 512 {} {}
  exact ⟨h.1, h.2.2.2.2.2.2.1⟩

/-- C7 (a failed load never leaves the session loaded).  For every session state and every
path: if `load_raw_file` returns an error, then afterwards `is_loaded()` is false, the current
path is empty and the cache is invalid; and `is_loaded()` is true after the call if and only
if it returned success. -/
theorem failed_load_not_loaded {L : Type} (env : Env L) (s : RawProcessor L) (path : String) :
    ((load_raw_file env s path).1.is_error = true →
        is_loaded (load_raw_file env s path).2 = false
          ∧ get_current_file_path (load_raw_file env s path).2 = ""
          ∧ (load_raw_file env s path).2.cache_valid_ = false)
      ∧ (is_loaded (load_raw_file env s path).2 = true
          ↔ (load_raw_file env s path).1.is_success = true) := by
  have h := load_raw_file_post env s path
  have hl : (load_raw_file env s path).2.is_loaded_
      = decide ((load_raw_file env s path).1.code = ResultCode.SUCCESS) := by rw [h]
  have hp : (load_raw_file env s path).2.current_file_path_
      = if (load_raw_file env s path).1.code = ResultCode.SUCCESS then path else "" := by
    rw [h]
  have hv : (load_raw_file env s path).2.cache_valid_ = false := by rw [h]
  refine ⟨?_, ?_⟩
  · intro he
    have hne : (load_raw_file env s path).1.code ≠ ResultCode.SUCCESS := by
      simpa [ProcessingResult.is_error] using he
    refine ⟨?_, ?_, hv⟩
    · simp [is_loaded, hl, hne]
    · simp [get_current_file_path, hp, hne]
  · simp [is_loaded, hl, ProcessingResult.is_success]

theorem failed_load_not_loaded_witness :
    is_loaded RawProcessor.rendered = true
      ∧ (load_raw_file Env.counting RawProcessor.rendered "").1.code
          = ResultCode.ERROR_FILE_NOT_FOUND
      ∧ is_loaded (load_raw_file Env.counting RawProcessor.rendered "").2 = false
      ∧ get_current_file_path (load_raw_file Env.counting RawProcessor.rendered "").2 = "" := by
  have h := (failed_load_not_loaded Env.counting RawProcessor.rendered "").1 (by rfl)
  exact ⟨by rw [rendered_eq]; rfl, by rfl, h.1, h.2.1⟩

/-- C8 (`clear` is idempotent).  For every session state `s`,
`clear (clear s) = clear s`; and after `clear` the session is not loaded, its path is empty
and its cache is invalid and empty. -/
theorem clear_idempotent {L : Type} (env : Env L) (s : RawProcessor L) :
    clear env (clear env s) = clear env s
      ∧ is_loaded (clear env s) = false
      ∧ get_current_file_path (clear env s) = ""
      ∧ (clear env s).cache_valid_ = false
      ∧ (clear env s).cached_image_.empty = true := by
  refine ⟨?_, ?_, ?_, ?_, ?_⟩
  · rw [clear_eq env (clear env s), clear_eq env s]
    simp [Mat.release]
  · rw [clear_eq]; rfl
  · rw [clear_eq]; rfl
  · rw [clear_eq]
  · rw [clear_eq]; exact release_empty _

/-- C9, the claim as stated fails.  On the empty session table, `generate-thumbnail`
for handle 1 hands back the image record `empty_data`, from which no status can be read, so
not `ERROR_INVALID_PARAMETERS`.  The same record comes back from `generate-preview` on a known
handle whose decode fails, where the session reports `ERROR_PROCESSING_FAILED`: the record does
not tell the two failures apart. -/
theorem image_operations_return_no_status :
    (raw_processor_generate_thumbnail Env.counting Prim.passThrough Bridge.initial 1 512).1
        = Except.ok empty_data
      ∧ (BoundaryReturn.image empty_data).status
          ≠ some ResultCode.ERROR_INVALID_PARAMETERS.toInt
      ∧ ((generate_preview Env.undecodable Prim.passThrough RawProcessor.loaded
            (convert_adjustment_params FFIAdjustmentParams.neutral)
            (convert_processing_options FFIProcessingOptions.plain)).1.map
              (fun r => r.code))
          = Except.ok ResultCode.ERROR_PROCESSING_FAILED
      ∧ (raw_processor_generate_preview Env.undecodable Prim.passThrough Bridge.single 1
            (some FFIAdjustmentParams.neutral) (some FFIProcessingOptions.plain)).1
          = Except.ok empty_data := by
  refine ⟨rfl, ?_, rfl, rfl⟩
  simp [BoundaryReturn.status]

/-- C9 (operations on an unknown handle), amended.  For every handle that is not in the
session table: load, extract-metadata, save and get-current-path return an `FFIResult` whose
code is `ERROR_INVALID_PARAMETERS` (-5); generate-thumbnail, generate-preview and
process-full-image return the image record `empty_data` (null data, zero width, height,
channels and length), which has no status code; and the table is left as it was. -/
theorem unknown_handle_is_rejected {L : Type} (env : Env L) (prim : Prim)
    (fixed : ℚ → Nat → String) (b : Bridge L) (handle : Int)
    (hn : b.g_processors handle = none)
    (file_path : Option String) (max_size : Nat)
    (params : Option FFIAdjustmentParams) (options : Option FFIProcessingOptions)
    (image_data : Option FFIImageData) (output_path format : Option String) (quality : Nat) :
    ((raw_processor_load_file env b handle file_path).1.code = -5
        ∧ (raw_processor_load_file env b handle file_path).2 = b)
      ∧ (raw_processor_extract_metadata env fixed b handle).code = -5
      ∧ (raw_processor_save_image prim b handle image_data output_path format quality).code = -5
      ∧ (raw_processor_get_current_file_path b handle).code = -5
      ∧ raw_processor_generate_thumbnail env prim b handle max_size
          = (Except.ok empty_data, b)
      ∧ raw_processor_generate_preview env prim b handle params options
          = (Except.ok empty_data, b)
      ∧ raw_processor_process_full_image env prim b handle params options
          = (Except.ok empty_data, b)
      ∧ empty_data = ⟨none, 0, 0, 0, 0⟩
      ∧ ResultCode.ERROR_INVALID_PARAMETERS.toInt = -5 := by
  refine ⟨⟨?_, ?_⟩, ?_, ?_, ?_, ?_, ?_, ?_, rfl, rfl⟩
  · simp [raw_processor_load_file, get_processor_from_handle, hn, ffi_text, ResultCode.toInt]
  · simp [raw_processor_load_file, get_processor_from_handle, hn]
  · simp [raw_processor_extract_metadata, get_processor_from_handle, hn, ffi_text,
      ResultCode.toInt]
  · simp [raw_processor_save_image, get_processor_from_handle, hn, ffi_text, ResultCode.toInt]
  · simp [raw_processor_get_current_file_path, get_processor_from_handle, hn, ffi_text,
      ResultCode.toInt]
  · simp [raw_processor_generate_thumbnail, get_processor_from_handle, hn]
    rfl
  · simp [raw_processor_generate_preview, get_processor_from_handle, hn]
    rfl
  · simp [raw_processor_process_full_image, get_processor_from_handle, hn]
    rfl

theorem unknown_handle_is_rejected_witness :
    (raw_processor_load_file Env.counting (raw_processor_destroy Bridge.single 1) 1
        (some "a.raw")).1.code = -5
      ∧ (raw_processor_get_current_file_path (raw_processor_destroy Bridge.single 1) 1).code
        = -5
      ∧ (raw_processor_generate_preview Env.counting Prim.passThrough
          (raw_processor_destroy Bridge.single 1) 1 (some FFIAdjustmentParams.neutral)
          (some FFIProcessingOptions.plain)).1 = Except.ok empty_data := by
  have h := unknown_handle_is_rejected Env.counting Prim.passThrough (fun _ _ => "0")
    (raw_processor_destroy Bridge.single 1) 1 (by rfl) (some "a.raw") 512
    (some FFIAdjustmentParams.neutral) (some FFIProcessingOptions.plain) none none none 95
  exact ⟨h.1.1, h.2.2.2.1, by rw [h.2.2.2.2.2.1]⟩

/-- C10 (`destroy` touches one entry only).  `raw_processor_destroy h` leaves no entry for
`h`, leaves the entry of every other handle and the handle generator as they were, and on a
handle that is not in the table it leaves the whole table unchanged. -/
theorem destroy_frame {L : Type} (b : Bridge L) (h : Int) :
    (raw_processor_destroy b h).g_processors h = none
      ∧ (∀ k : Int, k ≠ h →
          (raw_processor_destroy b h).g_processors k = b.g_processors k)
      ∧ (raw_processor_destroy b h).g_next_handle = b.g_next_handle
      ∧ (b.g_processors h = none → raw_processor_destroy b h = b) := by
  unfold raw_processor_destroy
  cases hb : b.g_processors h with
  | none =>
    refine ⟨hb, fun k _ => rfl, rfl, fun _ => rfl⟩
  | some p =>
    refine ⟨?_, ?_, rfl, ?_⟩
    · simp
    · intro k hk
      simp [hk]
    · intro hc
      cases hc

theorem destroy_frame_witness :
    (raw_processor_destroy Bridge.single 1).g_processors 1 = none
      ∧ ((raw_processor_destroy Bridge.single 2).g_processors 1).isSome = true
      ∧ (raw_processor_destroy Bridge.single 1).g_next_handle = 2
      ∧ raw_processor_destroy Bridge.initial 7 = Bridge.initial := by
  refine ⟨(destroy_frame Bridge.single 1).1, ?_, (destroy_frame Bridge.single 1).2.2.1,
    (destroy_frame Bridge.initial 7).2.2.2 rfl⟩
  rw [(destroy_frame Bridge.single 2).2.1 1 (by decide)]
  rfl

theorem handles_ok_step {L : Type} (env : Env L) (st : Bridge L × List Int) (op : BridgeOp)
    (h : handles_ok st) : handles_ok (BridgeOp.step env st op) := by
  obtain ⟨hk, hl, hp, hn⟩ := h
  cases op with
  | create =>
    refine ⟨?_, ?_, ?_, ?_⟩
    · intro k hs
      simp only [BridgeOp.step, raw_processor_create] at hs ⊢
      by_cases e : k = st.1.g_next_handle
      · subst e
        have : (1 : Int) ≤ st.1.g_next_handle := by rw [hn]; omega
        omega
      · rw [if_neg e] at hs
        have := hk k hs
        omega
    · intro h hm
      simp only [BridgeOp.step, raw_processor_create, List.mem_append, List.mem_singleton] at hm ⊢
      rcases hm with hm | rfl
      · have := hl h hm
        omega
      · have : (1 : Int) ≤ st.1.g_next_handle := by rw [hn]; omega
        omega
    · simp only [BridgeOp.step, raw_processor_create]
      rw [List.pairwise_append]
      refine ⟨hp, List.pairwise_singleton _ _, ?_⟩
      intro a ha b hb
      rw [List.mem_singleton] at hb
      subst hb
      exact (hl a ha).2
    · simp only [BridgeOp.step, raw_processor_create, List.length_append, List.length_singleton]
      rw [hn]
      push_cast
      ring
  | destroy handle =>
    have hnext : (BridgeOp.step env st (BridgeOp.destroy handle)).1.g_next_handle
        = st.1.g_next_handle := by
      simp only [BridgeOp.step, raw_processor_destroy]
      cases st.1.g_processors handle <;> rfl
    refine ⟨?_, ?_, hp, ?_⟩
    · intro k hs
      rw [hnext]
      simp only [BridgeOp.step, raw_processor_destroy] at hs
      cases hb : st.1.g_processors handle with
      | none =>
        rw [hb] at hs
        exact hk k hs
      | some p =>
        rw [hb] at hs
        simp only at hs
        by_cases e : k = handle
        · rw [if_pos e] at hs
          cases hs
        · rw [if_neg e] at hs
          exact hk k hs
    · intro h hm
      rw [hnext]
      exact hl h hm
    · rw [hnext]
      exact hn
  | finalize =>
    refine ⟨?_, hl, hp, hn⟩
    intro k hs
    simp [BridgeOp.step, raw_processor_finalize] at hs

theorem handles_ok_run {L : Type} (env : Env L) (ops : List BridgeOp) :
    handles_ok (run_ops env ops) := by
  unfold run_ops
  induction ops using List.reverseRecOn with
  | nil =>
    refine ⟨?_, ?_, List.Pairwise.nil, rfl⟩
    · intro k hs
      simp [Bridge.atStart] at hs
    · intro h hm
      simp at hm
  | append_singleton ops op ih =>
    rw [List.foldl_append]
    exact handles_ok_step env _ op ih

/-- C11 (handles are unique and increase).  In every state reached from program start by
any sequence of create, destroy and finalize: every key of the session table is strictly
below the next handle to be issued; the handles returned by create so far increase strictly in
the order of issue, so none is issued twice; the next create returns a handle above all of them
that is not a key of the table; and the counter equals one plus the number of handles issued,
so it stays within `int64_t` for fewer than `2 ^ 63 - 1` creates. -/
theorem handles_unique_increasing {L : Type} (env : Env L) (ops : List BridgeOp) :
    (∀ k : Int, ((run_ops env ops).1.g_processors k).isSome = true →
        k < (run_ops env ops).1.g_next_handle)
      ∧ (run_ops env ops).2.Pairwise (· < ·)
      ∧ (run_ops env ops).2.Nodup
      ∧ (∀ h ∈ (run_ops env ops).2,
          h < (raw_processor_create env (run_ops env ops).1).1)
      ∧ (run_ops env ops).1.g_processors (raw_processor_create env (run_ops env ops).1).1
          = none
      ∧ (run_ops env (ops ++ [BridgeOp.create])).2
          = (run_ops env ops).2 ++ [(raw_processor_create env (run_ops env ops).1).1]
      ∧ (run_ops env ops).1.g_next_handle = 1 + ((run_ops env ops).2.length : Int) := by
  obtain ⟨hk, hl, hp, hn⟩ := handles_ok_run env ops
  refine ⟨fun k hs => (hk k hs).2, hp, ?_, fun h hm => (hl h hm).2, ?_, ?_, hn⟩
  · exact hp.imp (fun h => ne_of_lt h)
  · cases hb : (run_ops env ops).1.g_processors (raw_processor_create env (run_ops env ops).1).1 with
    | none => rfl
    | some p =>
      have := (hk _ (by rw [hb]; rfl)).2
      simp [raw_processor_create] at this
  · simp [run_ops, List.foldl_append, BridgeOp.step]

theorem handles_unique_increasing_example :
    (run_ops Env.counting
        [BridgeOp.create, BridgeOp.create, BridgeOp.destroy 2, BridgeOp.create,
          BridgeOp.finalize, BridgeOp.create]).2 = [1, 2, 3, 4]
      ∧ (run_ops Env.counting
        [BridgeOp.create, BridgeOp.create, BridgeOp.destroy 2, BridgeOp.create,
          BridgeOp.finalize, BridgeOp.create]).2.Nodup := by
  exact ⟨by decide, (handles_unique_increasing Env.counting
    [BridgeOp.create, BridgeOp.create, BridgeOp.destroy 2, BridgeOp.create,
      BridgeOp.finalize, BridgeOp.create]).2.2.1⟩

theorem clamp_rect_valid (cols rows x0 y0 w0 h0 : Int) (hc : 1 ≤ cols) (hr : 1 ≤ rows) :
    0 ≤ max 0 (min x0 (cols - 1))
      ∧ 0 ≤ max 0 (min y0 (rows - 1))
      ∧ 1 ≤ max 1 (min w0 (cols - max 0 (min x0 (cols - 1))))
      ∧ 1 ≤ max 1 (min h0 (rows - max 0 (min y0 (rows - 1))))
      ∧ max 0 (min x0 (cols - 1)) + max 1 (min w0 (cols - max 0 (min x0 (cols - 1)))) ≤ cols
      ∧ max 0 (min y0 (rows - 1)) + max 1 (min h0 (rows - max 0 (min y0 (rows - 1)))) ≤ rows := by
  omega

theorem crop_rect_eq (cols rows : Nat) (params : AdjustmentParams) :
    crop_rect cols rows params
      = (max 0 (min (truncToInt (f32 (params.crop_left * f32 cols))) ((cols : Int) - 1)),
         max 0 (min (truncToInt (f32 (params.crop_top * f32 rows))) ((rows : Int) - 1)),
         max 1 (min (truncToInt (f32 (f32 (params.crop_right - params.crop_left) * f32 cols)))
           ((cols : Int)
             - max 0 (min (truncToInt (f32 (params.crop_left * f32 cols))) ((cols : Int) - 1)))),
         max 1 (min (truncToInt (f32 (f32 (params.crop_bottom - params.crop_top) * f32 rows)))
           ((rows : Int)
             - max 0 (min (truncToInt (f32 (params.crop_top * f32 rows)))
                 ((rows : Int) - 1))))) := by
  rfl

theorem crop_rect_bounds (cols rows : Nat) (hc : 1 ≤ cols) (hr : 1 ≤ rows)
    (params : AdjustmentParams) :
    0 ≤ (crop_rect cols rows params).1
      ∧ 0 ≤ (crop_rect cols rows params).2.1
      ∧ 1 ≤ (crop_rect cols rows params).2.2.1
      ∧ 1 ≤ (crop_rect cols rows params).2.2.2
      ∧ (crop_rect cols rows params).1 + (crop_rect cols rows params).2.2.1 ≤ cols
      ∧ (crop_rect cols rows params).2.1 + (crop_rect cols rows params).2.2.2 ≤ rows := by
  rw [crop_rect_eq]
  exact clamp_rect_valid cols rows _ _ _ _ (by exact_mod_cast hc) (by exact_mod_cast hr)

theorem roi_ok (m : Mat) (x y width height : Int)
    (h : 0 ≤ x ∧ 0 ≤ width ∧ x + width ≤ m.cols ∧ 0 ≤ y ∧ 0 ≤ height ∧ y + height ≤ m.rows) :
    m.roi x y width height
      = Except.ok { m with rows := height.toNat, cols := width.toNat,
                           data := roiData m x.toNat y.toNat width.toNat height.toNat } := by
  unfold Mat.roi
  rw [if_pos h]
  rfl

theorem nonempty_dims (m : Mat) (h : m.empty = false) : 1 ≤ m.rows ∧ 1 ≤ m.cols := by
  simp only [Mat.empty, Bool.or_eq_false_iff, decide_eq_false_iff_not] at h
  omega

/-- C13 (the crop rectangle is a valid sub-rectangle).  For every image size with
`cols ≥ 1` and `rows ≥ 1` and all crop values, the rectangle `(x, y, width, height)` that
`apply_transform` computes satisfies `0 ≤ x`, `0 ≤ y`, `width ≥ 1`, `height ≥ 1`,
`x + width ≤ cols` and `y + height ≤ rows`; the same holds for whatever integers the four
float-to-int conversions deliver; so slicing any matrix of that size succeeds, and
`apply_transform` without rotation never fails on a non-empty image. -/
theorem crop_rect_valid (cols rows : Nat) (hc : 1 ≤ cols) (hr : 1 ≤ rows)
    (params : AdjustmentParams) :
    (0 ≤ (crop_rect cols rows params).1
      ∧ 0 ≤ (crop_rect cols rows params).2.1
      ∧ 1 ≤ (crop_rect cols rows params).2.2.1
      ∧ 1 ≤ (crop_rect cols rows params).2.2.2
      ∧ (crop_rect cols rows params).1 + (crop_rect cols rows params).2.2.1 ≤ cols
      ∧ (crop_rect cols rows params).2.1 + (crop_rect cols rows params).2.2.2 ≤ rows)
    ∧ (∀ x0 y0 w0 h0 : Int,
        0 ≤ max 0 (min x0 ((cols : Int) - 1))
          ∧ 0 ≤ max 0 (min y0 ((rows : Int) - 1))
          ∧ 1 ≤ max 1 (min w0 ((cols : Int) - max 0 (min x0 ((cols : Int) - 1))))
          ∧ 1 ≤ max 1 (min h0 ((rows : Int) - max 0 (min y0 ((rows : Int) - 1))))
          ∧ max 0 (min x0 ((cols : Int) - 1))
              + max 1 (min w0 ((cols : Int) - max 0 (min x0 ((cols : Int) - 1)))) ≤ cols
          ∧ max 0 (min y0 ((rows : Int) - 1))
              + max 1 (min h0 ((rows : Int) - max 0 (min y0 ((rows : Int) - 1)))) ≤ rows)
    ∧ (∀ m : Mat, m.rows = rows → m.cols = cols →
        ∃ out : Mat,
          m.roi (crop_rect cols rows params).1 (crop_rect cols rows params).2.1
              (crop_rect cols rows params).2.2.1 (crop_rect cols rows params).2.2.2
            = Except.ok out
          ∧ 1 ≤ out.cols ∧ out.cols ≤ cols ∧ 1 ≤ out.rows ∧ out.rows ≤ rows)
    ∧ (∀ (prim : Prim) (image : Mat), image.rows = rows → image.cols = cols →
        image.data ≠ [] → params.rotation = 0 →
        ∃ out : Mat, apply_transform prim image params = Except.ok out) := by
  have hb := crop_rect_bounds cols rows hc hr params
  obtain ⟨h1, h2, h3, h4, h5, h6⟩ := hb
  have hroi : ∀ m : Mat, m.rows = rows → m.cols = cols →
      ∃ out : Mat,
        m.roi (crop_rect cols rows params).1 (crop_rect cols rows params).2.1
            (crop_rect cols rows params).2.2.1 (crop_rect cols rows params).2.2.2
          = Except.ok out
        ∧ 1 ≤ out.cols ∧ out.cols ≤ cols ∧ 1 ≤ out.rows ∧ out.rows ≤ rows := by
    intro m hmr hmc
    refine ⟨_, roi_ok m _ _ _ _ ⟨h1, by omega, by rw [hmc]; exact h5, h2, by omega,
      by rw [hmr]; exact h6⟩, ?_, ?_, ?_, ?_⟩ <;> simp only <;> omega
  refine ⟨⟨h1, h2, h3, h4, h5, h6⟩, ?_, hroi, ?_⟩
  · intro x0 y0 w0 h0
    exact clamp_rect_valid cols rows x0 y0 w0 h0 (by exact_mod_cast hc) (by exact_mod_cast hr)
  · intro prim image hir hic hd hrot
    have he : image.empty = false := by
      cases hdd : image.data with
      | nil => exact absurd hdd hd
      | cons a l =>
        simp only [Mat.empty, hdd, List.isEmpty_cons, Bool.or_false, Bool.or_eq_false_iff,
          decide_eq_false_iff_not]
        omega
    unfold apply_transform
    simp only [he, Bool.false_eq_true, if_false, hrot, ne_eq, not_true_eq_false, Mat.clone,
      pure_bind]
    split_ifs with hcrop
    · obtain ⟨out, ho, _⟩ := hroi image hir hic
      rw [hir, hic]
      exact ⟨out, ho⟩
    · exact ⟨image, rfl⟩

theorem crop_rect_valid_witness :
    0 ≤ (crop_rect 4 1 wildCrop).1
      ∧ 1 ≤ (crop_rect 4 1 wildCrop).2.2.2
      ∧ (crop_rect 4 1 wildCrop).1 + (crop_rect 4 1 wildCrop).2.2.1 ≤ 4 := by
  have h := (crop_rect_valid 4 1 (by decide) (by decide) wildCrop).1
  exact ⟨h.1, h.2.2.2.1, by exact_mod_cast h.2.2.2.2.1⟩

theorem truncToInt_nonneg_eq (x : ℚ) (h : 0 ≤ x) : truncToInt x = ⌊x⌋ := by
  simp [truncToInt, h]

theorem apply_transform_crop (prim : Prim) (image : Mat) (params : AdjustmentParams)
    (he : image.empty = false) (hrot : params.rotation = 0)
    (hcrop : params.crop_left ≠ 0 ∨ params.crop_top ≠ 0
      ∨ params.crop_right ≠ 1 ∨ params.crop_bottom ≠ 1) :
    apply_transform prim image params
      = image.roi (crop_rect image.cols image.rows params).1
          (crop_rect image.cols image.rows params).2.1
          (crop_rect image.cols image.rows params).2.2.1
          (crop_rect image.cols image.rows params).2.2.2 := by
  unfold apply_transform
  simp only [he, Bool.false_eq_true, if_false, hrot, ne_eq, not_true_eq_false, Mat.clone,
    pure_bind]
  rw [if_pos hcrop]

theorem apply_transform_full_frame (prim : Prim) (image : Mat) (params : AdjustmentParams)
    (hrot : params.rotation = 0)
    (hfull : ¬ (params.crop_left ≠ 0 ∨ params.crop_top ≠ 0
      ∨ params.crop_right ≠ 1 ∨ params.crop_bottom ≠ 1)) :
    apply_transform prim image params = Except.ok image := by
  simp only [not_or, ne_eq, not_not] at hfull
  exact transform_neutral prim image params hrot hfull.1 hfull.2.1 hfull.2.2.1 hfull.2.2.2

theorem cvRound_err (y : ℚ) : |((cvRound y : Int) : ℚ) - y| ≤ 1 / 2 := by
  have h1 := Int.floor_le y
  have h2 := Int.lt_floor_add_one y
  unfold cvRound
  simp only []
  rw [abs_le]
  split_ifs with a b c
  · constructor <;> linarith
  · push_cast
    constructor <;> linarith
  · constructor <;> linarith
  · push_cast
    have : y - ⌊y⌋ = 1 / 2 := le_antisymm (not_lt.mp b) (not_lt.mp a)
    constructor <;> linarith

theorem cvRound_nonneg (y : ℚ) (h : 0 ≤ y) : 0 ≤ cvRound y := by
  have h0 : (0 : Int) ≤ ⌊y⌋ := Int.floor_nonneg.mpr h
  unfold cvRound
  simp only []
  split_ifs <;> omega

theorem cvRound_eq_of (y : ℚ) (n : Int) (h1 : (n : ℚ) - 1 / 2 < y) (h2 : y < (n : ℚ) + 1 / 2) :
    cvRound y = n := by
  have e := cvRound_err y
  rw [abs_le] at e
  have a : ((cvRound y : Int) : ℚ) < (n : ℚ) + 1 := by linarith [e.2]
  have b : (n : ℚ) - 1 < ((cvRound y : Int) : ℚ) := by linarith [e.1]
  have a' : cvRound y < n + 1 := by exact_mod_cast a
  have b' : n - 1 < cvRound y := by exact_mod_cast b
  omega

theorem f32_ulp_pos (x : ℚ) : (0 : ℚ) < (2 : ℚ) ^ (max (Int.log 2 |x|) (-126) - 23) :=
  zpow_pos (by norm_num) _

theorem f32_zero : f32 0 = 0 := by
  simp [f32, cvRound]

theorem f32_nonneg (x : ℚ) (h : 0 ≤ x) : 0 ≤ f32 x := by
  unfold f32
  simp only []
  apply mul_nonneg _ (f32_ulp_pos x).le
  have : (0 : Int) ≤ cvRound (x / (2 : ℚ) ^ (max (Int.log 2 |x|) (-126) - 23)) :=
    cvRound_nonneg _ (div_nonneg h (f32_ulp_pos x).le)
  exact_mod_cast this

theorem f32_err_ulp (x : ℚ) :
    |f32 x - x| ≤ (2 : ℚ) ^ (max (Int.log 2 |x|) (-126) - 23) / 2 := by
  have hp := f32_ulp_pos x
  have e := cvRound_err (x / (2 : ℚ) ^ (max (Int.log 2 |x|) (-126) - 23))
  have hx : f32 x - x
      = (((cvRound (x / (2 : ℚ) ^ (max (Int.log 2 |x|) (-126) - 23)) : Int) : ℚ)
          - x / (2 : ℚ) ^ (max (Int.log 2 |x|) (-126) - 23))
        * (2 : ℚ) ^ (max (Int.log 2 |x|) (-126) - 23) := by
    unfold f32
    simp only []
    field_simp
  rw [hx, abs_mul, abs_of_pos hp]
  have := mul_le_mul_of_nonneg_right e hp.le
  linarith

theorem f32_err (x : ℚ) : |f32 x - x| ≤ |x| / 2 ^ 24 + 1 / 2 ^ 150 := by
  by_cases h0 : x = 0
  · subst h0
    rw [f32_zero]
    norm_num
  · have hpos : 0 < |x| := abs_pos.mpr h0
    have hu := f32_err_ulp x
    have hle : (2 : ℚ) ^ (Int.log 2 |x|) ≤ |x| := Int.zpow_log_le_self (by norm_num) hpos
    rcases le_total (Int.log 2 |x|) (-126) with hc | hc
    · rw [max_eq_right hc] at hu
      have e : (2 : ℚ) ^ ((-126 : Int) - 23) / 2 = 1 / 2 ^ 150 := by
        norm_num [zpow_neg]
      rw [e] at hu
      have : 0 ≤ |x| / 2 ^ 24 := by positivity
      linarith
    · rw [max_eq_left hc] at hu
      have e : (2 : ℚ) ^ (Int.log 2 |x| - 23) / 2 = (2 : ℚ) ^ (Int.log 2 |x|) / 2 ^ 24 := by
        rw [zpow_sub₀ (by norm_num : (2 : ℚ) ≠ 0)]
        norm_num
        ring
      rw [e] at hu
      have h2 : (2 : ℚ) ^ (Int.log 2 |x|) / 2 ^ 24 ≤ |x| / 2 ^ 24 := by
        apply div_le_div_of_nonneg_right hle (by positivity)
      have : (0 : ℚ) ≤ 1 / 2 ^ 150 := by positivity
      linarith

theorem f32_le (x : ℚ) (h : 0 ≤ x) : f32 x ≤ x * (1 + 1 / 2 ^ 24) + 1 / 2 ^ 150 := by
  have e := f32_err x
  rw [abs_of_nonneg h, abs_le] at e
  linarith [e.2]

theorem f32_eval (x : ℚ) (e n : Int) (he : -126 ≤ e) (hlo : (2 : ℚ) ^ e ≤ |x|)
    (hhi : |x| < (2 : ℚ) ^ (e + 1))
    (h1 : (n : ℚ) - 1 / 2 < x / (2 : ℚ) ^ (e - 23))
    (h2 : x / (2 : ℚ) ^ (e - 23) < (n : ℚ) + 1 / 2) :
    f32 x = (n : ℚ) * (2 : ℚ) ^ (e - 23) := by
  have hpos : 0 < |x| := lt_of_lt_of_le (zpow_pos (by norm_num) e) hlo
  have hlog : Int.log 2 |x| = e := by
    have a : e ≤ Int.log 2 |x| := (Int.zpow_le_iff_le_log (by norm_num) hpos).mp (by exact_mod_cast hlo)
    have b : Int.log 2 |x| < e + 1 :=
      (Int.lt_zpow_iff_log_lt (by norm_num) hpos).mp (by exact_mod_cast hhi)
    omega
  unfold f32
  simp only []
  rw [hlog, max_eq_left he, cvRound_eq_of _ n h1 h2]

theorem f32_natCast (n : Nat) (h : n < 2 ^ 24) : f32 (n : ℚ) = (n : ℚ) := by
  rcases Nat.eq_zero_or_pos n with h0 | h0
  · subst h0
    simpa using f32_zero
  · have hk : Nat.log 2 n < 24 := Nat.log_lt_of_lt_pow h0.ne.symm h
    obtain ⟨k, hk'⟩ : ∃ k : Nat, Nat.log 2 n + k = 23 := ⟨23 - Nat.log 2 n, by omega⟩
    have hq : (0 : ℚ) < (n : ℚ) := by exact_mod_cast h0
    have habs : |(n : ℚ)| = (n : ℚ) := abs_of_pos hq
    have hu : (2 : ℚ) ^ (((Nat.log 2 n : Nat) : Int) - 23) = ((2 : ℚ) ^ k)⁻¹ := by
      have : ((Nat.log 2 n : Nat) : Int) - 23 = -(k : Int) := by omega
      rw [this, zpow_neg, zpow_natCast]
    have hlo : (2 : ℚ) ^ ((Nat.log 2 n : Nat) : Int) ≤ |(n : ℚ)| := by
      rw [habs, zpow_natCast]
      exact_mod_cast Nat.pow_log_le_self 2 h0.ne.symm
    have hhi : |(n : ℚ)| < (2 : ℚ) ^ (((Nat.log 2 n : Nat) : Int) + 1) := by
      rw [habs]
      have : ((Nat.log 2 n : Nat) : Int) + 1 = ((Nat.log 2 n + 1 : Nat) : Int) := by push_cast; ring
      rw [this, zpow_natCast]
      exact_mod_cast Nat.lt_pow_succ_log_self (by norm_num) n
    have hy : (n : ℚ) / (2 : ℚ) ^ (((Nat.log 2 n : Nat) : Int) - 23)
        = (((n * 2 ^ k : Nat) : Int) : ℚ) := by
      rw [hu]
      push_cast
      field_simp
    rw [f32_eval (n : ℚ) (Nat.log 2 n) ((n * 2 ^ k : Nat) : Int) (by omega) hlo hhi
      (by rw [hy]; linarith) (by rw [hy]; linarith), hu]
    push_cast
    field_simp

/-- C12, the claim as stated fails.  A 4×1 image cropped with `crop_right = 0.7` (the
other three at their defaults, rotation 0) comes back 2 columns wide: the code truncates
the product `0.7 * 4` (2.8, up to its rounding to `float`), where the claim's rounding
gives 3. -/
theorem crop_width_is_truncated :
    (apply_transform Prim.passThrough fourColumns cropRight70).map (fun m => m.cols)
        = Except.ok 2
      ∧ max 1 (round ((7 / 10 - 0 : ℚ) * 4)) = 3 := by
  have f4 : f32 ((4 : ℕ) : ℚ) = ((4 : ℕ) : ℚ) := f32_natCast 4 (by norm_num)
  have f1 : f32 ((1 : ℕ) : ℚ) = ((1 : ℕ) : ℚ) := f32_natCast 1 (by norm_num)
  have f1' : f32 (1 : ℚ) = 1 := by simpa using f1
  have fa : f32 (7 / 10 : ℚ) = 11744051 / 16777216 := by
    rw [f32_eval (7 / 10) (-1) 11744051 (by norm_num)
      (by norm_num [zpow_neg, abs_of_pos]) (by norm_num [abs_of_pos])
      (by norm_num [zpow_neg]) (by norm_num [zpow_neg])]
    norm_num [zpow_neg]
  have fb : f32 (11744051 / 16777216 * ((4 : ℕ) : ℚ)) = 11744051 / 4194304 := by
    rw [f32_eval _ 1 11744051 (by norm_num)
      (by norm_num [abs_of_pos]) (by norm_num [abs_of_pos])
      (by norm_num [zpow_neg]) (by norm_num [zpow_neg])]
    norm_num [zpow_neg]
  have hr : crop_rect 4 1 cropRight70 = (0, 0, 2, 1) := by
    rw [crop_rect_eq]
    have e1 : truncToInt (f32 (f32 (cropRight70.crop_right - cropRight70.crop_left)
        * f32 ((4 : ℕ) : ℚ))) = 2 := by
      have : cropRight70.crop_right - cropRight70.crop_left = 7 / 10 := by
        norm_num [cropRight70]
      rw [this, f4, fa, fb, truncToInt_nonneg_eq _ (by norm_num), Int.floor_eq_iff]
      norm_num
    have e2 : truncToInt (f32 (cropRight70.crop_left * f32 ((4 : ℕ) : ℚ))) = 0 := by
      have : cropRight70.crop_left * f32 ((4 : ℕ) : ℚ) = 0 := by simp [cropRight70]
      rw [this, f32_zero]
      simp [truncToInt]
    have e3 : truncToInt (f32 (cropRight70.crop_top * f32 ((1 : ℕ) : ℚ))) = 0 := by
      have : cropRight70.crop_top * f32 ((1 : ℕ) : ℚ) = 0 := by simp [cropRight70]
      rw [this, f32_zero]
      simp [truncToInt]
    have e4 : truncToInt (f32 (f32 (cropRight70.crop_bottom - cropRight70.crop_top)
        * f32 ((1 : ℕ) : ℚ))) = 1 := by
      have : cropRight70.crop_bottom - cropRight70.crop_top = 1 := by
        norm_num [cropRight70]
      rw [this, f1, f1']
      have : (1 : ℚ) * ((1 : ℕ) : ℚ) = 1 := by norm_num
      rw [this, f1']
      simp [truncToInt]
    rw [e1, e2, e3, e4]
    rfl
  refine ⟨?_, ?_⟩
  · rw [apply_transform_crop Prim.passThrough fourColumns cropRight70 (by decide) rfl
      (by right; right; left; norm_num [cropRight70])]
    have h4 : fourColumns.cols = 4 := rfl
    have h1 : fourColumns.rows = 1 := rfl
    rw [h4, h1, hr]
    rfl
  · rw [round_eq, Int.floor_eq_iff.mpr (by norm_num : ((3 : ℤ) : ℚ) ≤ (7 / 10 - 0 : ℚ) * 4 + 1 / 2
      ∧ (7 / 10 - 0 : ℚ) * 4 + 1 / 2 < ((3 : ℤ) : ℚ) + 1)]
    rfl

theorem crop_axis (W : Nat) (hW : 1 ≤ W) (hW' : W < 2 ^ 23) (l r : ℚ) (hl : 0 ≤ l)
    (hr : r ≤ 1) (hlr : l < r) :
    max 1 (min (truncToInt (f32 (f32 (r - l) * f32 W)))
        ((W : Int) - max 0 (min (truncToInt (f32 (l * f32 W))) ((W : Int) - 1))))
      = max 1 (truncToInt (f32 (f32 (r - l) * W))) := by
  have hWf : f32 (W : ℚ) = (W : ℚ) := f32_natCast W (by omega)
  rw [hWf]
  have hWq : (0 : ℚ) < (W : ℚ) := by exact_mod_cast hW
  have hWle : (W : ℚ) ≤ 2 ^ 23 - 1 := by
    have : W + 1 ≤ 2 ^ 23 := hW'
    have : ((W + 1 : Nat) : ℚ) ≤ ((2 ^ 23 : Nat) : ℚ) := by exact_mod_cast this
    push_cast at this
    linarith
  have hA : (0 : ℚ) ≤ l * W := mul_nonneg hl hWq.le
  have hd0 : (0 : ℚ) ≤ f32 (r - l) := f32_nonneg _ (by linarith)
  have hB : (0 : ℚ) ≤ f32 (r - l) * W := mul_nonneg hd0 hWq.le
  have hC : (0 : ℚ) ≤ (r - l) * W := mul_nonneg (by linarith) hWq.le
  have hAC : l * W + (r - l) * W ≤ W := by
    have : r * (W : ℚ) ≤ 1 * W := mul_le_mul_of_nonneg_right hr hWq.le
    linarith
  have hfA := f32_le _ hA
  have hd := f32_le (r - l) (by linarith)
  have hfB := f32_le _ hB
  have hBC : f32 (r - l) * W ≤ ((r - l) * (1 + 1 / 2 ^ 24) + 1 / 2 ^ 150) * W :=
    mul_le_mul_of_nonneg_right hd hWq.le
  have hfA0 := f32_nonneg _ hA
  have hfB0 := f32_nonneg _ hB
  rw [truncToInt_nonneg_eq _ hfA0, truncToInt_nonneg_eq _ hfB0]
  have hx0 : (0 : Int) ≤ ⌊f32 (l * (W : ℚ))⌋ := Int.floor_nonneg.mpr hfA0
  have hw0 : (0 : Int) ≤ ⌊f32 (f32 (r - l) * (W : ℚ))⌋ := Int.floor_nonneg.mpr hfB0
  have hsum : ⌊f32 (f32 (r - l) * (W : ℚ))⌋ + ⌊f32 (l * (W : ℚ))⌋ ≤ (W : Int) := by
    have a := Int.floor_le (f32 (f32 (r - l) * (W : ℚ)))
    have b := Int.floor_le (f32 (l * (W : ℚ)))
    have d : ((⌊f32 (f32 (r - l) * (W : ℚ))⌋ + ⌊f32 (l * (W : ℚ))⌋ : Int) : ℚ)
        < ((W : Int) : ℚ) + 1 := by
      push_cast
      have e1 : ((r - l) * (1 + 1 / 2 ^ 24) + 1 / 2 ^ 150) * (W : ℚ)
          = (r - l) * W * (1 + 1 / 2 ^ 24) + 1 / 2 ^ 150 * W := by ring
      rw [e1] at hBC
      linarith
    have d' : ⌊f32 (f32 (r - l) * (W : ℚ))⌋ + ⌊f32 (l * (W : ℚ))⌋ < (W : Int) + 1 := by
      exact_mod_cast d
    omega
  omega

/-- C12 (crop bounds), amended.  For every non-empty W×H image with `W, H < 2 ^ 23` and
every `crop_left`, `crop_top`, `crop_right`, `crop_bottom` in `[0, 1]` with
`crop_right > crop_left` and `crop_bottom > crop_top`, `apply_transform` with rotation 0
returns an image of width `max(1, trunc(fl(fl(crop_right - crop_left) * W)))` and height
`max(1, trunc(fl(fl(crop_bottom - crop_top) * H)))`, where `fl` is the rounding to `float`
of each operation and `trunc` drops the fraction: the product is truncated where the claim
rounds it; the output never exceeds the source. -/
theorem crop_dimensions (prim : Prim) (image : Mat) (params : AdjustmentParams)
    (he : image.empty = false) (hrot : params.rotation = 0)
    (hW : image.cols < 2 ^ 23) (hH : image.rows < 2 ^ 23)
    (hl : 0 ≤ params.crop_left) (hr : params.crop_right ≤ 1)
    (ht : 0 ≤ params.crop_top) (hb : params.crop_bottom ≤ 1)
    (hlr : params.crop_left < params.crop_right)
    (htb : params.crop_top < params.crop_bottom) :
    ∃ out : Mat, apply_transform prim image params = Except.ok out
      ∧ (out.cols : Int)
          = max 1 (truncToInt (f32 (f32 (params.crop_right - params.crop_left) * image.cols)))
      ∧ (out.rows : Int)
          = max 1 (truncToInt (f32 (f32 (params.crop_bottom - params.crop_top) * image.rows)))
      ∧ out.cols ≤ image.cols ∧ out.rows ≤ image.rows := by
  obtain ⟨hrows, hcols⟩ := nonempty_dims image he
  by_cases hcrop : params.crop_left ≠ 0 ∨ params.crop_top ≠ 0
      ∨ params.crop_right ≠ 1 ∨ params.crop_bottom ≠ 1
  · obtain ⟨b1, b2, b3, b4, b5, b6⟩ := crop_rect_bounds image.cols image.rows hcols hrows params
    have hx := crop_axis image.cols hcols hW params.crop_left params.crop_right hl hr hlr
    have hy := crop_axis image.rows hrows hH params.crop_top params.crop_bottom ht hb htb
    rw [apply_transform_crop prim image params he hrot hcrop]
    rw [roi_ok image _ _ _ _ ⟨b1, by omega, b5, b2, by omega, b6⟩]
    have ew : (crop_rect image.cols image.rows params).2.2.1
        = max 1 (truncToInt
            (f32 (f32 (params.crop_right - params.crop_left) * image.cols))) := by
      rw [crop_rect_eq]
      exact hx
    have eh : (crop_rect image.cols image.rows params).2.2.2
        = max 1 (truncToInt
            (f32 (f32 (params.crop_bottom - params.crop_top) * image.rows))) := by
      rw [crop_rect_eq]
      exact hy
    refine ⟨_, rfl, ?_, ?_, ?_, ?_⟩
    · simp only
      rw [← ew]
      omega
    · simp only
      rw [← eh]
      omega
    · simp only
      omega
    · simp only
      omega
  · rw [apply_transform_full_frame prim image params hrot hcrop]
    simp only [not_or, ne_eq, not_not] at hcrop
    obtain ⟨e1, e2, e3, e4⟩ := hcrop
    have f1 : f32 (1 : ℚ) = 1 := by simpa using f32_natCast 1 (by norm_num)
    refine ⟨image, rfl, ?_, ?_, le_refl _, le_refl _⟩
    · rw [e1, e3, sub_zero, f1, one_mul, f32_natCast _ (by omega),
        truncToInt_nonneg_eq _ (by positivity)]
      simp only [Int.floor_natCast]
      omega
    · rw [e2, e4, sub_zero, f1, one_mul, f32_natCast _ (by omega),
        truncToInt_nonneg_eq _ (by positivity)]
      simp only [Int.floor_natCast]
      omega

theorem crop_dimensions_witness :
    ∃ out : Mat, apply_transform Prim.passThrough wideRow cropRight35 = Except.ok out
      ∧ (out.cols : Int) = 672
      ∧ truncToInt ((cropRight35.crop_right - cropRight35.crop_left) * 1920) = 671 := by
  obtain ⟨out, h1, h2, _, _, _⟩ := crop_dimensions Prim.passThrough wideRow cropRight35
    (by decide) rfl (by decide) (by decide) (by norm_num [cropRight35])
    (by norm_num [cropRight35]) (by norm_num [cropRight35]) (by norm_num [cropRight35])
    (by norm_num [cropRight35]) (by norm_num [cropRight35])
  have hd : cropRight35.crop_right - cropRight35.crop_left = 11744051 / 33554432 := by
    norm_num [cropRight35]
  have fa : f32 (11744051 / 33554432 : ℚ) = 11744051 / 33554432 := by
    rw [f32_eval (11744051 / 33554432) (-2) 11744051 (by norm_num)
      (by norm_num [zpow_neg, abs_of_pos]) (by norm_num [zpow_neg, abs_of_pos])
      (by norm_num [zpow_neg]) (by norm_num [zpow_neg])]
    norm_num [zpow_neg]
  have fb : f32 (11744051 / 33554432 * ((1920 : ℕ) : ℚ)) = 672 := by
    rw [f32_eval _ 9 11010048 (by norm_num)
      (by norm_num [abs_of_pos]) (by norm_num [abs_of_pos])
      (by norm_num [zpow_neg]) (by norm_num [zpow_neg])]
    norm_num [zpow_neg]
  have hc : wideRow.cols = 1920 := rfl
  rw [hc, hd, fa, fb] at h2
  refine ⟨out, h1, ?_, ?_⟩
  · rw [h2, truncToInt_nonneg_eq _ (by norm_num)]
    norm_num
  · rw [hd, truncToInt_nonneg_eq _ (by norm_num), Int.floor_eq_iff]
    norm_num

theorem resize_if_needed_eq (prim : Prim) (image : Mat) (max_width max_height : Nat) :
    resize_if_needed prim image max_width max_height
      = if image.empty ∨ (max_width = 0 ∧ max_height = 0) then Except.ok image
        else if fit_scale image max_width max_height ≥ 1 then Except.ok image
        else resize prim image (fit_scale image max_width max_height)
          (fit_scale image max_width max_height) := by
  rfl

/-- C14, the code at the failing input.  A non-empty image of 1 column and 4 rows is
to fit within 1×1: the single scale is `min(1/1, 1/4) = 1/4 < 1`, so `cv::resize` is called
with `fx = fy = 1/4`; the destination width `cvRound(1 * 1/4) = 0` is empty and the call
raises.  There is no result that fits the bounds. -/
theorem resize_if_needed_raises_on_thin_image :
    fourRows.empty = false
      ∧ fit_scale fourRows 1 1 = 1 / 4
      ∧ cvRound ((fourRows.cols : ℚ) * fit_scale fourRows 1 1) = 0
      ∧ resize_if_needed Prim.passThrough fourRows 1 1
          = Except.error (Exn.cv "resize: assertion failed") := by
  have hscale : fit_scale fourRows 1 1 = 1 / 4 := by
    norm_num [fit_scale, fourRows]
  have hw : cvRound ((fourRows.cols : ℚ) * fit_scale fourRows 1 1) = 0 := by
    rw [hscale]
    have hf : ⌊((fourRows.cols : ℚ) * (1 / 4))⌋ = 0 := by
      rw [Int.floor_eq_iff]; norm_num [fourRows]
    simp only [cvRound, hf]
    norm_num [fourRows]
  refine ⟨by decide, hscale, hw, ?_⟩
  rw [resize_if_needed_eq]
  have he : fourRows.empty = false := by decide
  simp only [he, Bool.false_eq_true, false_or]
  rw [if_neg (by decide), if_neg (by rw [hscale]; norm_num)]
  unfold resize
  simp only [hw]
  rw [if_pos (by right; right; left; exact le_refl _)]
  rfl

theorem basic_exposure_only (prim : Prim) (image : Mat) (params : AdjustmentParams)
    (he : image.empty = false)
    (h1 : params.exposure ≠ 0) (h2 : params.highlights = 0) (h3 : params.shadows = 0)
    (h4 : params.whites = 0) (h5 : params.blacks = 0) (h6 : params.contrast = 0)
    (h7 : params.brightness = 0) (h8 : params.saturation = 0) (h9 : params.vibrance = 0)
    (h10 : params.clarity = 0) :
    apply_basic_adjustments prim image params
      = Except.ok ((clamp01 ((image.convertTo (some Depth.CV_32F) (1 / 255)).scale
          (prim.pow 2 params.exposure))).convertTo (some Depth.CV_8U) 255) := by
  unfold apply_basic_adjustments
  simp [he, h1, h2, h3, h4, h5, h6, h7, h8, h9, h10, Mat.clone]
  rfl

theorem byte_doubled (n : ℕ) (h : n ≤ 255) :
    storeAs Depth.CV_8U
      (threshold1 1 1 ThreshType.THRESH_TRUNC
        (threshold1 0 0 ThreshType.THRESH_TOZERO
          (storeAs Depth.CV_32F (storeAs Depth.CV_32F ((n : ℚ) * (1 / 255)) * 2))) * 255)
      = min (2 * (n : ℚ)) 255 := by
  have h0 : (0 : ℚ) ≤ (n : ℚ) := Nat.cast_nonneg n
  have e1 : (if (n : ℚ) * (1 / 255) * 2 > 0 then (n : ℚ) * (1 / 255) * 2 else 0)
      = (n : ℚ) * (1 / 255) * 2 := by
    split_ifs with hp
    · rfl
    · have : (n : ℚ) * (1 / 255) * 2 = 0 := le_antisymm (not_lt.mp hp) (by positivity)
      exact this.symm
  simp only [storeAs, threshold1, e1]
  by_cases hc : (n : ℚ) * (1 / 255) * 2 > 1
  · rw [if_pos hc]
    have e : (1 : ℚ) * 255 = ((255 : Int) : ℚ) := by norm_num
    rw [e, cvRound_intCast]
    have hm : min (2 * (n : ℚ)) 255 = 255 := by
      apply min_eq_right
      linarith
    rw [hm]
    simp [saturate_u8]
  · rw [if_neg hc]
    have hle : 2 * (n : ℚ) ≤ 255 := by
      have := not_lt.mp hc
      linarith
    have e : (n : ℚ) * (1 / 255) * 2 * 255 = ((2 * n : ℕ) : Int) := by
      push_cast; ring
    rw [e, cvRound_intCast]
    have hm : min (2 * (n : ℚ)) 255 = 2 * n := min_eq_left hle
    rw [hm]
    have hn : 2 * n ≤ 255 := by
      have : ((2 * n : ℕ) : ℚ) ≤ ((255 : ℕ) : ℚ) := by push_cast; linarith
      exact_mod_cast this
    have a1 : ¬ (((2 * n : ℕ) : Int) < 0) := by omega
    have a2 : ¬ ((255 : Int) < ((2 * n : ℕ) : Int)) := by omega
    simp only [saturate_u8, a1, a2, if_false]
    push_cast
    ring

/-- C17 (exposure law).  With `exposure = +1` and every other parameter at its default,
for a `std::pow` with `pow(2, 1) = 2`, the basic tonal stage maps every sample `v` of a
non-empty 8-bit image to `min(2·v, 255)` and keeps the shape; with `exposure = 0` it returns
the image itself.  So where no sample is capped (`2·v ≤ 255`), every sample, the sum of the
samples and with it the mean are doubled. -/
theorem exposure_doubles (prim : Prim) (image : Mat)
    (hpow : prim.pow 2 1 = 2) (he : image.empty = false) (h8 : image.is8Bit) :
    apply_basic_adjustments prim image exposurePlusOne
        = Except.ok { image with data := image.data.map (fun v => min (2 * v) 255) }
      ∧ apply_basic_adjustments prim image {} = Except.ok image
      ∧ ((∀ v ∈ image.data, 2 * v ≤ 255) →
          image.data.map (fun v => min (2 * v) 255) = image.data.map (fun v => 2 * v)
            ∧ (image.data.map (fun v => min (2 * v) 255)).sum = 2 * image.data.sum
            ∧ (image.data.map (fun v => min (2 * v) 255)).length = image.data.length) := by
  refine ⟨?_, ?_, ?_⟩
  · rw [basic_exposure_only prim image exposurePlusOne he (by norm_num [exposurePlusOne])
      rfl rfl rfl rfl rfl rfl rfl rfl rfl]
    have hx : prim.pow 2 exposurePlusOne.exposure = 2 := hpow
    rw [hx]
    obtain ⟨hd, hb⟩ := h8
    cases image with
    | mk rows cols channels depth data =>
      simp only [Mat.scale, Mat.convertTo, clamp01, threshold, rtypeDepth, List.map_map] at hd hb ⊢
      subst hd
      congr 2
      apply List.map_congr_left
      intro x hx
      obtain ⟨n, hn, rfl⟩ := hb x hx
      simpa [Function.comp] using byte_doubled n hn
  · rw [basic_neutral prim image {} he rfl rfl rfl rfl rfl rfl rfl rfl rfl rfl,
      basic_roundtrip_8bit image h8]
  · intro hcap
    have e : image.data.map (fun v => min (2 * v) 255) = image.data.map (fun v => 2 * v) := by
      apply List.map_congr_left
      intro v hv
      exact min_eq_left (hcap v hv)
    refine ⟨e, ?_, by simp⟩
    rw [e, List.sum_map_mul_left]
    simp

theorem exposure_doubles_witness :
    apply_basic_adjustments Prim.pointwise grayPixelMat
        exposurePlusOne
      = Except.ok ⟨1, 1, 3, Depth.CV_8U, [200, 200, 200]⟩ := by
  have h8 : grayPixelMat.is8Bit := by
    refine ⟨rfl, ?_⟩
    intro x hx
    simp only [grayPixelMat, List.mem_cons, List.mem_singleton, List.not_mem_nil, or_false] at hx
    rcases hx with rfl | rfl | rfl <;> exact ⟨100, by norm_num, by norm_num⟩
  rw [(exposure_doubles Prim.pointwise grayPixelMat (by simp [Prim.pointwise])
    (by decide) h8).1]
  norm_num [grayPixelMat]

theorem hsl_fields_zero_flag (params : AdjustmentParams) (h : hsl_fields_zero params) :
    has_hsl_adjustments params = false := by
  obtain ⟨h1, h2, h3, h4, h5, h6, h7, h8, h9, h10, h11, h12, h13, h14, h15, h16, h17, h18,
    h19, h20, h21, h22, h23, h24⟩ := h
  simp [has_hsl_adjustments, h1, h2, h3, h4, h5, h6, h7, h8, h9, h10, h11, h12, h13, h14,
    h15, h16, h17, h18, h19, h20, h21, h22, h23, h24]

/-- C20 (stage-local no-ops).  For every primitives library, every image and every value
of all other parameters: `apply_white_balance` returns its input when `temperature = 0` and
`tint = 0`; `apply_hsl_adjustments` returns its input when all 24 HSL fields are 0;
`apply_tone_curve` returns its input when all 4 curve fields are 0. -/
theorem stage_local_noops (prim : Prim) (image : Mat) (params : AdjustmentParams) :
    (params.temperature = 0 → params.tint = 0 →
        apply_white_balance prim image params = Except.ok image)
      ∧ (hsl_fields_zero params → apply_hsl_adjustments prim image params = Except.ok image)
      ∧ (params.curve_highlights = 0 → params.curve_lights = 0 → params.curve_darks = 0 →
          params.curve_shadows = 0 → apply_tone_curve image params = Except.ok image) :=
  ⟨fun h1 h2 => white_balance_neutral prim image params h1 h2,
   fun h => hsl_neutral prim image params (hsl_fields_zero_flag params h),
   fun h1 h2 h3 h4 => tone_curve_neutral image params h1 h2 h3 h4⟩

theorem stage_local_noops_witness :
    apply_white_balance Prim.pointwise grayPixelMat busyElsewhere = Except.ok grayPixelMat
      ∧ apply_hsl_adjustments Prim.pointwise grayPixelMat busyElsewhere
          = Except.ok grayPixelMat
      ∧ apply_tone_curve grayPixelMat busyElsewhere = Except.ok grayPixelMat :=
  ⟨(stage_local_noops Prim.pointwise grayPixelMat busyElsewhere).1 rfl rfl,
   (stage_local_noops Prim.pointwise grayPixelMat busyElsewhere).2.1
     ⟨rfl, rfl, rfl, rfl, rfl, rfl, rfl, rfl, rfl, rfl, rfl, rfl, rfl, rfl, rfl, rfl, rfl,
      rfl, rfl, rfl, rfl, rfl, rfl, rfl⟩,
   (stage_local_noops Prim.pointwise grayPixelMat busyElsewhere).2.2 rfl rfl rfl rfl⟩

theorem wb_matrix_warm (t : ℚ) (ht : 0 < t) :
    (calculate_white_balance_matrix t 0).at 0 0 = 1 - t / 1000 * (2 / 10)
      ∧ (calculate_white_balance_matrix t 0).at 1 1 = 1
      ∧ (calculate_white_balance_matrix t 0).at 2 2 = 1 + t / 1000 * (3 / 10) := by
  have h : t / 1000 > 0 := by positivity
  simp [calculate_white_balance_matrix, Mat.at, h]

theorem wb_matrix_cool (t : ℚ) (ht : t < 0) :
    (calculate_white_balance_matrix t 0).at 0 0 = 1 - t / 1000 * (3 / 10)
      ∧ (calculate_white_balance_matrix t 0).at 1 1 = 1
      ∧ (calculate_white_balance_matrix t 0).at 2 2 = 1 + t / 1000 * (2 / 10) := by
  have h : ¬ (t / 1000 > 0) := by
    have : t / 1000 < 0 := by linarith
    linarith
  simp [calculate_white_balance_matrix, Mat.at, h]

theorem white_balance_planes (prim : Prim) (image : Mat) (params : AdjustmentParams)
    (b g r : Mat) (he : image.empty = false)
    (hp : ¬ (params.temperature = 0 ∧ params.tint = 0))
    (hs : prim.split (image.convertTo (some Depth.CV_32F) (1 / 255)) = Except.ok [b, g, r]) :
    apply_white_balance prim image params
      = (prim.merge
          [b.scale ((calculate_white_balance_matrix params.temperature params.tint).at 2 2),
           g.scale ((calculate_white_balance_matrix params.temperature params.tint).at 1 1),
           r.scale ((calculate_white_balance_matrix params.temperature params.tint).at 0 0)]
          >>= fun m => pure ((clamp01 m).convertTo (some Depth.CV_8U) 255)) := by
  unfold apply_white_balance
  have hc : ¬ (image.empty = true ∨ (params.temperature = 0 ∧ params.tint = 0)) := by
    simp [he, hp]
  rw [if_neg hc]
  simp only [Mat.clone, hs]
  rfl

/-- C19 (white-balance direction): the gains are applied to the wrong planes.  Let
`cv::split` return the planes `[b, g, r]` of the normalised image (index 0, 1, 2; the stage
calls index 2 `R` and index 0 `B`).  For `tint = 0` and `temperature ≠ 0` the stage scales
plane 2, its red channel, by the entry `(0,0)` of the gain matrix, which is the blue factor,
and plane 0, its blue channel, by the entry `(2,2)`, which is the red factor.  So for
`temperature > 0` the gain multiplied into the red channel is `1 - temperature/5000 < 1` and
the gain multiplied into the blue channel is `1 + 3·temperature/10000 > 1`; for
`temperature < 0` the red gain is `1 - 3·temperature/10000 > 1` and the blue gain is
`1 + temperature/5000 < 1`; the green gain is 1. -/
theorem white_balance_gains_swapped (prim : Prim) (image : Mat) (params : AdjustmentParams)
    (b g r : Mat) (he : image.empty = false) (hne : params.temperature ≠ 0)
    (htint : params.tint = 0)
    (hs : prim.split (image.convertTo (some Depth.CV_32F) (1 / 255)) = Except.ok [b, g, r]) :
    apply_white_balance prim image params
        = (prim.merge
            [b.scale ((calculate_white_balance_matrix params.temperature 0).at 2 2),
             g.scale ((calculate_white_balance_matrix params.temperature 0).at 1 1),
             r.scale ((calculate_white_balance_matrix params.temperature 0).at 0 0)]
            >>= fun m => pure ((clamp01 m).convertTo (some Depth.CV_8U) 255))
      ∧ (calculate_white_balance_matrix params.temperature 0).at 1 1 = 1
      ∧ (0 < params.temperature →
          (calculate_white_balance_matrix params.temperature 0).at 0 0
              = 1 - params.temperature / 5000
            ∧ (calculate_white_balance_matrix params.temperature 0).at 0 0 < 1
            ∧ (calculate_white_balance_matrix params.temperature 0).at 2 2
              = 1 + 3 * params.temperature / 10000
            ∧ 1 < (calculate_white_balance_matrix params.temperature 0).at 2 2)
      ∧ (params.temperature < 0 →
          (calculate_white_balance_matrix params.temperature 0).at 0 0
              = 1 - 3 * params.temperature / 10000
            ∧ 1 < (calculate_white_balance_matrix params.temperature 0).at 0 0
            ∧ (calculate_white_balance_matrix params.temperature 0).at 2 2
              = 1 + params.temperature / 5000
            ∧ (calculate_white_balance_matrix params.temperature 0).at 2 2 < 1) := by
  refine ⟨?_, ?_, ?_, ?_⟩
  · have h := white_balance_planes prim image params b g r he (fun h => hne h.1) hs
    rw [htint] at h
    exact h
  · rcases lt_or_gt_of_ne hne with h | h
    · exact (wb_matrix_cool _ h).2.1
    · exact (wb_matrix_warm _ h).2.1
  · intro h
    rw [(wb_matrix_warm _ h).1, (wb_matrix_warm _ h).2.2]
    refine ⟨by ring, by linarith, by ring, by linarith⟩
  · intro h
    rw [(wb_matrix_cool _ h).1, (wb_matrix_cool _ h).2.2]
    refine ⟨by ring, by linarith, by ring, by linarith⟩

theorem cvRound_ofNat (n : ℕ) : cvRound (n : ℚ) = (n : Int) := by
  have h := cvRound_intCast (n : Int)
  simpa using h

theorem white_balance_gains_swapped_witness :
    apply_white_balance Prim.pointwise grayPixelMat warm1000
      = Except.ok ⟨1, 1, 3, Depth.CV_8U, [130, 100, 80]⟩ := by
  have hs : Prim.pointwise.split (grayPixelMat.convertTo (some Depth.CV_32F) (1 / 255))
      = Except.ok [grayPlane, grayPlane, grayPlane] := by
    simp [Prim.pointwise, Mat.planes, grayPixelMat, grayPlane, Mat.convertTo, rtypeDepth,
      storeAs, List.range_succ]
    rfl
  have h := (white_balance_gains_swapped Prim.pointwise grayPixelMat warm1000
    grayPlane grayPlane grayPlane (by decide) (by norm_num [warm1000]) rfl hs).1
  have hpos : (0 : ℚ) < warm1000.temperature := by norm_num [warm1000]
  rw [h, (wb_matrix_warm _ hpos).1, (wb_matrix_warm _ hpos).2.1, (wb_matrix_warm _ hpos).2.2]
  have e130 : cvRound (130 : ℚ) = 130 := cvRound_ofNat 130
  have e100 : cvRound (100 : ℚ) = 100 := cvRound_ofNat 100
  have e80 : cvRound (80 : ℚ) = 80 := cvRound_ofNat 80
  simp [Prim.pointwise, Mat.interleave, grayPlane, Mat.scale, Mat.convertTo, rtypeDepth,
    storeAs, clamp01, threshold, threshold1, warm1000, List.range_succ, bind, Except.bind,
    pure, Except.pure]
  norm_num [e130, e100, e80, saturate_u8]

theorem hsl_step_skip (prim : Prim) (hsv : Mat × Mat × Mat) (range : ColorRange)
    (h1 : range.hue_adj = 0) (h2 : range.sat_adj = 0) (h3 : range.lum_adj = 0) :
    hsl_step prim hsv range = Except.ok hsv := by
  unfold hsl_step
  rw [if_pos ⟨h1, h2, h3⟩]
  rfl

theorem blend_plane (x a m : ℚ) :
    blend Prim.pointwise (plane x) (plane a) (plane m)
      = Except.ok (plane (x * (m * (-1) + 1) + a * m)) := rfl

theorem hsl_step_plane (h s v m lo hi ds dl : ℚ) (hs : ds ≠ 0) (hl : dl ≠ 0)
    (hm : hue_mask Prim.pointwise (plane h) ⟨lo, hi, 0, ds, dl⟩
      = Except.ok (maskPixel (255 * m))) :
    hsl_step Prim.pointwise (plane h, plane s, plane v) ⟨lo, hi, 0, ds, dl⟩
      = Except.ok (plane h,
          plane (s * (m * (-1) + 1) + s * (1 + ds / 100) * m),
          plane (v * (m * (-1) + 1) + v * (1 + dl / 100) * m)) := by
  unfold hsl_step
  have hn : ¬ ((0 : ℚ) = 0 ∧ ds = 0 ∧ dl = 0) := fun c => hs c.2.1
  have e1 : (maskPixel (255 * m)).convertTo (some Depth.CV_32F) (1 / 255) = plane m := by
    simp [maskPixel, plane, Mat.convertTo, rtypeDepth, storeAs]
    ring
  have e2 : Prim.pointwise.GaussianBlur (plane m) (5, 5) 2 = Except.ok (plane m) := rfl
  have e3 : ∀ (x f : ℚ), (plane x).scale f = plane (x * f) := fun _ _ => rfl
  simp only [if_neg hn]
  simp only [hm, e1, e2, e3, ne_eq, not_true_eq_false, hs, hl, not_false_eq_true,
    if_true, if_false, bind, Except.bind, pure, Except.pure, blend_plane]
  simp

theorem mask_first_range (h : ℚ) (range : ColorRange) (hr : ¬ range.max_hue > 180) :
    hue_mask Prim.pointwise (plane h) range
      = Except.ok (maskPixel (if range.min_hue / 2 ≤ h ∧ h ≤ range.max_hue / 2 then 255 else 0)) := by
  unfold hue_mask
  rw [if_neg hr]
  rfl

theorem mask_wrap_range (h : ℚ) (range : ColorRange) (hr : range.max_hue > 180) :
    hue_mask Prim.pointwise (plane h) range
      = Except.ok (maskPixel (max (if range.min_hue / 2 ≤ h ∧ h ≤ 180 then 255 else 0)
          (if 0 ≤ h ∧ h ≤ (range.max_hue - 360) / 2 then 255 else 0))) := by
  unfold hue_mask
  rw [if_pos hr]
  rfl

theorem ok_bind {α β : Type} (x : α) (f : α → Except Exn β) :
    (Except.ok x >>= f) = f x := rfl

theorem red_loop (h s v m0 m8 : ℚ)
    (h0 : hue_mask Prim.pointwise (plane h) ⟨0, 15, 0, 50, 20⟩
      = Except.ok (maskPixel (255 * m0)))
    (h8 : hue_mask Prim.pointwise (plane h) ⟨345, 360, 0, 50, 20⟩
      = Except.ok (maskPixel (255 * m8))) :
    (color_ranges redBoost).foldlM (hsl_step Prim.pointwise) (plane h, plane s, plane v)
      = Except.ok (plane h,
          plane ((s * (m0 * (-1) + 1) + s * (1 + 50 / 100) * m0) * (m8 * (-1) + 1)
            + (s * (m0 * (-1) + 1) + s * (1 + 50 / 100) * m0) * (1 + 50 / 100) * m8),
          plane ((v * (m0 * (-1) + 1) + v * (1 + 20 / 100) * m0) * (m8 * (-1) + 1)
            + (v * (m0 * (-1) + 1) + v * (1 + 20 / 100) * m0) * (1 + 20 / 100) * m8)) := by
  have e0 := hsl_step_plane h s v m0 0 15 50 20 (by norm_num) (by norm_num) h0
  have e8 := hsl_step_plane h (s * (m0 * (-1) + 1) + s * (1 + 50 / 100) * m0)
    (v * (m0 * (-1) + 1) + v * (1 + 20 / 100) * m0) m8 345 360 50 20
    (by norm_num) (by norm_num) h8
  have sk : ∀ (hsv : Mat × Mat × Mat) (a b : ℚ),
      hsl_step Prim.pointwise hsv ⟨a, b, 0, 0, 0⟩ = Except.ok hsv :=
    fun hsv _ _ => hsl_step_skip _ hsv _ rfl rfl rfl
  have hc : color_ranges redBoost
      = [⟨0, 15, 0, 50, 20⟩, ⟨15, 45, 0, 0, 0⟩, ⟨45, 75, 0, 0, 0⟩, ⟨75, 105, 0, 0, 0⟩,
         ⟨105, 135, 0, 0, 0⟩, ⟨135, 165, 0, 0, 0⟩, ⟨165, 195, 0, 0, 0⟩, ⟨195, 225, 0, 0, 0⟩,
         ⟨345, 360, 0, 50, 20⟩] := rfl
  rw [hc, List.foldlM_cons, e0, ok_bind]
  iterate 7 rw [List.foldlM_cons, sk, ok_bind]
  rw [List.foldlM_cons, e8, ok_bind, List.foldlM_nil]
  rfl

theorem planes_congr (h a b c d : ℚ) (h1 : a = c) (h2 : b = d) :
    (Except.ok (plane h, plane a, plane b) : Except Exn (Mat × Mat × Mat))
      = Except.ok (plane h, plane c, plane d) := by rw [h1, h2]

theorem maskPixel_congr {a b : ℚ} (h : a = b) :
    (Except.ok (maskPixel a) : Except Exn Mat) = Except.ok (maskPixel b) := by rw [h]

/-- C18 (hue wraparound): the red deltas are applied twice at stored hue 0.  With only
`saturation_red = 50` and `luminance_red = 20` set, and the sample-wise primitives, the loop
over `color_ranges` takes the one-pixel planes (hue, saturation `s`, value `v`) to:
saturation `(3/2)²·s` and value `(6/5)²·v` at stored hue 0, which both the range `{0, 15}`
and the degenerate second mask `inRange(hue, 0, 0)` of the range `{345, 360}` select;
saturation `3/2·s` and value `6/5·v` at stored hue 175 (350° in half-degrees), which only
the range `{345, 360}` selects; and unchanged planes at stored hue 350 (350° in degrees),
which no mask selects. -/
theorem red_applied_twice_at_hue_zero (s v : ℚ) :
    (color_ranges redBoost).foldlM (hsl_step Prim.pointwise) (plane 0, plane s, plane v)
      = Except.ok (plane 0, plane (3 / 2 * (3 / 2) * s), plane (6 / 5 * (6 / 5) * v))
    ∧ (color_ranges redBoost).foldlM (hsl_step Prim.pointwise) (plane 175, plane s, plane v)
      = Except.ok (plane 175, plane (3 / 2 * s), plane (6 / 5 * v))
    ∧ (color_ranges redBoost).foldlM (hsl_step Prim.pointwise) (plane 350, plane s, plane v)
      = Except.ok (plane 350, plane s, plane v) := by
  refine ⟨?_, ?_, ?_⟩
  · have h0 : hue_mask Prim.pointwise (plane 0) ⟨0, 15, 0, 50, 20⟩
        = Except.ok (maskPixel (255 * 1)) := by
      rw [mask_first_range _ _ (by norm_num)]
      exact maskPixel_congr (by norm_num)
    have h8 : hue_mask Prim.pointwise (plane 0) ⟨345, 360, 0, 50, 20⟩
        = Except.ok (maskPixel (255 * 1)) := by
      rw [mask_wrap_range _ _ (by norm_num)]
      exact maskPixel_congr (by norm_num)
    rw [red_loop 0 s v 1 1 h0 h8]
    exact planes_congr _ _ _ _ _ (by ring) (by ring)
  · have h0 : hue_mask Prim.pointwise (plane 175) ⟨0, 15, 0, 50, 20⟩
        = Except.ok (maskPixel (255 * 0)) := by
      rw [mask_first_range _ _ (by norm_num)]
      exact maskPixel_congr (by norm_num)
    have h8 : hue_mask Prim.pointwise (plane 175) ⟨345, 360, 0, 50, 20⟩
        = Except.ok (maskPixel (255 * 1)) := by
      rw [mask_wrap_range _ _ (by norm_num)]
      exact maskPixel_congr (by norm_num)
    rw [red_loop 175 s v 0 1 h0 h8]
    exact planes_congr _ _ _ _ _ (by ring) (by ring)
  · have h0 : hue_mask Prim.pointwise (plane 350) ⟨0, 15, 0, 50, 20⟩
        = Except.ok (maskPixel (255 * 0)) := by
      rw [mask_first_range _ _ (by norm_num)]
      exact maskPixel_congr (by norm_num)
    have h8 : hue_mask Prim.pointwise (plane 350) ⟨345, 360, 0, 50, 20⟩
        = Except.ok (maskPixel (255 * 0)) := by
      rw [mask_wrap_range _ _ (by norm_num)]
      exact maskPixel_congr (by norm_num)
    rw [red_loop 350 s v 0 0 h0 h8]
    exact planes_congr _ _ _ _ _ (by ring) (by ring)

theorem tone_curve_entry_eq (params : AdjustmentParams) (i : Nat) :
    tone_curve_entry params i
      = ((⌊max 0 (min 1 (tone_curve_output params ((i : ℚ) / 255))) * 255⌋ : Int) : ℚ) := rfl

theorem tone_curve_output_le (params : AdjustmentParams) :
    tone_curve_output params = fun input : ℚ =>
      if 1 / 4 ≤ input then
        (if 1 / 2 ≤ input then
          (if 3 / 4 ≤ input then
            input + params.curve_highlights / 100 * ((input - 3 / 4) / (1 / 4))
              * (1 - (input - 3 / 4) / (1 / 4))
          else input + params.curve_lights / 100 * ((input - 1 / 2) / (1 / 4))
              * (1 - (input - 1 / 2) / (1 / 4)))
        else input + params.curve_darks / 100 * ((input - 1 / 4) / (1 / 4))
              * (1 - (input - 1 / 4) / (1 / 4)))
      else input + params.curve_shadows / 100 * (input / (1 / 4)) * (1 - input / (1 / 4)) := by
  funext input
  unfold tone_curve_output
  by_cases h1 : input < 1 / 4
  · rw [if_pos h1, if_neg (not_le.mpr h1)]
  · rw [if_neg h1, if_pos (not_lt.mp h1)]
    by_cases h2 : input < 1 / 2
    · rw [if_pos h2, if_neg (not_le.mpr h2)]
    · rw [if_neg h2, if_pos (not_lt.mp h2)]
      by_cases h3 : input < 3 / 4
      · rw [if_pos h3, if_neg (not_le.mpr h3)]
      · rw [if_neg h3, if_pos (not_lt.mp h3)]

theorem tone_curve_continuous (params : AdjustmentParams) :
    Continuous (tone_curve_output params) := by
  rw [tone_curve_output_le]
  refine Continuous.if_le ?_ (by fun_prop) continuous_const continuous_id ?_
  · refine Continuous.if_le ?_ (by fun_prop) continuous_const continuous_id ?_
    · refine Continuous.if_le (by fun_prop) (by fun_prop) continuous_const continuous_id ?_
      intro x hx
      rw [← hx]
      norm_num
    · intro x hx
      rw [← hx]
      norm_num
  · intro x hx
    rw [← hx]
    norm_num

theorem bump_le (d u : ℚ) (h0 : 0 ≤ u) (h1 : u ≤ 1) : |d / 100 * u * (1 - u)| ≤ |d| / 400 := by
  have hu : 0 ≤ u * (1 - u) := mul_nonneg h0 (by linarith)
  have hq : u * (1 - u) ≤ 1 / 4 := by nlinarith [sq_nonneg (u - 1 / 2)]
  have hn : 0 ≤ u * (1 - u) / 100 := by linarith
  have e : d / 100 * u * (1 - u) = d * (u * (1 - u) / 100) := by ring
  rw [e, abs_mul, abs_of_nonneg hn]
  have : |d| * (u * (1 - u) / 100) ≤ |d| * (1 / 400) := by
    apply mul_le_mul_of_nonneg_left _ (abs_nonneg d)
    linarith
  linarith

theorem tone_curve_band (d lo t : ℚ) (h0 : lo ≤ t) (h1 : t ≤ lo + 1 / 4) :
    |t + d / 100 * ((t - lo) / (1 / 4)) * (1 - (t - lo) / (1 / 4)) - t| ≤ |d| / 400 := by
  have e : t + d / 100 * ((t - lo) / (1 / 4)) * (1 - (t - lo) / (1 / 4)) - t
      = d / 100 * ((t - lo) / (1 / 4)) * (1 - (t - lo) / (1 / 4)) := by ring
  rw [e]
  apply bump_le
  · apply div_nonneg (by linarith) (by norm_num)
  · rw [div_le_iff₀ (by norm_num)]
    linarith

/-- C21 (tone-curve continuity).  For all four band deltas, the curve that the loop body
of `apply_tone_curve` computes before its clamp equals `t` at the band boundaries
`0, 1/4, 1/2, 3/4, 1`, is continuous, deviates from `t` on each band of `[0, 1]` by at most
`|delta_band| / 400`, with `delta_band / 400` reached at the band midpoint, and the table
entries 0 and 255 are 0 and 255. -/
theorem tone_curve_continuity (params : AdjustmentParams) :
    (tone_curve_output params 0 = 0 ∧ tone_curve_output params (1 / 4) = 1 / 4
        ∧ tone_curve_output params (1 / 2) = 1 / 2 ∧ tone_curve_output params (3 / 4) = 3 / 4
        ∧ tone_curve_output params 1 = 1)
      ∧ Continuous (tone_curve_output params)
      ∧ (∀ t : ℚ, 0 ≤ t → t < 1 / 4 →
          |tone_curve_output params t - t| ≤ |params.curve_shadows| / 400)
      ∧ (∀ t : ℚ, 1 / 4 ≤ t → t < 1 / 2 →
          |tone_curve_output params t - t| ≤ |params.curve_darks| / 400)
      ∧ (∀ t : ℚ, 1 / 2 ≤ t → t < 3 / 4 →
          |tone_curve_output params t - t| ≤ |params.curve_lights| / 400)
      ∧ (∀ t : ℚ, 3 / 4 ≤ t → t ≤ 1 →
          |tone_curve_output params t - t| ≤ |params.curve_highlights| / 400)
      ∧ (tone_curve_output params (1 / 8) - 1 / 8 = params.curve_shadows / 400
          ∧ tone_curve_output params (3 / 8) - 3 / 8 = params.curve_darks / 400
          ∧ tone_curve_output params (5 / 8) - 5 / 8 = params.curve_lights / 400
          ∧ tone_curve_output params (7 / 8) - 7 / 8 = params.curve_highlights / 400)
      ∧ tone_curve_entry params 0 = 0 ∧ tone_curve_entry params 255 = 255 := by
  have f0 : tone_curve_output params 0 = 0 := by
    unfold tone_curve_output
    norm_num
  have f1 : tone_curve_output params 1 = 1 := by
    unfold tone_curve_output
    norm_num
  refine ⟨⟨f0, ?_, ?_, ?_, f1⟩, tone_curve_continuous params, ?_, ?_, ?_, ?_,
    ⟨?_, ?_, ?_, ?_⟩, ?_, ?_⟩
  · unfold tone_curve_output
    norm_num
  · unfold tone_curve_output
    norm_num
  · unfold tone_curve_output
    norm_num
  · intro t h0 h1
    unfold tone_curve_output
    rw [if_pos h1]
    have := tone_curve_band params.curve_shadows 0 t h0 (by linarith)
    simpa using this
  · intro t h0 h1
    unfold tone_curve_output
    rw [if_neg (not_lt.mpr h0), if_pos h1]
    exact tone_curve_band params.curve_darks (1 / 4) t h0 (by linarith)
  · intro t h0 h1
    unfold tone_curve_output
    rw [if_neg (not_lt.mpr (by linarith)), if_neg (not_lt.mpr h0), if_pos h1]
    exact tone_curve_band params.curve_lights (1 / 2) t h0 (by linarith)
  · intro t h0 h1
    unfold tone_curve_output
    rw [if_neg (not_lt.mpr (by linarith)), if_neg (not_lt.mpr (by linarith)),
      if_neg (not_lt.mpr h0)]
    exact tone_curve_band params.curve_highlights (3 / 4) t h0 (by linarith)
  · unfold tone_curve_output
    norm_num
    ring
  · unfold tone_curve_output
    norm_num
    ring
  · unfold tone_curve_output
    norm_num
    ring
  · unfold tone_curve_output
    norm_num
    ring
  · rw [tone_curve_entry_eq]
    have e : ((0 : ℕ) : ℚ) / 255 = 0 := by norm_num
    rw [e, f0]
    norm_num
  · rw [tone_curve_entry_eq]
    have e : ((255 : ℕ) : ℚ) / 255 = 1 := by norm_num
    rw [e, f1]
    norm_num

/-- C22, the claim as stated fails.  The record with width, height and channels 1, bit
depth 8 and an empty buffer is valid for `is_valid`, although its buffer length 0 is not
`width * height * channels * (bit_depth / 8) = 1`. -/
theorem is_valid_ignores_buffer :
    dimsOnly.is_valid = true
      ∧ dimsOnly.size
          ≠ dimsOnly.width * dimsOnly.height * dimsOnly.channels * (dimsOnly.bit_depth / 8) := by
  decide

/-- C22 (`ImageData::is_valid`), amended.  `is_valid()` returns true if and only if
`width > 0`, `height > 0`, `channels > 0` and `bit_depth > 0`; the pixel buffer is not
examined, so the answer is the same for every buffer.  The constructor
`ImageData(w, h, c, depth)` is what makes the buffer length `w * h * c * (depth / 8)`
(computed in `u32`). -/
theorem is_valid_iff (d : ImageData) (buffer : List Nat) (w h c depth : Nat) :
    (d.is_valid = true ↔ 0 < d.width ∧ 0 < d.height ∧ 0 < d.channels ∧ 0 < d.bit_depth)
      ∧ ({ d with data := buffer } : ImageData).is_valid = d.is_valid
      ∧ (ImageData.alloc w h c depth).size = (w * h * c * (depth / 8)) % 2 ^ 32
      ∧ ((ImageData.alloc w h c depth).is_valid = true ↔ 0 < w ∧ 0 < h ∧ 0 < c ∧ 0 < depth) := by
  refine ⟨?_, rfl, ?_, ?_⟩
  · simp [ImageData.is_valid, and_assoc]
  · simp [ImageData.alloc, ImageData.size]
  · simp [ImageData.is_valid, ImageData.alloc, and_assoc]

theorem full_try_unsized (prim : Prim) (base : Mat) (params : AdjustmentParams)
    (fo : ProcessingOptions) (hsize : ¬ (fo.output_width > 0 ∧ fo.output_height > 0)) :
    full_try prim base params fo = preview_try prim base params := by
  unfold full_try preview_try preview_stages
  simp only [if_neg hsize, bind_assoc, pure_bind]

theorem catch_same_outcome (x : Except Exn ImageData) :
    (full_catch x).code = (preview_catch x).code
      ∧ (full_catch x).data = (preview_catch x).data := by
  cases x with
  | ok d => exact ⟨rfl, rfl⟩
  | error e => cases e <;> exact ⟨rfl, rfl⟩

/-- C23 (`process_full_image` runs the pipeline of `generate_preview`).  For every session
without a usable cache, every params and every options with `output_width = 0` or
`output_height = 0`, whatever `preview_mode` they carry: `process_full_image` returns the
same result code and the same raster as `generate_preview` called with `preview_mode = false`,
and leaves the same decoder state and decode count; its `try` block is the same seven stages
in the same order followed by the same channel reorder and conversion. -/
theorem full_image_same_pipeline {L : Type} (env : Env L) (prim : Prim) (s : RawProcessor L)
    (params : AdjustmentParams) (options : ProcessingOptions)
    (hmiss : cache_hit s = false)
    (hsize : options.output_width = 0 ∨ options.output_height = 0) :
    (process_full_image env prim s params options).1.map (fun r => (r.code, r.data))
        = (generate_preview env prim s params { options with preview_mode := false }).1.map
            (fun r => (r.code, r.data))
      ∧ (process_full_image env prim s params options).2.libraw_
          = (generate_preview env prim s params { options with preview_mode := false }).2.libraw_
      ∧ (process_full_image env prim s params options).2.decode_calls
          = (generate_preview env prim s params
              { options with preview_mode := false }).2.decode_calls
      ∧ (∀ base : Mat,
          full_try prim base params { options with preview_mode := false }
            = (do
                let result ← preview_stages prim base params
                let result ← prim.cvtColor result ColorCode.COLOR_BGR2RGB
                pure (mat_to_image_data result))) := by
  have hs : ¬ (({ options with preview_mode := false } : ProcessingOptions).output_width > 0
      ∧ ({ options with preview_mode := false } : ProcessingOptions).output_height > 0) := by
    intro h
    have h1 : options.output_width > 0 := h.1
    have h2 : options.output_height > 0 := h.2
    omega
  refine ⟨?_, ?_, ?_, fun base => full_try_unsized prim base params _ hs⟩
  · cases hl : s.is_loaded_ with
    | false =>
      rw [generate_preview_not_loaded env prim s params _ hl]
      simp only [process_full_image, hl, Bool.not_false, if_true]
      rfl
    | true =>
      rw [generate_preview_miss env prim s params _ hl hmiss]
      unfold process_full_image
      simp only [hl, Bool.not_true, Bool.false_eq_true, if_false]
      rcases process_with_libraw env prim s { options with preview_mode := false }
        with ⟨r, s'⟩
      cases r with
      | error e => rfl
      | ok base =>
        simp only []
        by_cases hb : base.empty = true
        · rw [if_pos hb, if_pos hb]
          rfl
        · rw [if_neg hb, if_neg hb, full_try_unsized prim base params _ hs]
          have hc := catch_same_outcome (preview_try prim base params)
          change Except.ok (_, _) = Except.ok (_, _)
          rw [hc.1, hc.2]
  · cases hl : s.is_loaded_ with
    | false =>
      rw [generate_preview_not_loaded env prim s params _ hl]
      simp only [process_full_image, hl, Bool.not_false, if_true]
    | true =>
      rw [generate_preview_miss env prim s params _ hl hmiss]
      unfold process_full_image
      simp only [hl, Bool.not_true, Bool.false_eq_true, if_false]
      rcases process_with_libraw env prim s { options with preview_mode := false }
        with ⟨r, s'⟩
      cases r with
      | error e => rfl
      | ok base =>
        simp only []
        by_cases hb : base.empty = true
        · rw [if_pos hb, if_pos hb]
        · rw [if_neg hb, if_neg hb]
  · cases hl : s.is_loaded_ with
    | false =>
      rw [generate_preview_not_loaded env prim s params _ hl]
      simp only [process_full_image, hl, Bool.not_false, if_true]
    | true =>
      rw [generate_preview_miss env prim s params _ hl hmiss]
      unfold process_full_image
      simp only [hl, Bool.not_true, Bool.false_eq_true, if_false]
      rcases process_with_libraw env prim s { options with preview_mode := false }
        with ⟨r, s'⟩
      cases r with
      | error e => rfl
      | ok base =>
        simp only []
        by_cases hb : base.empty = true
        · rw [if_pos hb, if_pos hb]
        · rw [if_neg hb, if_neg hb]

theorem full_image_same_pipeline_witness :
    cache_hit RawProcessor.loaded = false
      ∧ (process_full_image Env.counting Prim.passThrough RawProcessor.loaded {}
          previewFlagOnly).1.map (fun r => (r.code, r.data))
        = (generate_preview Env.counting Prim.passThrough RawProcessor.loaded {}
            { previewFlagOnly with preview_mode := false }).1.map (fun r => (r.code, r.data)) :=
  ⟨rfl, (full_image_same_pipeline Env.counting Prim.passThrough RawProcessor.loaded {}
    previewFlagOnly rfl (Or.inl rfl)).1⟩

theorem mask_wrap_value (h lo hi a b c : ℚ) (hr : hi > 180) (h1 : lo / 2 ≤ h) (h2 : h ≤ 180) :
    hue_mask Prim.pointwise (plane h) ⟨lo, hi, a, b, c⟩ = Except.ok (maskPixel 255) := by
  rw [mask_wrap_range _ _ hr]
  apply maskPixel_congr
  have e : (if lo / 2 ≤ h ∧ h ≤ 180 then (255 : ℚ) else 0) = 255 := if_pos ⟨h1, h2⟩
  change max (if lo / 2 ≤ h ∧ h ≤ 180 then (255 : ℚ) else 0) _ = 255
  rw [e]
  apply max_eq_left
  split_ifs <;> norm_num

theorem mask_first_value (h lo hi a b c : ℚ) (hr : ¬ hi > 180) (h1 : lo / 2 ≤ h)
    (h2 : h ≤ hi / 2) :
    hue_mask Prim.pointwise (plane h) ⟨lo, hi, a, b, c⟩ = Except.ok (maskPixel 255) := by
  rw [mask_first_range _ _ hr]
  apply maskPixel_congr
  exact if_pos ⟨h1, h2⟩

/-- C25 (hue zones): the masks of different colours overlap.  For every parameter set,
entries 6 and 7 of the zone table are purple `{165, 195}` and magenta `{195, 225}`; both have
`max_hue > 180` and so take the wraparound branch, whose first mask runs up to 180: the
binary masks of purple and of magenta both contain every stored hue `h` with
`97.5 ≤ h ≤ 180`, and from `172.5` on so does the mask of the second red entry.  The
inclusive bounds of `inRange` also put the boundary hue `7.5` into the masks of red and of
orange. -/
theorem hue_zones_overlap (params : AdjustmentParams) (h : ℚ) :
    (color_ranges params).get? 6
        = some ⟨165, 195, params.hue_purple, params.saturation_purple,
            params.luminance_purple⟩
      ∧ (color_ranges params).get? 7
        = some ⟨195, 225, params.hue_magenta, params.saturation_magenta,
            params.luminance_magenta⟩
      ∧ (195 / 2 ≤ h → h ≤ 180 →
          hue_mask Prim.pointwise (plane h)
              ⟨165, 195, params.hue_purple, params.saturation_purple,
                params.luminance_purple⟩ = Except.ok (maskPixel 255)
            ∧ hue_mask Prim.pointwise (plane h)
              ⟨195, 225, params.hue_magenta, params.saturation_magenta,
                params.luminance_magenta⟩ = Except.ok (maskPixel 255))
      ∧ (345 / 2 ≤ h → h ≤ 180 →
          hue_mask Prim.pointwise (plane h)
              ⟨345, 360, params.hue_red, params.saturation_red, params.luminance_red⟩
            = Except.ok (maskPixel 255))
      ∧ hue_mask Prim.pointwise (plane (15 / 2))
          ⟨0, 15, params.hue_red, params.saturation_red, params.luminance_red⟩
          = Except.ok (maskPixel 255)
      ∧ hue_mask Prim.pointwise (plane (15 / 2))
          ⟨15, 45, params.hue_orange, params.saturation_orange, params.luminance_orange⟩
          = Except.ok (maskPixel 255) := by
  refine ⟨rfl, rfl, ?_, ?_, ?_, ?_⟩
  · intro h1 h2
    exact ⟨mask_wrap_value h 165 195 _ _ _ (by norm_num) (by linarith) h2,
      mask_wrap_value h 195 225 _ _ _ (by norm_num) h1 h2⟩
  · intro h1 h2
    exact mask_wrap_value h 345 360 _ _ _ (by norm_num) h1 h2
  · exact mask_first_value _ 0 15 _ _ _ (by norm_num) (by norm_num) (by norm_num)
  · exact mask_first_value _ 15 45 _ _ _ (by norm_num) (by norm_num) (by norm_num)

theorem hue_zones_overlap_example :
    hue_mask Prim.pointwise (plane 100) ⟨165, 195, 0, 0, 0⟩ = Except.ok (maskPixel 255)
      ∧ hue_mask Prim.pointwise (plane 100) ⟨195, 225, 0, 0, 0⟩ = Except.ok (maskPixel 255) :=
  (hue_zones_overlap {} 100).2.2.1 (by norm_num) (by norm_num)

theorem blend_plane2 (x y a b m n : ℚ) :
    blend Prim.minmax (plane2 x y) (plane2 a b) (plane2 m n)
      = Except.ok (plane2 (x * (m * (-1) + 1) + a * m) (y * (n * (-1) + 1) + b * n)) := rfl

theorem mask2_first_range (h1 h2 : ℚ) (range : ColorRange) (hr : ¬ range.max_hue > 180) :
    hue_mask Prim.minmax (plane2 h1 h2) range
      = Except.ok (maskPixel2
          (if range.min_hue / 2 ≤ h1 ∧ h1 ≤ range.max_hue / 2 then 255 else 0)
          (if range.min_hue / 2 ≤ h2 ∧ h2 ≤ range.max_hue / 2 then 255 else 0)) := by
  unfold hue_mask
  rw [if_neg hr]
  rfl

theorem hsl_step_unmasked2 (h1 h2 s1 s2 v1 v2 lo hi ds dl : ℚ) (hs : ds ≠ 0) (hl : dl ≠ 0)
    (hm : hue_mask Prim.minmax (plane2 h1 h2) ⟨lo, hi, 0, ds, dl⟩
      = Except.ok (maskPixel2 0 0)) :
    hsl_step Prim.minmax (plane2 h1 h2, plane2 s1 s2, plane2 v1 v2) ⟨lo, hi, 0, ds, dl⟩
      = Except.ok (plane2 h1 h2, plane2 s1 s2, plane2 v1 v2) := by
  unfold hsl_step
  have hn : ¬ ((0 : ℚ) = 0 ∧ ds = 0 ∧ dl = 0) := fun c => hs c.2.1
  have e1 : (maskPixel2 0 0).convertTo (some Depth.CV_32F) (1 / 255) = plane2 0 0 := by
    simp [maskPixel2, plane2, Mat.convertTo, rtypeDepth, storeAs]
  have e2 : Prim.minmax.GaussianBlur (plane2 0 0) (5, 5) 2 = Except.ok (plane2 0 0) := rfl
  have e3 : ∀ (x y f : ℚ), (plane2 x y).scale f = plane2 (x * f) (y * f) := fun _ _ _ => rfl
  have e4 : ∀ (x y a b : ℚ),
      plane2 (x * ((0 : ℚ) * (-1) + 1) + a * 0) (y * ((0 : ℚ) * (-1) + 1) + b * 0)
        = plane2 x y := by
    intro x y a b
    have ex : x * ((0 : ℚ) * (-1) + 1) + a * 0 = x := by ring
    have ey : y * ((0 : ℚ) * (-1) + 1) + b * 0 = y := by ring
    rw [ex, ey]
  simp only [if_neg hn]
  simp only [hm, e1, e2, e3, ne_eq, not_true_eq_false, hs, hl, not_false_eq_true,
    if_true, if_false, bind, Except.bind, pure, Except.pure, blend_plane2, e4]
  simp

theorem orange_loop_unmasked (s1 s2 v1 v2 : ℚ) :
    (color_ranges orangeBoost).foldlM (hsl_step Prim.minmax)
        (plane2 30 60, plane2 s1 s2, plane2 v1 v2)
      = Except.ok (plane2 30 60, plane2 s1 s2, plane2 v1 v2) := by
  have hm : hue_mask Prim.minmax (plane2 30 60) ⟨15, 45, 0, 50, 20⟩
      = Except.ok (maskPixel2 0 0) := by
    rw [mask2_first_range _ _ _ (by norm_num)]
    have a : ¬ ((15 : ℚ) / 2 ≤ 30 ∧ (30 : ℚ) ≤ 45 / 2) := by norm_num
    have b : ¬ ((15 : ℚ) / 2 ≤ 60 ∧ (60 : ℚ) ≤ 45 / 2) := by norm_num
    change Except.ok (maskPixel2 (if (15 : ℚ) / 2 ≤ 30 ∧ (30 : ℚ) ≤ 45 / 2 then 255 else 0)
      (if (15 : ℚ) / 2 ≤ 60 ∧ (60 : ℚ) ≤ 45 / 2 then 255 else 0)) = _
    rw [if_neg a, if_neg b]
  have e1 := hsl_step_unmasked2 30 60 s1 s2 v1 v2 15 45 50 20 (by norm_num) (by norm_num) hm
  have sk : ∀ (hsv : Mat × Mat × Mat) (a b : ℚ),
      hsl_step Prim.minmax hsv ⟨a, b, 0, 0, 0⟩ = Except.ok hsv :=
    fun hsv _ _ => hsl_step_skip _ hsv _ rfl rfl rfl
  have hc : color_ranges orangeBoost
      = [⟨0, 15, 0, 0, 0⟩, ⟨15, 45, 0, 50, 20⟩, ⟨45, 75, 0, 0, 0⟩, ⟨75, 105, 0, 0, 0⟩,
         ⟨105, 135, 0, 0, 0⟩, ⟨135, 165, 0, 0, 0⟩, ⟨165, 195, 0, 0, 0⟩, ⟨195, 225, 0, 0, 0⟩,
         ⟨345, 360, 0, 0, 0⟩] := rfl
  rw [hc, List.foldlM_cons, sk, ok_bind, List.foldlM_cons, e1, ok_bind]
  iterate 7 rw [List.foldlM_cons, sk, ok_bind]
  rw [List.foldlM_nil]
  rfl

theorem normalize_stretches :
    Prim.minmax.normalize (plane2 30 60) 0 180 = Except.ok (plane2 0 180) := by
  have e : minmax_normalize [30, 60] 0 180 = [0, 180] := by
    simp only [minmax_normalize, List.foldl, List.headD, List.map]
    norm_num
  change Except.ok ({ plane2 30 60 with data := minmax_normalize [30, 60] 0 180 } : Mat) = _
  rw [e]
  rfl

/-- C26 (unmasked pixels): the re-normalisation moves their hue.  With only
`saturation_orange = 50` and `luminance_orange = 20` set, a two-pixel image with stored hues
30 and 60 has mask weight 0 at both pixels for the one zone with a non-zero delta, and the
loop over the zones leaves hue, saturation and value as they were; the call
`cv::normalize(hue, hue, 0, 180, NORM_MINMAX)` that follows the loop then stretches the hue
plane to its minimum and maximum: the hues 30 and 60 become 0 and 180. -/
theorem unmasked_hue_is_renormalised (s1 s2 v1 v2 : ℚ) :
    has_hsl_adjustments orangeBoost = true
      ∧ hue_mask Prim.minmax (plane2 30 60)
          ⟨15, 45, orangeBoost.hue_orange, orangeBoost.saturation_orange,
            orangeBoost.luminance_orange⟩ = Except.ok (maskPixel2 0 0)
      ∧ (color_ranges orangeBoost).foldlM (hsl_step Prim.minmax)
          (plane2 30 60, plane2 s1 s2, plane2 v1 v2)
        = Except.ok (plane2 30 60, plane2 s1 s2, plane2 v1 v2)
      ∧ Prim.minmax.normalize (plane2 30 60) 0 180 = Except.ok (plane2 0 180)
      ∧ plane2 0 180 ≠ plane2 30 60 := by
  refine ⟨by decide, ?_, orange_loop_unmasked s1 s2 v1 v2, normalize_stretches, ?_⟩
  · rw [mask2_first_range _ _ _ (by norm_num)]
    have a : ¬ ((15 : ℚ) / 2 ≤ 30 ∧ (30 : ℚ) ≤ 45 / 2) := by norm_num
    have b : ¬ ((15 : ℚ) / 2 ≤ 60 ∧ (60 : ℚ) ≤ 45 / 2) := by norm_num
    change Except.ok (maskPixel2 (if (15 : ℚ) / 2 ≤ 30 ∧ (30 : ℚ) ≤ 45 / 2 then 255 else 0)
      (if (15 : ℚ) / 2 ≤ 60 ∧ (60 : ℚ) ≤ 45 / 2 then 255 else 0)) = _
    rw [if_neg a, if_neg b]
  · intro h
    have : (plane2 0 180).data = (plane2 30 60).data := by rw [h]
    simp [plane2] at this

/-- The HSL stage after its guards: the hue plane that goes back into the image is the
normalised one, whatever the loop did. -/
theorem hsl_stage_tail (prim : Prim) (image : Mat) (params : AdjustmentParams)
    (hsv h s v h' s' v' : Mat) (he : image.empty = false)
    (hadj : has_hsl_adjustments params = true)
    (hcvt : prim.cvtColor (image.convertTo (some Depth.CV_32F) (1 / 255))
      ColorCode.COLOR_BGR2HSV = Except.ok hsv)
    (hsplit : prim.split hsv = Except.ok [h, s, v])
    (hloop : (color_ranges params).foldlM (hsl_step prim) (h, s, v) = Except.ok (h', s', v')) :
    apply_hsl_adjustments prim image params
      = (do
          let hue ← prim.normalize h' 0 180
          let hsv ← prim.merge [hue, clamp01 s', clamp01 v']
          let result ← prim.cvtColor hsv ColorCode.COLOR_HSV2BGR
          pure (result.convertTo (some Depth.CV_8U) 255)) := by
  unfold apply_hsl_adjustments
  simp only [he, hadj, Bool.false_eq_true, if_false, Bool.not_true, Mat.clone, hcvt, hsplit,
    ok_bind, List.getD_cons_zero, List.getD_cons_succ, hloop]
  rfl

theorem tone_curve_entry_fixed (params : AdjustmentParams) (i : Nat) (hi : i ≤ 255)
    (h : tone_curve_output params ((i : ℚ) / 255) = (i : ℚ) / 255) :
    tone_curve_entry params i = (i : ℚ) := by
  rw [tone_curve_entry_eq, h]
  have h0 : (0 : ℚ) ≤ (i : ℚ) / 255 := by positivity
  have h1 : (i : ℚ) / 255 ≤ 1 := by
    rw [div_le_one (by norm_num)]
    exact_mod_cast hi
  rw [min_eq_right h1, max_eq_right h0]
  have e : (i : ℚ) / 255 * 255 = ((i : Int) : ℚ) := by
    push_cast
    field_simp
  rw [e, Int.floor_intCast]
  push_cast
  rfl

theorem tone_curve_output_bands (params : AdjustmentParams) (t : ℚ) :
    (t < 1 / 4 → params.curve_shadows = 0 → tone_curve_output params t = t)
      ∧ (1 / 4 ≤ t → t < 1 / 2 → params.curve_darks = 0 → tone_curve_output params t = t)
      ∧ (1 / 2 ≤ t → t < 3 / 4 → params.curve_lights = 0 → tone_curve_output params t = t)
      ∧ (3 / 4 ≤ t → params.curve_highlights = 0 → tone_curve_output params t = t) := by
  refine ⟨?_, ?_, ?_, ?_⟩
  · intro h1 hz
    unfold tone_curve_output
    rw [if_pos h1, hz]
    simp
  · intro h0 h1 hz
    unfold tone_curve_output
    rw [if_neg (not_lt.mpr h0), if_pos h1, hz]
    simp
  · intro h0 h1 hz
    unfold tone_curve_output
    rw [if_neg (not_lt.mpr (by linarith)), if_neg (not_lt.mpr h0), if_pos h1, hz]
    simp
  · intro h0 hz
    unfold tone_curve_output
    rw [if_neg (not_lt.mpr (by linarith)), if_neg (not_lt.mpr (by linarith)),
      if_neg (not_lt.mpr h0), hz]
    simp

theorem lut_getD (params : AdjustmentParams) (i : Nat) (hi : i ≤ 255) :
    ((List.range 256).map (tone_curve_entry params)).getD i 0 = tone_curve_entry params i := by
  have hlt : i < ((List.range 256).map (tone_curve_entry params)).length := by
    simp
    omega
  rw [List.getD_eq_getElem _ _ hlt]
  simp

/-- C27 (tone-curve bands are local).  For every index `i` in `0..255`, in exact
arithmetic: if the delta of the band that holds `i / 255` is zero, the table entry is
`lut[i] = i`, whatever the other three deltas are.  In particular, when exactly one delta is
non-zero, every index whose input lies outside that delta's band keeps its value, and the
lookup the stage performs returns that entry. -/
theorem tone_curve_band_local (params : AdjustmentParams) (i : Nat) (hi : i ≤ 255) :
    ((i : ℚ) / 255 < 1 / 4 → params.curve_shadows = 0 → tone_curve_entry params i = i)
      ∧ (1 / 4 ≤ (i : ℚ) / 255 → (i : ℚ) / 255 < 1 / 2 → params.curve_darks = 0 →
          tone_curve_entry params i = i)
      ∧ (1 / 2 ≤ (i : ℚ) / 255 → (i : ℚ) / 255 < 3 / 4 → params.curve_lights = 0 →
          tone_curve_entry params i = i)
      ∧ (3 / 4 ≤ (i : ℚ) / 255 → params.curve_highlights = 0 → tone_curve_entry params i = i)
      ∧ (params.curve_darks = 0 → params.curve_lights = 0 → params.curve_highlights = 0 →
          1 / 4 ≤ (i : ℚ) / 255 → tone_curve_entry params i = i)
      ∧ (params.curve_shadows = 0 → params.curve_lights = 0 → params.curve_highlights = 0 →
          ((i : ℚ) / 255 < 1 / 4 ∨ 1 / 2 ≤ (i : ℚ) / 255) → tone_curve_entry params i = i)
      ∧ (params.curve_shadows = 0 → params.curve_darks = 0 → params.curve_highlights = 0 →
          ((i : ℚ) / 255 < 1 / 2 ∨ 3 / 4 ≤ (i : ℚ) / 255) → tone_curve_entry params i = i)
      ∧ (params.curve_shadows = 0 → params.curve_darks = 0 → params.curve_lights = 0 →
          (i : ℚ) / 255 < 3 / 4 → tone_curve_entry params i = i)
      ∧ ((List.range 256).map (tone_curve_entry params)).getD i 0
          = tone_curve_entry params i := by
  obtain ⟨b1, b2, b3, b4⟩ := tone_curve_output_bands params ((i : ℚ) / 255)
  have fx := tone_curve_entry_fixed params i hi
  have key : ∀ (s d l h : Prop), (s → params.curve_shadows = 0) →
      (d → params.curve_darks = 0) → (l → params.curve_lights = 0) →
      (h → params.curve_highlights = 0) →
      ((i : ℚ) / 255 < 1 / 4 → s) → (1 / 4 ≤ (i : ℚ) / 255 → (i : ℚ) / 255 < 1 / 2 → d) →
      (1 / 2 ≤ (i : ℚ) / 255 → (i : ℚ) / 255 < 3 / 4 → l) → (3 / 4 ≤ (i : ℚ) / 255 → h) →
      tone_curve_entry params i = i := by
    intro s d l h hs hd hl hh ps pd pl ph
    apply fx
    by_cases c1 : (i : ℚ) / 255 < 1 / 4
    · exact b1 c1 (hs (ps c1))
    · by_cases c2 : (i : ℚ) / 255 < 1 / 2
      · exact b2 (not_lt.mp c1) c2 (hd (pd (not_lt.mp c1) c2))
      · by_cases c3 : (i : ℚ) / 255 < 3 / 4
        · exact b3 (not_lt.mp c2) c3 (hl (pl (not_lt.mp c2) c3))
        · exact b4 (not_lt.mp c3) (hh (ph (not_lt.mp c3)))
  refine ⟨fun h z => fx (b1 h z), fun h0 h1 z => fx (b2 h0 h1 z),
    fun h0 h1 z => fx (b3 h0 h1 z), fun h0 z => fx (b4 h0 z), ?_, ?_, ?_, ?_,
    lut_getD params i hi⟩
  · intro zd zl zh hout
    exact key False True True True (fun f => f.elim) (fun _ => zd) (fun _ => zl)
      (fun _ => zh) (fun c => absurd hout (not_le.mpr c)) (fun _ _ => trivial)
      (fun _ _ => trivial) (fun _ => trivial)
  · intro zs zl zh hout
    exact key True False True True (fun _ => zs) (fun f => f.elim) (fun _ => zl)
      (fun _ => zh) (fun _ => trivial)
      (fun c0 c1 => hout.elim (fun a => absurd c0 (not_le.mpr a))
        (fun a => absurd c1 (not_lt.mpr a)))
      (fun _ _ => trivial) (fun _ => trivial)
  · intro zs zd zh hout
    exact key True True False True (fun _ => zs) (fun _ => zd) (fun f => f.elim)
      (fun _ => zh) (fun _ => trivial) (fun _ _ => trivial)
      (fun c0 c1 => hout.elim (fun a => absurd c0 (not_le.mpr a))
        (fun a => absurd c1 (not_lt.mpr a)))
      (fun _ => trivial)
  · intro zs zd zl hout
    exact key True True True False (fun _ => zs) (fun _ => zd) (fun _ => zl)
      (fun f => f.elim) (fun _ => trivial) (fun _ _ => trivial) (fun _ _ => trivial)
      (fun c => absurd hout (not_lt.mpr c))

theorem tone_curve_band_local_witness :
    (128 : Nat) ≤ 255 ∧ tone_curve_entry shadowsOnly 128 = ((128 : Nat) : ℚ) :=
  ⟨by decide, (tone_curve_band_local shadowsOnly 128 (by decide)).2.2.2.2.1 rfl rfl rfl
    (by norm_num)⟩

theorem vignette_arg_le (cols rows x y : Nat) (hx : x < cols) (hy : y < rows) :
    0 ≤ ((x : ℚ) - (cols : ℚ) / 2) * ((x : ℚ) - (cols : ℚ) / 2)
          + ((y : ℚ) - (rows : ℚ) / 2) * ((y : ℚ) - (rows : ℚ) / 2)
      ∧ ((x : ℚ) - (cols : ℚ) / 2) * ((x : ℚ) - (cols : ℚ) / 2)
          + ((y : ℚ) - (rows : ℚ) / 2) * ((y : ℚ) - (rows : ℚ) / 2)
        ≤ (cols : ℚ) / 2 * ((cols : ℚ) / 2) + (rows : ℚ) / 2 * ((rows : ℚ) / 2)
      ∧ 0 < (cols : ℚ) / 2 * ((cols : ℚ) / 2) + (rows : ℚ) / 2 * ((rows : ℚ) / 2) := by
  have hx0 : (0 : ℚ) ≤ x := Nat.cast_nonneg x
  have hy0 : (0 : ℚ) ≤ y := Nat.cast_nonneg y
  have hxc : (x : ℚ) < cols := by exact_mod_cast hx
  have hyr : (y : ℚ) < rows := by exact_mod_cast hy
  refine ⟨add_nonneg (mul_self_nonneg _) (mul_self_nonneg _), ?_, ?_⟩
  · nlinarith [mul_nonneg hx0 (sub_nonneg.mpr hxc.le), mul_nonneg hy0 (sub_nonneg.mpr hyr.le)]
  · have hc : (0 : ℚ) < cols := lt_of_le_of_lt hx0 hxc
    positivity

/-- C28 (vignette multiplier).  For every image size and every pixel `(x, y)` inside it,
with a `std::sqrt` that is monotone and positive on positive numbers: `max_dist > 0`,
`0 ≤ dist ≤ max_dist`, the multiplier `1 + vignetting/100 · (1 - dist/max_dist)` lies between
1 and `1 + vignetting/100` inclusive (in the order the sign of `vignetting` gives), it is
exactly 1 at the corner pixel `(0, 0)`, and every sample of the mask the stage builds for a
matrix of that size lies within the same bounds. -/
theorem vignette_bounds (prim : Prim) (cols rows : Nat) (vignetting : ℚ) (x y : Nat)
    (hsqrt : sqrt_is_monotone prim) (hx : x < cols) (hy : y < rows) :
    0 < prim.sqrt ((cols : ℚ) / 2 * ((cols : ℚ) / 2) + (rows : ℚ) / 2 * ((rows : ℚ) / 2))
      ∧ 0 ≤ prim.sqrt (((x : ℚ) - (cols : ℚ) / 2) * ((x : ℚ) - (cols : ℚ) / 2)
          + ((y : ℚ) - (rows : ℚ) / 2) * ((y : ℚ) - (rows : ℚ) / 2))
      ∧ prim.sqrt (((x : ℚ) - (cols : ℚ) / 2) * ((x : ℚ) - (cols : ℚ) / 2)
          + ((y : ℚ) - (rows : ℚ) / 2) * ((y : ℚ) - (rows : ℚ) / 2))
        ≤ prim.sqrt ((cols : ℚ) / 2 * ((cols : ℚ) / 2) + (rows : ℚ) / 2 * ((rows : ℚ) / 2))
      ∧ vignette_factor prim cols rows vignetting x y
        = 1 + vignetting / 100
            * (1 - prim.sqrt (((x : ℚ) - (cols : ℚ) / 2) * ((x : ℚ) - (cols : ℚ) / 2)
                + ((y : ℚ) - (rows : ℚ) / 2) * ((y : ℚ) - (rows : ℚ) / 2))
              / prim.sqrt ((cols : ℚ) / 2 * ((cols : ℚ) / 2)
                + (rows : ℚ) / 2 * ((rows : ℚ) / 2)))
      ∧ min 1 (1 + vignetting / 100) ≤ vignette_factor prim cols rows vignetting x y
      ∧ vignette_factor prim cols rows vignetting x y ≤ max 1 (1 + vignetting / 100)
      ∧ (0 ≤ vignetting →
          1 ≤ vignette_factor prim cols rows vignetting x y
            ∧ vignette_factor prim cols rows vignetting x y ≤ 1 + vignetting / 100)
      ∧ (vignetting ≤ 0 →
          1 + vignetting / 100 ≤ vignette_factor prim cols rows vignetting x y
            ∧ vignette_factor prim cols rows vignetting x y ≤ 1)
      ∧ vignette_factor prim cols rows vignetting 0 0 = 1
      ∧ (∀ image : Mat, image.cols = cols → image.rows = rows →
          ∀ f ∈ (vignette_mask prim image vignetting).data,
            min 1 (1 + vignetting / 100) ≤ f ∧ f ≤ max 1 (1 + vignetting / 100)) := by
  obtain ⟨hmono, hnn, hpos⟩ := hsqrt
  have key : ∀ x' y' : Nat, x' < cols → y' < rows →
      0 ≤ prim.sqrt (((x' : ℚ) - (cols : ℚ) / 2) * ((x' : ℚ) - (cols : ℚ) / 2)
          + ((y' : ℚ) - (rows : ℚ) / 2) * ((y' : ℚ) - (rows : ℚ) / 2))
          / prim.sqrt ((cols : ℚ) / 2 * ((cols : ℚ) / 2) + (rows : ℚ) / 2 * ((rows : ℚ) / 2))
        ∧ prim.sqrt (((x' : ℚ) - (cols : ℚ) / 2) * ((x' : ℚ) - (cols : ℚ) / 2)
          + ((y' : ℚ) - (rows : ℚ) / 2) * ((y' : ℚ) - (rows : ℚ) / 2))
          / prim.sqrt ((cols : ℚ) / 2 * ((cols : ℚ) / 2) + (rows : ℚ) / 2 * ((rows : ℚ) / 2))
          ≤ 1 := by
    intro x' y' hx' hy'
    obtain ⟨a0, a1, a2⟩ := vignette_arg_le cols rows x' y' hx' hy'
    have hm := hpos _ a2
    exact ⟨div_nonneg (hnn _ a0) hm.le, (div_le_one hm).mpr (hmono _ _ a0 a1)⟩
  have bounds : ∀ x' y' : Nat, x' < cols → y' < rows →
      min 1 (1 + vignetting / 100) ≤ vignette_factor prim cols rows vignetting x' y'
        ∧ vignette_factor prim cols rows vignetting x' y' ≤ max 1 (1 + vignetting / 100) := by
    intro x' y' hx' hy'
    obtain ⟨k0, k1⟩ := key x' y' hx' hy'
    unfold vignette_factor
    simp only []
    rcases le_total 0 vignetting with hv | hv
    · rw [min_eq_left (by linarith), max_eq_right (by linarith)]
      constructor <;> nlinarith
    · rw [min_eq_right (by linarith), max_eq_left (by linarith)]
      constructor <;> nlinarith
  obtain ⟨a0, a1, a2⟩ := vignette_arg_le cols rows x y hx hy
  obtain ⟨k0, k1⟩ := key x y hx hy
  refine ⟨hpos _ a2, hnn _ a0, hmono _ _ a0 a1, rfl, (bounds x y hx hy).1, (bounds x y hx hy).2,
    ?_, ?_, ?_, ?_⟩
  · intro hv
    have b := bounds x y hx hy
    rw [min_eq_left (by linarith), max_eq_right (by linarith)] at b
    exact b
  · intro hv
    have b := bounds x y hx hy
    rw [min_eq_right (by linarith), max_eq_left (by linarith)] at b
    exact b
  · unfold vignette_factor
    simp only [Nat.cast_zero, zero_sub, neg_mul_neg]
    rw [div_self (hpos _ a2).ne.symm]
    ring
  · intro image hc hr f hf
    unfold vignette_mask at hf
    simp only [List.mem_flatMap, List.mem_map, List.mem_range] at hf
    obtain ⟨y', hy', x', hx', rfl⟩ := hf
    rw [hc, hr]
    exact bounds x' y' (hc ▸ hx') (hr ▸ hy')

theorem passThrough_sqrt_monotone : sqrt_is_monotone Prim.passThrough :=
  ⟨fun _ _ _ h => h, fun _ h => h, fun _ h => h⟩

theorem vignette_bounds_witness :
    sqrt_is_monotone Prim.passThrough
      ∧ vignette_factor Prim.passThrough 4 2 30 0 0 = 1
      ∧ vignette_factor Prim.passThrough 4 2 30 2 1 ≤ max 1 (1 + 30 / 100) :=
  ⟨passThrough_sqrt_monotone,
    (vignette_bounds Prim.passThrough 4 2 30 2 1 passThrough_sqrt_monotone
      (by decide) (by decide)).2.2.2.2.2.2.2.2.1,
    (vignette_bounds Prim.passThrough 4 2 30 2 1 passThrough_sqrt_monotone
      (by decide) (by decide)).2.2.2.2.2.1⟩

theorem process_with_libraw_cache_blind {L : Type} (env : Env L) (prim : Prim)
    (self : RawProcessor L) (options : ProcessingOptions) (m : Mat) (b : Bool) :
    (process_with_libraw env prim { self with cached_image_ := m, cache_valid_ := b }
        options).1
      = (process_with_libraw env prim self options).1 := by
  unfold process_with_libraw
  simp only []
  by_cases h1 : (env.dcraw_process self.libraw_).1 ≠ LIBRAW_SUCCESS
  · rw [if_pos h1, if_pos h1]
  · rw [if_neg h1, if_neg h1]
    cases (env.dcraw_make_mem_image (env.dcraw_process self.libraw_).2).2.1 with
    | none => rfl
    | some p =>
      simp only []
      split_ifs <;> rfl

theorem process_full_image_cache_blind {L : Type} (env : Env L) (prim : Prim)
    (s : RawProcessor L) (params : AdjustmentParams) (options : ProcessingOptions)
    (m : Mat) (b : Bool) :
    (process_full_image env prim { s with cached_image_ := m, cache_valid_ := b }
        params options).1
      = (process_full_image env prim s params options).1 := by
  have h := process_with_libraw_cache_blind env prim s { options with preview_mode := false }
    m b
  have key : ∀ x1 x2 : Except Exn Mat × RawProcessor L, x1.1 = x2.1 →
      (match x1 with
        | (Except.error e, self) => ((Except.error e : Except Exn ImageResult), self)
        | (Except.ok base_image, self) =>
          if base_image.empty then
            (pure (ProcessingResult.ofError ResultCode.ERROR_PROCESSING_FAILED
              "Failed to process RAW at full resolution"), self)
          else
            (pure (full_catch (full_try prim base_image params
              { options with preview_mode := false })), self)).1
      = (match x2 with
        | (Except.error e, self) => ((Except.error e : Except Exn ImageResult), self)
        | (Except.ok base_image, self) =>
          if base_image.empty then
            (pure (ProcessingResult.ofError ResultCode.ERROR_PROCESSING_FAILED
              "Failed to process RAW at full resolution"), self)
          else
            (pure (full_catch (full_try prim base_image params
              { options with preview_mode := false })), self)).1 := by
    intro x1 x2 hx
    obtain ⟨r1, s1⟩ := x1
    obtain ⟨r2, s2⟩ := x2
    simp only at hx
    subst hx
    cases r1 with
    | error e => rfl
    | ok image =>
      simp only []
      split_ifs <;> rfl
  unfold process_full_image
  by_cases hl : s.is_loaded_ = true
  · have c1 : ¬ ((!({ s with cached_image_ := m, cache_valid_ := b } :
        RawProcessor L).is_loaded_) = true) := by simp [hl]
    have c2 : ¬ ((!s.is_loaded_) = true) := by simp [hl]
    rw [if_neg c1, if_neg c2]
    exact key _ _ h
  · have c1 : (!({ s with cached_image_ := m, cache_valid_ := b } :
        RawProcessor L).is_loaded_) = true := by simpa using hl
    have c2 : (!s.is_loaded_) = true := by simpa using hl
    rw [if_pos c1, if_pos c2]

theorem process_full_image_decodes {L : Type} (env : Env L) (prim : Prim)
    (s : RawProcessor L) (params : AdjustmentParams) (options : ProcessingOptions) :
    (s.is_loaded_ = true →
        (process_full_image env prim s params options).2.decode_calls = s.decode_calls + 1)
      ∧ (s.is_loaded_ = false →
        process_full_image env prim s params options
          = (Except.ok (ProcessingResult.ofError ResultCode.ERROR_INVALID_PARAMETERS
              "No RAW file loaded"), s)) := by
  constructor
  · intro hl
    unfold process_full_image
    simp only [hl, Bool.not_true, Bool.false_eq_true, if_false]
    obtain ⟨l, hf⟩ := process_with_libraw_frame env prim s { options with preview_mode := false }
    revert hf
    rcases process_with_libraw env prim s _ with ⟨r, s''⟩
    intro hf
    simp only at hf
    subst hf
    cases r with
    | error e => rfl
    | ok image =>
      simp only []
      split_ifs <;> rfl
  · intro hl
    unfold process_full_image
    simp only [hl, Bool.not_false, if_true]
    rfl

/-- C29, the claim as stated fails.  On the example session before any load,
`process_full_image` returns `ERROR_INVALID_PARAMETERS` and the decode count stays 0: not
every call invokes decode. -/
theorem full_image_not_loaded_does_not_decode :
    (process_full_image Env.counting Prim.passThrough RawProcessor.fresh {} {}).1.map
        (fun r => r.code) = Except.ok ResultCode.ERROR_INVALID_PARAMETERS
      ∧ (process_full_image Env.counting Prim.passThrough RawProcessor.fresh {} {}).2.decode_calls
          = RawProcessor.fresh.decode_calls := by
  rw [(process_full_image_decodes Env.counting Prim.passThrough RawProcessor.fresh {} {}).2 rfl]
  exact ⟨rfl, rfl⟩

/-- C29 (`process_full_image` and the cache), amended.  For every session state, params
and options, the cached raster and the `cache_valid` flag are the same after
`process_full_image` as before it, and its result is the same whatever the cache holds.  On
every loaded session it invokes decode, exactly once per call, also when the cache is valid;
on a session that is not loaded it is rejected with `ERROR_INVALID_PARAMETERS` without
invoking decode. -/
theorem full_image_ignores_cache {L : Type} (env : Env L) (prim : Prim) (s : RawProcessor L)
    (params : AdjustmentParams) (options : ProcessingOptions) :
    (process_full_image env prim s params options).2.cached_image_ = s.cached_image_
      ∧ (process_full_image env prim s params options).2.cache_valid_ = s.cache_valid_
      ∧ (∀ (m : Mat) (b : Bool),
          (process_full_image env prim { s with cached_image_ := m, cache_valid_ := b }
              params options).1
            = (process_full_image env prim s params options).1)
      ∧ (s.is_loaded_ = true →
          (process_full_image env prim s params options).2.decode_calls = s.decode_calls + 1)
      ∧ (s.is_loaded_ = false →
          (process_full_image env prim s params options).2.decode_calls = s.decode_calls
            ∧ (process_full_image env prim s params options).1
              = Except.ok (ProcessingResult.ofError ResultCode.ERROR_INVALID_PARAMETERS
                  "No RAW file loaded")) := by
  have hf := process_full_image_frame env prim s params options
  have hd := process_full_image_decodes env prim s params options
  refine ⟨hf.1, hf.2.1, process_full_image_cache_blind env prim s params options, hd.1, ?_⟩
  intro hl
  rw [hd.2 hl]
  exact ⟨rfl, rfl⟩

theorem full_image_ignores_cache_example :
    cache_hit RawProcessor.rendered = true
      ∧ (process_full_image Env.counting Prim.passThrough RawProcessor.rendered {}
          {}).2.decode_calls = RawProcessor.rendered.decode_calls + 1 :=
  ⟨by decide, (full_image_ignores_cache Env.counting Prim.passThrough RawProcessor.rendered {}
    {}).2.2.2.1 (by decide)⟩

theorem zeros_length (n : Nat) : (zeros n).length = n := List.length_replicate n 0

theorem memcpy_all (src : List Nat) :
    memcpy (List.replicate src.length 0) src src.length = src := by
  simp [memcpy]

theorem convert_image_data_valid (img : ImageData) (hv : img.is_valid = true)
    (hlen : img.data.length < 2 ^ 32) :
    convert_image_data img
      = { data := some img.data, width := img.width, height := img.height,
          channels := img.channels, data_length := img.data.length } := by
  unfold convert_image_data
  simp only [hv, Bool.not_true, Bool.false_eq_true, if_false, Nat.mod_eq_of_lt hlen,
    memcpy_all]

theorem convert_from_ffi_some (ffi : FFIImageData) (bytes : List Nat)
    (hd : ffi.data = some bytes) (hl : ffi.data_length ≠ 0) :
    convert_from_ffi_image_data ffi
      = { ImageData.alloc ffi.width ffi.height ffi.channels 8 with
          data := memcpy (ImageData.alloc ffi.width ffi.height ffi.channels 8).data bytes
            (min ffi.data_length
              (ImageData.alloc ffi.width ffi.height ffi.channels 8).data.length) } := by
  unfold convert_from_ffi_image_data
  rw [hd]
  simp only [if_neg hl]

/-- C30, the claim as stated fails.  The image of 65536 × 65536 single bytes has bit depth
8, positive dimensions and a buffer of exactly `width * height * channels = 2 ^ 32` bytes;
`convert_image_data` stores its length as `uint32_t`, which is 0, and
`convert_from_ffi_image_data` then returns the empty `ImageData()`, not the image. -/
theorem huge_image_does_not_round_trip :
    hugeImage.bit_depth = 8 ∧ 0 < hugeImage.width ∧ 0 < hugeImage.height
      ∧ 0 < hugeImage.channels
      ∧ hugeImage.data.length = hugeImage.width * hugeImage.height * hugeImage.channels
      ∧ (convert_image_data hugeImage).data_length = 0
      ∧ convert_from_ffi_image_data (convert_image_data hugeImage) = ImageData.empty
      ∧ convert_from_ffi_image_data (convert_image_data hugeImage) ≠ hugeImage := by
  have hv : hugeImage.is_valid = true := rfl
  have hlen : hugeImage.data.length = 2 ^ 32 := zeros_length (2 ^ 32)
  have hc : convert_image_data hugeImage
      = { data := some (memcpy (List.replicate 0 0) hugeImage.data 0),
          width := 65536, height := 65536, channels := 1, data_length := 0 } := by
    unfold convert_image_data
    rw [hv]
    simp only [Bool.not_true, Bool.false_eq_true, if_false, hlen, Nat.mod_self]
    rfl
  have hr : convert_from_ffi_image_data (convert_image_data hugeImage) = ImageData.empty := by
    rw [hc]
    unfold convert_from_ffi_image_data
    simp only [if_true]
  refine ⟨rfl, Nat.zero_lt_succ _, Nat.zero_lt_succ _, Nat.zero_lt_succ _, ?_, ?_, hr, ?_⟩
  · rw [hlen]
    rfl
  · rw [hc]
  · rw [hr]
    intro h
    have hw : ImageData.empty.width = hugeImage.width := by rw [h]
    exact absurd hw (by decide)

/-- C30 (FFI image round trip), amended.  For every `ImageData` with `bit_depth = 8`,
positive width, height and channels, a buffer of `width * height * channels` bytes and
`width * height * channels < 2 ^ 32`, `convert_from_ffi_image_data(convert_image_data(img))`
equals `img`.  For any FFI image with a buffer and a non-zero `data_length`, the number of
bytes copied is `min(data_length, (width * height * channels) mod 2 ^ 32)`, never more than
`data_length` or than the destination holds; with a null buffer or `data_length = 0` nothing
is copied and the empty image is returned. -/
theorem ffi_image_round_trip (img : ImageData) (h8 : img.bit_depth = 8)
    (hw : 0 < img.width) (hh : 0 < img.height) (hc : 0 < img.channels)
    (hlen : img.data.length = img.width * img.height * img.channels)
    (hsmall : img.width * img.height * img.channels < 2 ^ 32) :
    convert_from_ffi_image_data (convert_image_data img) = img
      ∧ (∀ (ffi : FFIImageData) (bytes : List Nat),
          ffi.data = some bytes → ffi.data_length ≠ 0 →
          (convert_from_ffi_image_data ffi).data
              = memcpy (List.replicate ((ffi.width * ffi.height * ffi.channels) % 2 ^ 32) 0)
                  bytes
                  (min ffi.data_length ((ffi.width * ffi.height * ffi.channels) % 2 ^ 32))
            ∧ min ffi.data_length ((ffi.width * ffi.height * ffi.channels) % 2 ^ 32)
                ≤ ffi.data_length
            ∧ min ffi.data_length ((ffi.width * ffi.height * ffi.channels) % 2 ^ 32)
                ≤ (ImageData.alloc ffi.width ffi.height ffi.channels 8).data.length)
      ∧ (∀ ffi : FFIImageData, ffi.data = none ∨ ffi.data_length = 0 →
          convert_from_ffi_image_data ffi = ImageData.empty) := by
  have halloc : ∀ w h c : Nat,
      (ImageData.alloc w h c 8).data = List.replicate ((w * h * c) % 2 ^ 32) 0 := by
    intro w h c
    simp [ImageData.alloc]
  refine ⟨?_, ?_, ?_⟩
  · cases img with
    | mk data width height channels bit_depth =>
      simp only at h8 hw hh hc hlen hsmall
      subst h8
      have hv : (⟨data, width, height, channels, 8⟩ : ImageData).is_valid = true := by
        simp [ImageData.is_valid, hw, hh, hc]
      have hl32 : data.length < 2 ^ 32 := by rw [hlen]; exact hsmall
      have hpos : data.length ≠ 0 := by
        rw [hlen]
        exact (Nat.mul_pos (Nat.mul_pos hw hh) hc).ne.symm
      rw [convert_image_data_valid _ hv hl32, convert_from_ffi_some _ data rfl hpos]
      simp only [halloc, List.length_replicate, ← hlen, Nat.mod_eq_of_lt hl32, min_self,
        memcpy_all]
      rfl
  · intro ffi bytes hd hl
    rw [convert_from_ffi_some ffi bytes hd hl]
    simp only [halloc, List.length_replicate]
    exact ⟨trivial, min_le_left _ _, min_le_right _ _⟩
  · intro ffi h
    unfold convert_from_ffi_image_data
    rcases h with h | h
    · rw [h]
    · cases ffi.data with
      | none => rfl
      | some bytes => simp only [h, if_true]

theorem ffi_image_round_trip_witness :
    convert_from_ffi_image_data (convert_image_data twoPixelImage) = twoPixelImage :=
  (ffi_image_round_trip twoPixelImage rfl (by decide) (by decide) (by decide) (by decide)
    (by decide)).1

end RawEditor
